import Mathlib

/-! # Vulkan_Transcoder: device selection, set-up, the transcode loop and `main`

A shallow embedding of `src/VulkanBase.cpp`, `src/H264Demuxer.cpp`,
`src/H265Muxer.cpp`, `src/VideoTranscoder.cpp` and `src/main.cpp`.

Conventions of the embedding.

* A Vulkan handle is an `Option`: `none` is `VK_NULL_HANDLE`.  The handle of a
  physical device is its position in the list that
  `vkEnumeratePhysicalDevices` fills.
* What the driver and the container library answer is an explicit argument
  (`VulkanDriver`, `PhysicalDevice`, `Env`); the code under study is a function
  of those answers.
* A C++ exception is a value of `StdException`; a method that can throw
  returns the state it leaves behind together with `Option StdException`
  (for the transcode loop, a `Run` with its `Outcome`).
* An object of the frame ring (fence, semaphore, command buffer, staging
  buffer, image, image view) is named by the ring slot that owns it, so two
  objects are the same exactly when they are the same member of the same slot.
* The transcode loop is read through the calls the host makes, in program
  order (`Event`); the ring size `NUM_FRAME_RESOURCES` is an argument
  `numFrameResources` of the loop.
* A constructor returns the calls it made together with a `Constructed`
  value: the object, or the exception that left no object behind.  When a
  constructor or `run` throws, the members and objects already constructed are
  destroyed in the order the language prescribes, and the calls of their
  destructors are part of the trace (`HostCall`).
* Console output (`std::cout`, `std::cerr`) is not part of the embedding.
-/

namespace VulkanTranscoder

/-! ## Constants of the Vulkan headers -/

/-- Queue flag `VK_QUEUE_VIDEO_DECODE_BIT_KHR` of `vulkan_core.h`. -/
def VK_QUEUE_VIDEO_DECODE_BIT_KHR : Nat := 0x00000020

/-- Queue flag `VK_QUEUE_VIDEO_ENCODE_BIT_KHR` of `vulkan_core.h`. -/
def VK_QUEUE_VIDEO_ENCODE_BIT_KHR : Nat := 0x00000040

/-- Codec operation `VK_VIDEO_CODEC_OPERATION_DECODE_H264_BIT_KHR`. -/
def VK_VIDEO_CODEC_OPERATION_DECODE_H264_BIT_KHR : Nat := 0x00000001

/-- Codec operation `VK_VIDEO_CODEC_OPERATION_DECODE_H265_BIT_KHR`. -/
def VK_VIDEO_CODEC_OPERATION_DECODE_H265_BIT_KHR : Nat := 0x00000002

/-- Codec operation `VK_VIDEO_CODEC_OPERATION_ENCODE_H264_BIT_KHR`. -/
def VK_VIDEO_CODEC_OPERATION_ENCODE_H264_BIT_KHR : Nat := 0x00010000

/-- Codec operation `VK_VIDEO_CODEC_OPERATION_ENCODE_H265_BIT_KHR`. -/
def VK_VIDEO_CODEC_OPERATION_ENCODE_H265_BIT_KHR : Nat := 0x00020000

/-- Device type `VK_PHYSICAL_DEVICE_TYPE_DISCRETE_GPU`. -/
def VK_PHYSICAL_DEVICE_TYPE_DISCRETE_GPU : Nat := 2

/-- Result code `VK_SUCCESS`. -/
def VK_SUCCESS : Int := 0

/-- Vendor id of `VulkanBase.cpp`, line 8. -/
def NVIDIA_VENDOR_ID : Nat := 0x10de

/-! ## Data model of `VulkanBase.hpp` -/

/-- One entry of `vkGetPhysicalDeviceQueueFamilyProperties2`: the generic
`queueFlags` of `VkQueueFamilyProperties` and the `videoCodecOperations` of the
chained `VkQueueFamilyVideoPropertiesKHR`. -/
structure QueueFamilyProperties where
  queueFlags : Nat
  videoCodecOperations : Nat
  deriving DecidableEq, Repr

/-- What the driver reports about one adapter. -/
structure PhysicalDevice where
  vendorID : Nat
  deviceType : Nat
  queueFamilies : List QueueFamilyProperties
  extensions : List String
  deriving DecidableEq, Repr

/-- The `QueueFamilyIndices` of `VulkanBase.hpp`: two `std::optional<uint32_t>`. -/
structure QueueFamilyIndices where
  decodeFamily : Option Nat := none
  encodeFamily : Option Nat := none
  deriving DecidableEq, Repr

/-- The member `QueueFamilyIndices::isComplete`. -/
def QueueFamilyIndices.isComplete (q : QueueFamilyIndices) : Bool :=
  q.decodeFamily.isSome && q.encodeFamily.isSome

/-- The exceptions the sources throw, each with its `what()` text. -/
inductive StdException where
  | runtime_error (what : String)
  | invalid_argument (what : String)
  | bad_optional_access
  deriving DecidableEq, Repr

/-- The member `VulkanBase::deviceExtensions`, with the extension-name macros
of the Vulkan headers expanded. -/
def deviceExtensions : List String :=
  [ "VK_KHR_video_queue",
    "VK_KHR_video_decode_queue",
    "VK_KHR_video_decode_h264",
    "VK_KHR_video_encode_queue",
    "VK_KHR_video_encode_h265",
    "VK_KHR_synchronization2",
    "VK_KHR_sampler_ycbcr_conversion" ]

/-! ## `VulkanBase::findQueueFamilies` -/

/-- One pass of the loop body of `findQueueFamilies` (lines 200-209) at index `i`. -/
def findQueueFamiliesStep (q : QueueFamilyProperties) (i : Nat)
    (indices : QueueFamilyIndices) : QueueFamilyIndices :=
  let indices :=
    if q.queueFlags &&& VK_QUEUE_VIDEO_DECODE_BIT_KHR ≠ 0 then
      if !indices.decodeFamily.isSome then { indices with decodeFamily := some i } else indices
    else indices
  if q.queueFlags &&& VK_QUEUE_VIDEO_ENCODE_BIT_KHR ≠ 0 then
    if !indices.encodeFamily.isSome then { indices with encodeFamily := some i } else indices
  else indices

/-- The loop `for (uint32_t i = 0; i < queueFamilyCount; ++i)` of
`findQueueFamilies`, entered at index `i` with the families still to visit.
The count is a `uint32_t`, so `i` never wraps. -/
def findQueueFamiliesLoop : List QueueFamilyProperties → Nat → QueueFamilyIndices →
    QueueFamilyIndices
  | [], _, indices => indices
  | q :: rest, i, indices => findQueueFamiliesLoop rest (i + 1) (findQueueFamiliesStep q i indices)

/-- The method `VulkanBase::findQueueFamilies`. -/
def findQueueFamilies (device : PhysicalDevice) : QueueFamilyIndices :=
  findQueueFamiliesLoop device.queueFamilies 0 {}

/-- A family advertises the video-decode operation: the test of line 200. -/
def advertisesDecode (q : QueueFamilyProperties) : Bool :=
  q.queueFlags &&& VK_QUEUE_VIDEO_DECODE_BIT_KHR != 0

/-- A family advertises the video-encode operation: the test of line 205. -/
def advertisesEncode (q : QueueFamilyProperties) : Bool :=
  q.queueFlags &&& VK_QUEUE_VIDEO_ENCODE_BIT_KHR != 0

/-- Index `i` is the smallest index of `l` whose entry satisfies `p`. -/
def IsSmallestIndex {α : Type} (p : α → Bool) (l : List α) (i : Nat) : Prop :=
  (∃ a, l[i]? = some a ∧ p a = true) ∧ ∀ j a, j < i → l[j]? = some a → p a = false

/-- The first index, counted from `i`, of an entry of the list satisfying `p`:
the shape of every first-match loop of `VulkanBase.cpp`. -/
def firstIndexFrom {α : Type} (p : α → Bool) : List α → Nat → Option Nat
  | [], _ => none
  | a :: rest, i => if p a then some i else firstIndexFrom p rest (i + 1)

/-! ## `VulkanBase::checkDeviceExtensionSupport` and `VulkanBase::isDeviceSuitable` -/

/-- The loop of lines 225-233 over `deviceExtensions`: `allFound` is cleared
when `available.count(requiredExt)` is zero. -/
def checkDeviceExtensionLoop (available : List String) : List String → Bool → Bool
  | [], allFound => allFound
  | requiredExt :: rest, allFound =>
    if List.count requiredExt available ≠ 0 then checkDeviceExtensionLoop available rest allFound
    else checkDeviceExtensionLoop available rest false

/-- The method `VulkanBase::checkDeviceExtensionSupport`.  The
`std::set<std::string>` named `available` is a list without repetition, filled
by inserting each reported extension name. -/
def checkDeviceExtensionSupport (device : PhysicalDevice) : Bool :=
  let available := device.extensions.foldl (fun s extensionName => List.insert extensionName s) []
  checkDeviceExtensionLoop available deviceExtensions true

/-- The method `VulkanBase::isDeviceSuitable`. -/
def isDeviceSuitable (device : PhysicalDevice) : Bool :=
  let indices := findQueueFamilies device
  let queuesFound := indices.isComplete
  let extensionsSupported := checkDeviceExtensionSupport device
  if queuesFound && extensionsSupported then true else false

/-! ## `VulkanBase::pickPhysicalDevice`, `createInstance`, `createLogicalDevice`, `initVulkan` -/

/-- The members of `VulkanBase` (`VulkanBase.hpp`, lines 42-47); the member
`instance` is named `vkInstance` here. -/
structure VulkanBase where
  vkInstance : Option Unit := none
  physicalDevice : Option Nat := none
  device : Option Unit := none
  decodeQueue : Option Nat := none
  encodeQueue : Option Nat := none
  queueFamilyIndices : QueueFamilyIndices := {}
  deriving DecidableEq, Repr

/-- The answers of the Vulkan loader and driver that `VulkanBase` depends on:
the result of `vkCreateInstance`, the adapters `vkEnumeratePhysicalDevices`
lists, and the result of `vkCreateDevice`. -/
structure VulkanDriver where
  vkCreateInstance : Int
  physicalDevices : List PhysicalDevice
  vkCreateDevice : Int
  deriving DecidableEq, Repr

/-- The test of line 83 on an adapter. -/
def isNvidiaDiscrete (device : PhysicalDevice) : Bool :=
  device.vendorID == NVIDIA_VENDOR_ID && device.deviceType == VK_PHYSICAL_DEVICE_TYPE_DISCRETE_GPU

/-- The first loop of `pickPhysicalDevice` (lines 80-89), entered at position
`i`; the last argument is the member `physicalDevice`. -/
def pickPhysicalDeviceNvidiaLoop : List PhysicalDevice → Nat → Option Nat → Option Nat
  | [], _, physicalDevice => physicalDevice
  | device :: rest, i, physicalDevice =>
    if isNvidiaDiscrete device then
      if isDeviceSuitable device then some i
      else pickPhysicalDeviceNvidiaLoop rest (i + 1) physicalDevice
    else pickPhysicalDeviceNvidiaLoop rest (i + 1) physicalDevice

/-- The second loop of `pickPhysicalDevice` (lines 93-98). -/
def pickPhysicalDeviceAnyLoop : List PhysicalDevice → Nat → Option Nat → Option Nat
  | [], _, physicalDevice => physicalDevice
  | device :: rest, i, physicalDevice =>
    if isDeviceSuitable device then some i
    else pickPhysicalDeviceAnyLoop rest (i + 1) physicalDevice

/-- The method `VulkanBase::pickPhysicalDevice`: the object it leaves and the
exception it throws, if any. -/
def pickPhysicalDevice (driver : VulkanDriver) (self : VulkanBase) :
    VulkanBase × Option StdException :=
  let devices := driver.physicalDevices
  if devices.length = 0 then
    (self, some (.runtime_error "Failed to find GPUs with Vulkan support!"))
  else
    let self := { self with
      physicalDevice := pickPhysicalDeviceNvidiaLoop devices 0 self.physicalDevice }
    let self :=
      if self.physicalDevice = none then
        { self with physicalDevice := pickPhysicalDeviceAnyLoop devices 0 self.physicalDevice }
      else self
    if self.physicalDevice = none then
      (self, some (.runtime_error "Failed to find a suitable GPU!"))
    else (self, none)

/-- The method `VulkanBase::createInstance`; the create-info it fills is an
input of the loader and is not kept. -/
def createInstance (driver : VulkanDriver) (self : VulkanBase) :
    VulkanBase × Option StdException :=
  if driver.vkCreateInstance ≠ VK_SUCCESS then
    (self, some (.runtime_error "Failed to create Vulkan instance!"))
  else ({ self with vkInstance := some () }, none)

/-- What the driver reports for a physical-device handle; a handle that names
no adapter is given no family and no extension. -/
def adapterOf (driver : VulkanDriver) (physicalDevice : Option Nat) : PhysicalDevice :=
  match physicalDevice with
  | some i => driver.physicalDevices.getD i
      { vendorID := 0, deviceType := 0, queueFamilies := [], extensions := [] }
  | none => { vendorID := 0, deviceType := 0, queueFamilies := [], extensions := [] }

/-- The method `VulkanBase::createLogicalDevice`.  `std::optional::value()`
throws `bad_optional_access` on an empty optional; the create-info handed to
`vkCreateDevice` is an input of the driver and is not kept; the handle of
queue 0 of a family is the family index. -/
def createLogicalDevice (driver : VulkanDriver) (self : VulkanBase) :
    VulkanBase × Option StdException :=
  let self := { self with
    queueFamilyIndices := findQueueFamilies (adapterOf driver self.physicalDevice) }
  match self.queueFamilyIndices.decodeFamily, self.queueFamilyIndices.encodeFamily with
  | some decodeFamily, some encodeFamily =>
    if driver.vkCreateDevice ≠ VK_SUCCESS then
      (self, some (.runtime_error "Failed to create logical device!"))
    else
      ({ self with device := some (), decodeQueue := some decodeFamily,
                   encodeQueue := some encodeFamily }, none)
  | _, _ => (self, some .bad_optional_access)

/-- The method `VulkanBase::initVulkan`. -/
def initVulkan (driver : VulkanDriver) (self : VulkanBase) : VulkanBase × Option StdException :=
  match createInstance driver self with
  | (self, some e) => (self, some e)
  | (self, none) =>
    match pickPhysicalDevice driver self with
    | (self, some e) => (self, some e)
    | (self, none) => createLogicalDevice driver self

/-- An adapter of the preferred tier that is also suitable: the condition under
which the first loop of `pickPhysicalDevice` stops. -/
def isPreferredSuitable (device : PhysicalDevice) : Bool :=
  isNvidiaDiscrete device && isDeviceSuitable device

/-- The queue roles named by the classified errors of the specification. -/
inductive QueueRole where
  | decode
  | encode
  deriving DecidableEq, Repr

/-- The classified errors the specification lists for the GPU context:
`NoAdapter`, `NoVideoQueue { role }`, `MissingExtension { name }`,
`DeviceCreationFailed`. -/
inductive ContextError where
  | NoAdapter
  | NoVideoQueue (role : QueueRole)
  | MissingExtension (name : String)
  | DeviceCreationFailed
  deriving DecidableEq, Repr

/-- A loader and driver on which instance creation and device creation succeed,
listing the given adapters. -/
def workingDriver (devices : List PhysicalDevice) : VulkanDriver :=
  { vkCreateInstance := VK_SUCCESS, physicalDevices := devices, vkCreateDevice := VK_SUCCESS }

/-! ## Sample adapters -/

/-- An adapter whose family 0 decodes only and whose family 1 does both. -/
def adapterDecodeThenCombined : PhysicalDevice :=
  { vendorID := 0x8086, deviceType := 1,
    queueFamilies := [ { queueFlags := 0x20, videoCodecOperations := 0x1 },
                       { queueFlags := 0x60, videoCodecOperations := 0x20001 } ],
    extensions := deviceExtensions }

/-- An adapter with a graphics family, then a combined video family, then a
decode-only family. -/
def adapterCombinedSecond : PhysicalDevice :=
  { vendorID := 0x10de, deviceType := 2,
    queueFamilies := [ { queueFlags := 0x7, videoCodecOperations := 0 },
                       { queueFlags := 0x60, videoCodecOperations := 0x20001 },
                       { queueFlags := 0x20, videoCodecOperations := 0x1 } ],
    extensions := deviceExtensions }

/-- An adapter whose family 0 has the generic decode flag with H.265 decode
only, whose family 1 decodes H.264 and whose family 2 encodes H.265. -/
def adapterWrongCodecFirst : PhysicalDevice :=
  { vendorID := 0x1002, deviceType := 2,
    queueFamilies := [ { queueFlags := 0x20, videoCodecOperations := 0x2 },
                       { queueFlags := 0x20, videoCodecOperations := 0x1 },
                       { queueFlags := 0x40, videoCodecOperations := 0x20000 } ],
    extensions := deviceExtensions }

/-- An adapter with every required extension and a decode family, but no
encode family. -/
def adapterNoEncode : PhysicalDevice :=
  { vendorID := 0x10de, deviceType := 2,
    queueFamilies := [ { queueFlags := 0x7, videoCodecOperations := 0 },
                       { queueFlags := 0x20, videoCodecOperations := 0x1 } ],
    extensions := deviceExtensions }

/-- An adapter with every required extension and an encode family, but no
decode family. -/
def adapterNoDecode : PhysicalDevice :=
  { vendorID := 0x10de, deviceType := 2,
    queueFamilies := [ { queueFlags := 0x7, videoCodecOperations := 0 },
                       { queueFlags := 0x40, videoCodecOperations := 0x20000 } ],
    extensions := deviceExtensions }

/-- An integrated adapter of another vendor that is suitable. -/
def adapterIntegratedSuitable : PhysicalDevice :=
  { vendorID := 0x8086, deviceType := 1,
    queueFamilies := [ { queueFlags := 0x60, videoCodecOperations := 0x20001 } ],
    extensions := "VK_KHR_swapchain" :: deviceExtensions }

/-- A discrete NVIDIA adapter that is suitable. -/
def adapterNvidiaSuitable : PhysicalDevice :=
  { vendorID := 0x10de, deviceType := 2,
    queueFamilies := [ { queueFlags := 0x7, videoCodecOperations := 0 },
                       { queueFlags := 0x20, videoCodecOperations := 0x1 },
                       { queueFlags := 0x40, videoCodecOperations := 0x20000 } ],
    extensions := deviceExtensions }

/-- A discrete NVIDIA adapter with both video families that lacks the
`VK_KHR_video_encode_h265` extension. -/
def adapterNvidiaMissingExtension : PhysicalDevice :=
  { vendorID := 0x10de, deviceType := 2,
    queueFamilies := [ { queueFlags := 0x60, videoCodecOperations := 0x20001 } ],
    extensions := [ "VK_KHR_video_queue", "VK_KHR_video_decode_queue",
                    "VK_KHR_video_decode_h264", "VK_KHR_video_encode_queue",
                    "VK_KHR_synchronization2", "VK_KHR_sampler_ycbcr_conversion" ] }

/-! ## Constants of `VideoTranscoder.cpp` and of the headers it uses -/

/-- The constant `BITSTREAM_BUFFER_SIZE` (line 14): every staging buffer is
created and mapped with this size (lines 271-279). -/
def BITSTREAM_BUFFER_SIZE : Nat := 2 * 1024 * 1024

/-- The constant `NUM_FRAME_RESOURCES` (line 15). -/
def NUM_FRAME_RESOURCES : Nat := 1

/-- The constant `DPB_SIZE` (line 16). -/
def DPB_SIZE : Nat := 8

/-- Pipeline stage `VK_PIPELINE_STAGE_2_VIDEO_ENCODE_BIT_KHR`. -/
def VK_PIPELINE_STAGE_2_VIDEO_ENCODE_BIT_KHR : Nat := 0x08000000

/-- Image layout `VK_IMAGE_LAYOUT_UNDEFINED`. -/
def VK_IMAGE_LAYOUT_UNDEFINED : Nat := 0

/-- Image layout `VK_IMAGE_LAYOUT_VIDEO_DECODE_DST_KHR`. -/
def VK_IMAGE_LAYOUT_VIDEO_DECODE_DST_KHR : Nat := 1000024000

/-- Image layout `VK_IMAGE_LAYOUT_VIDEO_ENCODE_SRC_KHR`. -/
def VK_IMAGE_LAYOUT_VIDEO_ENCODE_SRC_KHR : Nat := 1000299001

/-- Packet flag `AV_PKT_FLAG_KEY` of libavcodec. -/
def AV_PKT_FLAG_KEY : Nat := 0x0001

/-- Conversion of an integer to `int` (32 bits, two's complement). -/
def toInt32 (x : Int) : Int := (x + 2 ^ 31) % 2 ^ 32 - 2 ^ 31

/-- Conversion of an integer to `uint32_t`. -/
def toUInt32 (x : Int) : Nat := (x % 2 ^ 32).toNat

/-! ## Container packets, demuxer and muxer state -/

/-- An `AVPacket` as the demuxer delivers it: its stream index and the number
of payload bytes (`size`).  The payload bytes themselves are only copied by the
code under study and are not represented. -/
structure AVPacket where
  stream_index : Int
  size : Nat
  deriving DecidableEq, Repr

/-- The fields of `AVCodecParameters` the sources read. -/
structure AVCodecParameters where
  codec_id : Nat
  width : Int
  height : Int
  extradata : List Nat
  deriving DecidableEq, Repr

/-- The members of `H264Demuxer`.  The open `formatContext` is represented by
`pending`: the packets `av_read_frame` will still deliver, in order, before it
reports end of file or an error. -/
structure H264Demuxer where
  videoStreamIndex : Int := -1
  codecParameters : Option AVCodecParameters := none
  sps_pps_data : List Nat := []
  pending : List AVPacket := []
  deriving DecidableEq, Repr

/-- The accessor `H264Demuxer::getVideoStreamIndex`. -/
def H264Demuxer.getVideoStreamIndex (self : H264Demuxer) : Int := self.videoStreamIndex

/-- The accessor `H264Demuxer::getWidth`. -/
def H264Demuxer.getWidth (self : H264Demuxer) : Int :=
  match self.codecParameters with
  | some c => c.width
  | none => 0

/-- The accessor `H264Demuxer::getHeight`. -/
def H264Demuxer.getHeight (self : H264Demuxer) : Int :=
  match self.codecParameters with
  | some c => c.height
  | none => 0

/-- The packet `H265Muxer::writePacket` hands to `av_interleaved_write_frame`. -/
structure MuxPacket where
  data : List Nat
  size : Int
  stream_index : Int
  pts : Int
  dts : Int
  flags : Nat
  deriving DecidableEq, Repr

/-- The members of `H265Muxer` that `writePacket` and `writeHeader` use;
`videoStreamIndex` is `videoStream->index`. -/
structure H265Muxer where
  headerWritten : Bool := false
  videoStreamIndex : Int := 0
  deriving DecidableEq, Repr

/-! ## Recorded commands and host events -/

/-- A command buffer of the frame ring, named by the slot that owns it. -/
inductive CommandBuffer where
  | decodeCommandBuffer (slot : Nat)
  | encodeCommandBuffer (slot : Nat)
  deriving DecidableEq, Repr

/-- The two video sessions of `VideoTranscoder`. -/
inductive VideoSession where
  | decodeSession
  | encodeSession
  deriving DecidableEq, Repr

/-- The two session-parameter objects of `VideoTranscoder`. -/
inductive VideoSessionParameters where
  | decodeSessionParameters
  | encodeSessionParameters
  deriving DecidableEq, Repr

/-- A `VkVideoPictureResourceInfoKHR`: the image view is the `decodedImageView`
of the named slot. -/
structure VideoPictureResourceInfo where
  imageViewBinding : Nat
  baseArrayLayer : Nat
  codedOffset : Nat × Nat
  codedExtent : Nat × Nat
  deriving DecidableEq, Repr

/-- A `VkVideoDecodeInfoKHR`: the source buffer is the `decodeBitstreamBuffer`
of the named slot; absent pointers are `none`. -/
structure VideoDecodeInfo where
  srcBuffer : Nat
  srcBufferOffset : Nat
  srcBufferRange : Nat
  dstPictureResource : VideoPictureResourceInfo
  pSetupReferenceSlot : Option Nat
  referenceSlots : List Nat
  deriving DecidableEq, Repr

/-- A `VkVideoEncodeInfoKHR`: the destination buffer is the
`encodeBitstreamBuffer` of the named slot. -/
structure VideoEncodeInfo where
  dstBuffer : Nat
  dstBufferOffset : Nat
  dstBufferRange : Nat
  srcPictureResource : VideoPictureResourceInfo
  pSetupReferenceSlot : Option Nat
  referenceSlots : List Nat
  deriving DecidableEq, Repr

/-- A call that records into a command buffer.  `transitionImageLayout` is the
call of `VulkanUtils::transitionImageLayout` (declared in `VulkanUtils.hpp`) on
the `decodedImage` of the named slot, with the two layouts it is given. -/
inductive Command where
  | vkCmdBeginVideoCodingKHR (videoSession : VideoSession)
      (videoSessionParameters : VideoSessionParameters) (referenceSlots : List Nat)
  | vkCmdDecodeVideoKHR (decodeInfo : VideoDecodeInfo)
  | vkCmdEncodeVideoKHR (encodeInfo : VideoEncodeInfo)
  | vkCmdEndVideoCodingKHR
  | transitionImageLayout (decodedImageOfSlot : Nat) (oldLayout newLayout : Nat)
  deriving DecidableEq, Repr

/-- A `VkSubmitInfo`: semaphores are the `decodeCompleteSemaphore` of the named
slots. -/
structure SubmitInfo where
  waitSemaphores : List Nat
  waitDstStageMask : List Nat
  commandBuffers : List CommandBuffer
  signalSemaphores : List Nat
  deriving DecidableEq, Repr

/-- What the host does, in program order.  Fences are the `encodeCompleteFence`
of the named slot, queues are those of `VulkanBase`; `ret` is what the call
returned.  `writePacket` is the call of `H265Muxer::writePacket` by the
transcode loop, with the vector and the timestamp it passes. -/
inductive Event where
  | av_read_frame (ret : Int)
  | av_packet_unref (packet : AVPacket)
  | av_packet_free
  | vkWaitForFences (slot : Nat) (ret : Int)
  | vkResetFences (slot : Nat) (ret : Int)
  | memcpyToDecodeBitstream (slot : Nat) (size : Nat)
  | vkResetCommandBuffer (commandBuffer : CommandBuffer)
  | vkBeginCommandBuffer (commandBuffer : CommandBuffer)
  | record (commandBuffer : CommandBuffer) (command : Command)
  | vkEndCommandBuffer (commandBuffer : CommandBuffer)
  | vkQueueSubmit (queue : Option Nat) (submit : SubmitInfo) (fence : Option Nat) (ret : Int)
  | memcpyFromEncodeBitstream (slot : Nat) (size : Nat)
  | writePacket (data : List Nat) (pts : Int)
  | avformat_write_header (ret : Int)
  | av_interleaved_write_frame (packet : MuxPacket) (ret : Int)
  deriving DecidableEq, Repr

/-- How a method ends: it returns, it throws, or the evaluation of the model
was cut short. -/
inductive Outcome where
  | returned
  | threw (e : StdException)
  | outOfFuel
  deriving DecidableEq, Repr

/-- The answers of the driver, the GPU and the container library during the
transcode loop; `n` counts the video packets processed so far.

* `encodedSize n` is the number of bytes the encode operation of frame `n`
  writes to the output staging buffer.
* `encodeBitstreamHost n k` is byte `k` of the output staging buffer as the
  host finds it when it copies from it in iteration `n`. -/
structure Env where
  av_packet_alloc : Bool
  vkWaitForFences : Nat → Int
  vkResetFences : Nat → Int
  vkQueueSubmitDecode : Nat → Int
  vkQueueSubmitEncode : Nat → Int
  encodedSize : Nat → Nat
  encodeBitstreamHost : Nat → Nat → Nat
  avformat_write_header : Int
  av_interleaved_write_frame : Nat → Int

/-- The members of `VideoTranscoder` the transcode loop uses. -/
structure VideoTranscoder where
  vulkanBase : VulkanBase
  demuxer : H264Demuxer
  muxer : H265Muxer
  currentFrame : Nat := 0
  deriving DecidableEq, Repr

/-! ## `H264Demuxer::getNextPacket` -/

/-- The loop of `H264Demuxer::getNextPacket` over the packets `av_read_frame`
still delivers: the events, the packet left in the caller's `AVPacket` when the
method returns true (`none` when it returns false), and the packets not yet
read.  A successful read is recorded with the result 0, the failing one with
-1, which stands for any negative code. -/
def getNextPacketLoop (videoStreamIndex : Int) :
    List AVPacket → List Event × Option AVPacket × List AVPacket
  | [] => ([Event.av_read_frame (-1)], none, [])
  | packet :: rest =>
    if packet.stream_index = videoStreamIndex then
      ([Event.av_read_frame 0], some packet, rest)
    else
      let r := getNextPacketLoop videoStreamIndex rest
      (Event.av_read_frame 0 :: Event.av_packet_unref packet :: r.1, r.2.1, r.2.2)

/-- The method `H264Demuxer::getNextPacket`. -/
def H264Demuxer.getNextPacket (self : H264Demuxer) :
    List Event × Option AVPacket × H264Demuxer :=
  let r := getNextPacketLoop self.videoStreamIndex self.pending
  (r.1, r.2.1, { self with pending := r.2.2 })

/-! ## `H265Muxer::writeHeader` and `H265Muxer::writePacket` -/

/-- The method `H265Muxer::writeHeader`; `ret` is what `avformat_write_header`
returns. -/
def H265Muxer.writeHeader (ret : Int) (self : H265Muxer) :
    List Event × H265Muxer × Option StdException :=
  if ret < 0 then
    ([Event.avformat_write_header ret], self,
      some (.runtime_error "Muxer: Error occurred when writing header"))
  else ([Event.avformat_write_header ret], { self with headerWritten := true }, none)

/-- The method `H265Muxer::writePacket`; `headerRet` and `frameRet` are what
`avformat_write_header` and `av_interleaved_write_frame` return. -/
def H265Muxer.writePacket (headerRet frameRet : Int) (self : H265Muxer) (data : List Nat)
    (pts : Int) : List Event × H265Muxer × Option StdException :=
  let h : List Event × H265Muxer × Option StdException :=
    if !self.headerWritten then self.writeHeader headerRet else ([], self, none)
  match h with
  | (events, self, some e) => (events, self, some e)
  | (events, self, none) =>
    let packet : MuxPacket :=
      { data := data, size := toInt32 data.length, stream_index := self.videoStreamIndex,
        pts := pts, dts := pts, flags := 0 ||| AV_PKT_FLAG_KEY }
    (events ++ [Event.av_interleaved_write_frame packet frameRet], self, none)

/-! ## Recording and submission (`VideoTranscoder.cpp`, lines 329-421) -/

/-- The method `VideoTranscoder::recordDecodeCommandBuffer`: the calls it makes. -/
def VideoTranscoder.recordDecodeCommandBuffer (self : VideoTranscoder) (frameIndex : Nat)
    (bitstreamSize : Nat) : List Event :=
  let cb := CommandBuffer.decodeCommandBuffer frameIndex
  let dstPictureResource : VideoPictureResourceInfo :=
    { imageViewBinding := frameIndex, baseArrayLayer := 0, codedOffset := (0, 0),
      codedExtent := (toUInt32 self.demuxer.getWidth, toUInt32 self.demuxer.getHeight) }
  let decodeInfo : VideoDecodeInfo :=
    { srcBuffer := frameIndex, srcBufferOffset := 0, srcBufferRange := bitstreamSize,
      dstPictureResource := dstPictureResource, pSetupReferenceSlot := none,
      referenceSlots := [] }
  [ Event.vkResetCommandBuffer cb,
    Event.vkBeginCommandBuffer cb,
    Event.record cb (.vkCmdBeginVideoCodingKHR .decodeSession .decodeSessionParameters []),
    Event.record cb (.vkCmdDecodeVideoKHR decodeInfo),
    Event.record cb .vkCmdEndVideoCodingKHR,
    Event.vkEndCommandBuffer cb ]

/-- The method `VideoTranscoder::recordEncodeCommandBuffer`: the calls it makes. -/
def VideoTranscoder.recordEncodeCommandBuffer (self : VideoTranscoder) (frameIndex : Nat) :
    List Event :=
  let cb := CommandBuffer.encodeCommandBuffer frameIndex
  let srcPictureResource : VideoPictureResourceInfo :=
    { imageViewBinding := frameIndex, baseArrayLayer := 0, codedOffset := (0, 0),
      codedExtent := (toUInt32 self.demuxer.getWidth, toUInt32 self.demuxer.getHeight) }
  let encodeInfo : VideoEncodeInfo :=
    { dstBuffer := frameIndex, dstBufferOffset := 0, dstBufferRange := BITSTREAM_BUFFER_SIZE,
      srcPictureResource := srcPictureResource, pSetupReferenceSlot := none,
      referenceSlots := [] }
  [ Event.vkResetCommandBuffer cb,
    Event.vkBeginCommandBuffer cb,
    Event.record cb (.transitionImageLayout frameIndex VK_IMAGE_LAYOUT_UNDEFINED
      VK_IMAGE_LAYOUT_VIDEO_ENCODE_SRC_KHR),
    Event.record cb (.vkCmdBeginVideoCodingKHR .encodeSession .encodeSessionParameters []),
    Event.record cb (.vkCmdEncodeVideoKHR encodeInfo),
    Event.record cb .vkCmdEndVideoCodingKHR,
    Event.vkEndCommandBuffer cb ]

/-- The method `VideoTranscoder::submitWork`, in iteration `n`: the two
`vkQueueSubmit` calls. -/
def VideoTranscoder.submitWork (env : Env) (n : Nat) (self : VideoTranscoder)
    (frameIndex : Nat) : List Event :=
  let decodeSubmitInfo : SubmitInfo :=
    { waitSemaphores := [], waitDstStageMask := [],
      commandBuffers := [CommandBuffer.decodeCommandBuffer frameIndex],
      signalSemaphores := [frameIndex] }
  let encodeSubmitInfo : SubmitInfo :=
    { waitSemaphores := [frameIndex],
      waitDstStageMask := [VK_PIPELINE_STAGE_2_VIDEO_ENCODE_BIT_KHR],
      commandBuffers := [CommandBuffer.encodeCommandBuffer frameIndex],
      signalSemaphores := [] }
  [ Event.vkQueueSubmit self.vulkanBase.decodeQueue decodeSubmitInfo none
      (env.vkQueueSubmitDecode n),
    Event.vkQueueSubmit self.vulkanBase.encodeQueue encodeSubmitInfo (some frameIndex)
      (env.vkQueueSubmitEncode n) ]

/-! ## `VideoTranscoder::transcodeLoop` -/

/-- The state a run of a method leaves, the calls it made and how it ended. -/
structure Run where
  events : List Event
  self : VideoTranscoder
  outcome : Outcome

/-- Lines 307-317 of `transcodeLoop` for the video packet `packet` in iteration
`n`: the fence wait and reset, the copy into the input staging buffer, the two
recordings, the submissions, and the copy of 1024 bytes out of the output
staging buffer. -/
def VideoTranscoder.stageAndSubmit (env : Env) (n : Nat) (self : VideoTranscoder)
    (packet : AVPacket) : List Event :=
  [ Event.vkWaitForFences self.currentFrame (env.vkWaitForFences n),
    Event.vkResetFences self.currentFrame (env.vkResetFences n),
    Event.memcpyToDecodeBitstream self.currentFrame packet.size ] ++
  self.recordDecodeCommandBuffer self.currentFrame packet.size ++
  self.recordEncodeCommandBuffer self.currentFrame ++
  self.submitWork env n self.currentFrame ++
  [ Event.memcpyFromEncodeBitstream self.currentFrame 1024 ]

/-- The vector `encodedData` of line 316 after the copy of line 317: the first
1024 bytes of the output staging buffer as the host finds them. -/
def encodedData (env : Env) (n : Nat) : List Nat :=
  (List.range 1024).map (env.encodeBitstreamHost n)

/-- The `while` loop of `transcodeLoop` (lines 301-324).  `fuel` bounds the
number of iterations evaluated, `n` counts the video packets processed and
`frameCount` is the local `int` of line 299.  The ring size
`numFrameResources` stands for `NUM_FRAME_RESOURCES`. -/
def transcodeLoopIter (numFrameResources : Nat) (env : Env) :
    Nat → Nat → VideoTranscoder → Int → Run
  | 0, _, self, _ => { events := [], self := self, outcome := .outOfFuel }
  | fuel + 1, n, self, frameCount =>
    match self.demuxer.getNextPacket with
    | (read, none, demuxer) =>
      { events := read ++ [Event.av_packet_free],
        self := { self with demuxer := demuxer }, outcome := .returned }
    | (read, some packet, demuxer) =>
      let self := { self with demuxer := demuxer }
      if packet.stream_index ≠ self.demuxer.getVideoStreamIndex then
        let r := transcodeLoopIter numFrameResources env fuel n self frameCount
        { r with events := read ++ Event.av_packet_unref packet :: r.events }
      else
        let staged := self.stageAndSubmit env n packet
        let data := encodedData env n
        match self.muxer.writePacket env.avformat_write_header
            (env.av_interleaved_write_frame n) data frameCount with
        | (mux, muxer, some e) =>
          { events := read ++ staged ++ Event.writePacket data frameCount :: mux,
            self := { self with muxer := muxer }, outcome := .threw e }
        | (mux, muxer, none) =>
          let self := { self with
            muxer := muxer,
            currentFrame := (self.currentFrame + 1) % 2 ^ 32 % numFrameResources }
          let r := transcodeLoopIter numFrameResources env fuel (n + 1) self
            (toInt32 (frameCount + 1))
          { r with events := read ++ staged ++ Event.writePacket data frameCount :: mux ++
              Event.av_packet_unref packet :: r.events }

/-- The method `VideoTranscoder::transcodeLoop` with a ring of
`numFrameResources` slots.  Every iteration of the loop reads at least one
packet, so one more iteration than there are packets is enough. -/
def VideoTranscoder.transcodeLoop (numFrameResources : Nat) (env : Env)
    (self : VideoTranscoder) : Run :=
  if !env.av_packet_alloc then
    { events := [], self := self,
      outcome := .threw (.runtime_error "Failed to allocate AVPacket") }
  else
    transcodeLoopIter numFrameResources env (self.demuxer.pending.length + 1) 0 self 0

/-! ## Reading a trace of host events -/

/-- The slot that owns a command buffer. -/
def CommandBuffer.slot : CommandBuffer → Nat
  | .decodeCommandBuffer slot => slot
  | .encodeCommandBuffer slot => slot

/-- The host waits on the `encodeCompleteFence` of slot `s`. -/
def Event.isFenceWait (s : Nat) : Event → Bool
  | .vkWaitForFences slot _ => slot == s
  | _ => false

/-- The event submits the encode command buffer of slot `s`. -/
def Event.isEncodeSubmit (s : Nat) : Event → Bool
  | .vkQueueSubmit _ submit _ _ => submit.commandBuffers.contains (.encodeCommandBuffer s)
  | _ => false

/-- The host writes the input staging buffer of slot `s`, resets or records one
of its command buffers, or submits one of them. -/
def Event.usesSlot (s : Nat) : Event → Bool
  | .memcpyToDecodeBitstream slot _ => slot == s
  | .vkResetCommandBuffer cb => cb.slot == s
  | .vkBeginCommandBuffer cb => cb.slot == s
  | .record cb _ => cb.slot == s
  | .vkEndCommandBuffer cb => cb.slot == s
  | .vkQueueSubmit _ submit _ _ => submit.commandBuffers.any (fun cb => cb.slot == s)
  | _ => false

/-- The host reads the output staging buffer of slot `s`. -/
def Event.readsOutput (s : Nat) : Event → Bool
  | .memcpyFromEncodeBitstream slot _ => slot == s
  | _ => false

/-! ## Sample inputs of the transcode loop -/

/-- A driver and container library on which every call succeeds; the encoder
writes 5000 bytes per frame and the host reads zeros. -/
def quietEnv : Env :=
  { av_packet_alloc := true,
    vkWaitForFences := fun _ => 0,
    vkResetFences := fun _ => 0,
    vkQueueSubmitDecode := fun _ => 0,
    vkQueueSubmitEncode := fun _ => 0,
    encodedSize := fun _ => 5000,
    encodeBitstreamHost := fun _ _ => 0,
    avformat_write_header := 0,
    av_interleaved_write_frame := fun _ => 0 }

/-- A transcoder on a device whose decode family is 1 and encode family is 2,
over a 320x240 input whose video stream is stream 0, about to read `packets`. -/
def transcoderOn (packets : List AVPacket) : VideoTranscoder :=
  { vulkanBase :=
      { vkInstance := some (), physicalDevice := some 0, device := some (),
        decodeQueue := some 1, encodeQueue := some 2,
        queueFamilyIndices := { decodeFamily := some 1, encodeFamily := some 2 } },
    demuxer :=
      { videoStreamIndex := 0,
        codecParameters := some { codec_id := 27, width := 320, height := 240, extradata := [1] },
        sps_pps_data := [1],
        pending := packets },
    muxer := {},
    currentFrame := 0 }

/-! ## The transcode loop, packet by packet -/

/-- The run of the `while` loop of `transcodeLoop` described by recursion on the
packets still to be read, `l`: a packet of another stream is read and released,
a video packet is read and processed.  `transcodeLoopIter_eq_transcodeRun`
shows that the loop is this function. -/
def transcodeRun (numFrameResources : Nat) (env : Env) :
    List AVPacket → Nat → VideoTranscoder → Int → Run
  | [], _, self, _ =>
    { events := [Event.av_read_frame (-1), Event.av_packet_free],
      self := { self with demuxer := { self.demuxer with pending := [] } },
      outcome := .returned }
  | packet :: rest, n, self, frameCount =>
    if packet.stream_index = self.demuxer.videoStreamIndex then
      let self := { self with demuxer := { self.demuxer with pending := rest } }
      let staged := self.stageAndSubmit env n packet
      let data := encodedData env n
      match self.muxer.writePacket env.avformat_write_header
          (env.av_interleaved_write_frame n) data frameCount with
      | (mux, muxer, some e) =>
        { events := Event.av_read_frame 0 :: staged ++ Event.writePacket data frameCount :: mux,
          self := { self with muxer := muxer }, outcome := .threw e }
      | (mux, muxer, none) =>
        let self := { self with
          muxer := muxer,
          currentFrame := (self.currentFrame + 1) % 2 ^ 32 % numFrameResources }
        let r := transcodeRun numFrameResources env rest (n + 1) self (toInt32 (frameCount + 1))
        { r with events := Event.av_read_frame 0 :: staged ++
            Event.writePacket data frameCount :: mux ++ Event.av_packet_unref packet :: r.events }
    else
      let r := transcodeRun numFrameResources env rest n self frameCount
      { r with events := Event.av_read_frame 0 :: Event.av_packet_unref packet :: r.events }

/-- Scanning a trace for slot `s`: `pending` tells whether an encode submission
of slot `s` has not yet been followed by a wait on the fence of slot `s`; the
scan fails at a use of the slot while `pending` holds. -/
def noUseWhilePending (s : Nat) : List Event → Bool → Bool
  | [], _ => true
  | e :: rest, pending =>
    if e.isFenceWait s then noUseWhilePending s rest false
    else (!(pending && e.usesSlot s)) && noUseWhilePending s rest (pending || e.isEncodeSubmit s)

/-! ## Projections of a trace -/

/-- The vector and the timestamp of each call of `H265Muxer::writePacket` in a
trace, in order. -/
def writePacketCalls (T : List Event) : List (List Nat × Int) :=
  T.filterMap fun e =>
    match e with
    | .writePacket data pts => some (data, pts)
    | _ => none

/-- The packets handed to `av_interleaved_write_frame` in a trace, in order. -/
def writtenFrames (T : List Event) : List MuxPacket :=
  T.filterMap fun e =>
    match e with
    | .av_interleaved_write_frame packet _ => some packet
    | _ => none

/-- The slots whose `encodeCompleteFence` the host waits on in a trace, in order. -/
def fenceWaits (T : List Event) : List Nat :=
  T.filterMap fun e =>
    match e with
    | .vkWaitForFences slot _ => some slot
    | _ => none

/-- The commands recorded into the command buffer `cb` in a trace, in order. -/
def recordedCommands (cb : CommandBuffer) (T : List Event) : List Command :=
  T.filterMap fun e =>
    match e with
    | .record c command => if c = cb then some command else none
    | _ => none

/-- The packets of the video stream among the packets the demuxer will still
deliver. -/
def H264Demuxer.videoPackets (self : H264Demuxer) : List AVPacket :=
  self.pending.filter (fun packet => decide (packet.stream_index = self.videoStreamIndex))

/-- The events of `getNextPacket` for a packet of another stream: it is read and
released. -/
def skipEvents (packet : AVPacket) : List Event :=
  [Event.av_read_frame 0, Event.av_packet_unref packet]

/-- The packet that `writePacket` builds for a vector of 1024 bytes `data` at
timestamp `pts` on output stream `stream`. -/
def muxPacketOf (stream : Int) (data : List Nat) (pts : Int) : MuxPacket :=
  { data := data, size := 1024, stream_index := stream, pts := pts, dts := pts,
    flags := AV_PKT_FLAG_KEY }

/-- The picture resource that names the decoded picture of slot `frameIndex`:
its `decodedImageView`, layer 0, offset 0, with the demuxer's width and height
converted to `uint32_t` as coded extent. -/
def VideoTranscoder.sharedPicture (self : VideoTranscoder) (frameIndex : Nat) :
    VideoPictureResourceInfo :=
  { imageViewBinding := frameIndex, baseArrayLayer := 0, codedOffset := (0, 0),
    codedExtent := (toUInt32 self.demuxer.getWidth, toUInt32 self.demuxer.getHeight) }

/-- The command is a layout transition (a barrier on an image). -/
def Command.isTransition : Command → Bool
  | .transitionImageLayout _ _ _ => true
  | _ => false

/-- The state in which the loop goes on after a video packet was processed and
handed to the muxer: the demuxer has `rest` left to deliver, the container
header is written, and `currentFrame` has advanced around a ring of
`numFrameResources` slots. -/
def VideoTranscoder.afterFrame (numFrameResources : Nat) (self : VideoTranscoder)
    (rest : List AVPacket) : VideoTranscoder :=
  { self with
    demuxer := { self.demuxer with pending := rest },
    muxer := { self.muxer with headerWritten := true },
    currentFrame := (self.currentFrame + 1) % 2 ^ 32 % numFrameResources }

/-- The calls of one iteration of the loop for the video packet `packet`, when
`avformat_write_header` does not fail: the read, the staging and submission,
the call of `writePacket` with what it writes, and the release of the packet. -/
def VideoTranscoder.frameEvents (env : Env) (n : Nat) (self : VideoTranscoder)
    (packet : AVPacket) (frameCount : Int) : List Event :=
  [Event.av_read_frame 0] ++ self.stageAndSubmit env n packet ++
    [Event.writePacket (encodedData env n) frameCount] ++
    (if self.muxer.headerWritten then []
      else [Event.avformat_write_header env.avformat_write_header]) ++
    [Event.av_interleaved_write_frame
      (muxPacketOf self.muxer.videoStreamIndex (encodedData env n) frameCount)
      (env.av_interleaved_write_frame n),
     Event.av_packet_unref packet]

/-- A transcoder about to read 300 packets of the video stream. -/
def transcoderOn300 : VideoTranscoder :=
  transcoderOn (List.replicate 300 ⟨0, 100⟩)

/-- The queue, the submit info and the fence of each `vkQueueSubmit` of a trace,
in order. -/
def queueSubmits (T : List Event) : List (Option Nat × SubmitInfo × Option Nat) :=
  T.filterMap fun e =>
    match e with
    | .vkQueueSubmit queue submit fence _ => some (queue, submit, fence)
    | _ => none

/-! ## `VideoTranscoder::createFrameResources` -/

/-- Buffer usage flag `VK_BUFFER_USAGE_VIDEO_DECODE_SRC_BIT_KHR`. -/
def VK_BUFFER_USAGE_VIDEO_DECODE_SRC_BIT_KHR : Nat := 0x00002000

/-- Buffer usage flag `VK_BUFFER_USAGE_VIDEO_ENCODE_DST_BIT_KHR`. -/
def VK_BUFFER_USAGE_VIDEO_ENCODE_DST_BIT_KHR : Nat := 0x00008000

/-- Image usage flag `VK_IMAGE_USAGE_VIDEO_DECODE_DST_BIT_KHR`. -/
def VK_IMAGE_USAGE_VIDEO_DECODE_DST_BIT_KHR : Nat := 0x00000400

/-- Image usage flag `VK_IMAGE_USAGE_VIDEO_DECODE_DPB_BIT_KHR`. -/
def VK_IMAGE_USAGE_VIDEO_DECODE_DPB_BIT_KHR : Nat := 0x00001000

/-- Image usage flag `VK_IMAGE_USAGE_VIDEO_ENCODE_SRC_BIT_KHR`. -/
def VK_IMAGE_USAGE_VIDEO_ENCODE_SRC_BIT_KHR : Nat := 0x00004000

/-- Image usage flag `VK_IMAGE_USAGE_VIDEO_ENCODE_DPB_BIT_KHR`. -/
def VK_IMAGE_USAGE_VIDEO_ENCODE_DPB_BIT_KHR : Nat := 0x00008000

/-- Memory property flag `VK_MEMORY_PROPERTY_DEVICE_LOCAL_BIT`. -/
def VK_MEMORY_PROPERTY_DEVICE_LOCAL_BIT : Nat := 0x00000001

/-- Memory property flag `VK_MEMORY_PROPERTY_HOST_VISIBLE_BIT`. -/
def VK_MEMORY_PROPERTY_HOST_VISIBLE_BIT : Nat := 0x00000002

/-- Memory property flag `VK_MEMORY_PROPERTY_HOST_COHERENT_BIT`. -/
def VK_MEMORY_PROPERTY_HOST_COHERENT_BIT : Nat := 0x00000004

/-- Format `VK_FORMAT_G8_B8R8_2PLANE_420_UNORM`. -/
def VK_FORMAT_G8_B8R8_2PLANE_420_UNORM : Nat := 1000156003

/-- Fence creation flag `VK_FENCE_CREATE_SIGNALED_BIT`. -/
def VK_FENCE_CREATE_SIGNALED_BIT : Nat := 0x00000001

/-- The fields of `VkVideoProfileInfoKHR` that `initDecode` and `initEncode` set. -/
structure VideoProfileInfo where
  videoCodecOperation : Nat
  chromaSubsampling : Nat
  lumaBitDepth : Nat
  chromaBitDepth : Nat
  deriving DecidableEq, Repr

/-- The arguments of a call of `VulkanUtils::createBuffer`; `profiles` is the
`VkVideoProfileListInfoKHR` passed as `pNext` (`none` for a null pointer). -/
structure BufferCreation where
  size : Nat
  usage : Nat
  properties : Nat
  profiles : Option (List VideoProfileInfo)
  deriving DecidableEq, Repr

/-- The arguments of a call of `VulkanUtils::createImage`. -/
structure ImageCreation where
  width : Nat
  height : Nat
  format : Nat
  usage : Nat
  arrayLayers : Nat
  profiles : Option (List VideoProfileInfo)
  deriving DecidableEq, Repr

/-- The struct `FrameResources` of `VideoTranscoder.hpp`.  A member is
represented by how it was obtained, `none` standing for a member that is still
null: a buffer or image by the arguments of its creation (its memory goes with
it), a mapped pointer by the number of bytes mapped, the image view by its
format, the fence by its creation flags. -/
structure FrameResources where
  decodeBitstreamBuffer : Option BufferCreation := none
  pDecodeBitstreamBufferHost : Option Nat := none
  decodedImage : Option ImageCreation := none
  decodedImageView : Option Nat := none
  encodeBitstreamBuffer : Option BufferCreation := none
  pEncodeBitstreamBufferHost : Option Nat := none
  decodeCommandBuffer : Option Unit := none
  encodeCommandBuffer : Option Unit := none
  encodeCompleteFence : Option Nat := none
  decodeCompleteSemaphore : Option Unit := none
  deriving DecidableEq, Repr

/-- The answers of the driver and of the helpers of `VulkanUtils` (declared in
`VulkanUtils.hpp`) while the frame ring is created, for each slot: what a
helper throws, if anything, and what a Vulkan call returns. -/
structure FrameResourcesEnv where
  createDecodeBitstreamBuffer : Nat → Option StdException
  createEncodeBitstreamBuffer : Nat → Option StdException
  createImage : Nat → Option StdException
  createImageView : Nat → Option StdException
  vkAllocateDecodeCommandBuffer : Nat → Int
  vkAllocateEncodeCommandBuffer : Nat → Int
  vkCreateFence : Nat → Int
  vkCreateSemaphore : Nat → Int

/-- The body of the loop of `createFrameResources` (lines 270-292) for slot `i`:
the slot as the body leaves it and the exception that ends it, if any. -/
def createFrameResourcesSlot (env : FrameResourcesEnv)
    (decodeProfile encodeProfile : VideoProfileInfo) (width height : Nat) (i : Nat)
    (res : FrameResources) : FrameResources × Option StdException :=
  let decodeProfileList := [decodeProfile]
  let encodeProfileList := [encodeProfile]
  let combinedProfileList := [decodeProfile, encodeProfile]
  match env.createDecodeBitstreamBuffer i with
  | some e => (res, some e)
  | none =>
    let res := { res with
      decodeBitstreamBuffer := some
        { size := BITSTREAM_BUFFER_SIZE, usage := VK_BUFFER_USAGE_VIDEO_DECODE_SRC_BIT_KHR,
          properties := VK_MEMORY_PROPERTY_HOST_VISIBLE_BIT ||| VK_MEMORY_PROPERTY_HOST_COHERENT_BIT,
          profiles := some decodeProfileList },
      pDecodeBitstreamBufferHost := some BITSTREAM_BUFFER_SIZE }
    match env.createEncodeBitstreamBuffer i with
    | some e => (res, some e)
    | none =>
      let res := { res with
        encodeBitstreamBuffer := some
          { size := BITSTREAM_BUFFER_SIZE, usage := VK_BUFFER_USAGE_VIDEO_ENCODE_DST_BIT_KHR,
            properties :=
              VK_MEMORY_PROPERTY_HOST_VISIBLE_BIT ||| VK_MEMORY_PROPERTY_HOST_COHERENT_BIT,
            profiles := some encodeProfileList },
        pEncodeBitstreamBufferHost := some BITSTREAM_BUFFER_SIZE }
      match env.createImage i with
      | some e => (res, some e)
      | none =>
        let res := { res with
          decodedImage := some
            { width := width, height := height, format := VK_FORMAT_G8_B8R8_2PLANE_420_UNORM,
              usage :=
                VK_IMAGE_USAGE_VIDEO_DECODE_DST_BIT_KHR ||| VK_IMAGE_USAGE_VIDEO_ENCODE_SRC_BIT_KHR,
              arrayLayers := 1, profiles := some combinedProfileList } }
        match env.createImageView i with
        | some e => (res, some e)
        | none =>
          let res := { res with decodedImageView := some VK_FORMAT_G8_B8R8_2PLANE_420_UNORM }
          if env.vkAllocateDecodeCommandBuffer i ≠ VK_SUCCESS then
            (res, some (.runtime_error "Failed to allocate decode command buffer!"))
          else
            let res := { res with decodeCommandBuffer := some () }
            if env.vkAllocateEncodeCommandBuffer i ≠ VK_SUCCESS then
              (res, some (.runtime_error "Failed to allocate encode command buffer!"))
            else
              let res := { res with encodeCommandBuffer := some () }
              if env.vkCreateFence i ≠ VK_SUCCESS then
                (res, some (.runtime_error
                  "Failed to create synchronization objects for a frame!"))
              else
                let res := { res with encodeCompleteFence := some VK_FENCE_CREATE_SIGNALED_BIT }
                if env.vkCreateSemaphore i ≠ VK_SUCCESS then
                  (res, some (.runtime_error
                    "Failed to create synchronization objects for a frame!"))
                else
                  ({ res with decodeCompleteSemaphore := some () }, none)

/-- The loop `for (uint32_t i = 0; i < NUM_FRAME_RESOURCES; ++i)` of
`createFrameResources`, entered at slot `i` with `remaining` slots to go. -/
def createFrameResourcesLoop (env : FrameResourcesEnv)
    (decodeProfile encodeProfile : VideoProfileInfo) (width height : Nat) :
    Nat → Nat → List FrameResources → List FrameResources × Option StdException
  | 0, _, frameResources => (frameResources, none)
  | remaining + 1, i, frameResources =>
    match createFrameResourcesSlot env decodeProfile encodeProfile width height i
        (frameResources.getD i {}) with
    | (res, some e) => (frameResources.set i res, some e)
    | (res, none) =>
      createFrameResourcesLoop env decodeProfile encodeProfile width height remaining (i + 1)
        (frameResources.set i res)

/-- The method `VideoTranscoder::createFrameResources` on a transcoder whose
ring is still empty: `frameResources.resize` makes `numFrameResources`
value-initialised slots, which the loop then fills.  The members
`decodeProfile` and `encodeProfile` and the demuxer are arguments. -/
def createFrameResources (numFrameResources : Nat) (env : FrameResourcesEnv)
    (decodeProfile encodeProfile : VideoProfileInfo) (demuxer : H264Demuxer) :
    List FrameResources × Option StdException :=
  let frameResources := List.replicate numFrameResources ({} : FrameResources)
  createFrameResourcesLoop env decodeProfile encodeProfile
    (toUInt32 demuxer.getWidth) (toUInt32 demuxer.getHeight) numFrameResources 0 frameResources

/-! ## `VideoTranscoder::bindVideoSessionMemory` -/

/-- The fields of `VkVideoSessionMemoryRequirementsKHR` the method reads. -/
structure VideoSessionMemoryRequirements where
  memoryBindIndex : Nat
  size : Nat
  memoryTypeBits : Nat
  deriving DecidableEq, Repr

/-- A `VkBindVideoSessionMemoryInfoKHR`; `memory` is a device-memory handle. -/
structure BindVideoSessionMemoryInfo where
  memoryBindIndex : Nat := 0
  memory : Option Nat := none
  memoryOffset : Nat := 0
  memorySize : Nat := 0
  deriving DecidableEq, Repr

/-- The answers the method depends on: what `VulkanUtils::findMemoryType`
(declared in `VulkanUtils.hpp`) returns or throws for type bits and property
flags, the result and the handle of the `i`-th call of `vkAllocateMemory`, and
the result of `vkBindVideoSessionMemoryKHR`. -/
structure SessionMemoryEnv where
  findMemoryType : Nat → Nat → Except StdException Nat
  vkAllocateMemory : Nat → Int × Nat
  vkBindVideoSessionMemoryKHR : Int

/-- The driver calls of `bindVideoSessionMemory`, with what they returned. -/
inductive MemoryCall where
  | vkAllocateMemory (allocationSize memoryTypeIndex : Nat) (ret : Int)
  | vkBindVideoSessionMemoryKHR (session : VideoSession)
      (bindInfos : List BindVideoSessionMemoryInfo) (ret : Int)
  deriving DecidableEq, Repr

/-- How a call of `bindVideoSessionMemory` ends: the driver calls made, the
vector `memory`, and the exception thrown, if any. -/
structure MemoryRun where
  calls : List MemoryCall
  memory : List (Option Nat)
  thrown : Option StdException
  deriving DecidableEq, Repr

/-- The loop of lines 180-193, entered at index `i` with the requirements
`memReqs[i], memReqs[i+1], ...` still to visit. -/
def bindVideoSessionMemoryLoop (env : SessionMemoryEnv) (session : VideoSession) :
    List VideoSessionMemoryRequirements → Nat → List (Option Nat) →
    List BindVideoSessionMemoryInfo → MemoryRun
  | [], _, memory, bindInfos =>
    let ret := env.vkBindVideoSessionMemoryKHR
    { calls := [MemoryCall.vkBindVideoSessionMemoryKHR session bindInfos ret],
      memory := memory,
      thrown := if ret ≠ VK_SUCCESS then
          some (.runtime_error "Failed to bind video session memory")
        else none }
  | req :: rest, i, memory, bindInfos =>
    let allocationSize := req.size
    match env.findMemoryType req.memoryTypeBits VK_MEMORY_PROPERTY_DEVICE_LOCAL_BIT with
    | .error e => { calls := [], memory := memory, thrown := some e }
    | .ok memoryTypeIndex =>
      let alloc := env.vkAllocateMemory i
      if alloc.1 ≠ VK_SUCCESS then
        { calls := [MemoryCall.vkAllocateMemory allocationSize memoryTypeIndex alloc.1],
          memory := memory,
          thrown := some (.runtime_error "Failed to allocate video session memory") }
      else
        let memory := memory.set i (some alloc.2)
        let bindInfos := bindInfos.set i
          { memoryBindIndex := req.memoryBindIndex, memory := memory.getD i none,
            memoryOffset := 0, memorySize := allocationSize }
        let r := bindVideoSessionMemoryLoop env session rest (i + 1) memory bindInfos
        { r with calls :=
            MemoryCall.vkAllocateMemory allocationSize memoryTypeIndex alloc.1 :: r.calls }

/-- The method `VideoTranscoder::bindVideoSessionMemory` for a session whose
memory requirements are `memReqs`, on a vector `memory` that is still empty. -/
def bindVideoSessionMemory (env : SessionMemoryEnv) (session : VideoSession)
    (memReqs : List VideoSessionMemoryRequirements) : MemoryRun :=
  let memory : List (Option Nat) := List.replicate memReqs.length none
  let bindInfos : List BindVideoSessionMemoryInfo := List.replicate memReqs.length {}
  bindVideoSessionMemoryLoop env session memReqs 0 memory bindInfos

/-- The call is a `vkBindVideoSessionMemoryKHR`. -/
def MemoryCall.isBind : MemoryCall → Bool
  | .vkBindVideoSessionMemoryKHR _ _ _ => true
  | _ => false

/-! ## Sample inputs of the set-up methods -/

/-- The decode profile `initDecode` fills: H.264 decode, 4:2:0, 8 bit. -/
def sampleDecodeProfile : VideoProfileInfo :=
  { videoCodecOperation := VK_VIDEO_CODEC_OPERATION_DECODE_H264_BIT_KHR,
    chromaSubsampling := 2, lumaBitDepth := 1, chromaBitDepth := 1 }

/-- The encode profile `initEncode` fills: H.265 encode, 4:2:0, 8 bit. -/
def sampleEncodeProfile : VideoProfileInfo :=
  { videoCodecOperation := VK_VIDEO_CODEC_OPERATION_ENCODE_H265_BIT_KHR,
    chromaSubsampling := 2, lumaBitDepth := 1, chromaBitDepth := 1 }

/-- A driver on which every call of `createFrameResources` succeeds. -/
def quietFrameResourcesEnv : FrameResourcesEnv :=
  { createDecodeBitstreamBuffer := fun _ => none,
    createEncodeBitstreamBuffer := fun _ => none,
    createImage := fun _ => none,
    createImageView := fun _ => none,
    vkAllocateDecodeCommandBuffer := fun _ => 0,
    vkAllocateEncodeCommandBuffer := fun _ => 0,
    vkCreateFence := fun _ => 0,
    vkCreateSemaphore := fun _ => 0 }

/-- A driver on which memory type 0 always fits, the `i`-th allocation returns
the handle `100 + i`, and binding succeeds. -/
def quietSessionMemoryEnv : SessionMemoryEnv :=
  { findMemoryType := fun _ _ => .ok 0,
    vkAllocateMemory := fun i => (0, 100 + i),
    vkBindVideoSessionMemoryKHR := 0 }

/-- As `quietSessionMemoryEnv`, but the allocation of index 1 fails with
`VK_ERROR_OUT_OF_DEVICE_MEMORY` (-2). -/
def failingSessionMemoryEnv : SessionMemoryEnv :=
  { findMemoryType := fun _ _ => .ok 0,
    vkAllocateMemory := fun i => if i = 1 then (-2, 0) else (0, 100 + i),
    vkBindVideoSessionMemoryKHR := 0 }

/-- Three session memory requirements. -/
def sampleMemReqs : List VideoSessionMemoryRequirements :=
  [ { memoryBindIndex := 0, size := 4096, memoryTypeBits := 1 },
    { memoryBindIndex := 1, size := 65536, memoryTypeBits := 3 },
    { memoryBindIndex := 4, size := 256, memoryTypeBits := 1 } ]
/-! ## Construction and destruction of the demuxer and of the muxer -/

/-- Codec id `AV_CODEC_ID_H264`. -/
def AV_CODEC_ID_H264 : Nat := 27

/-- Codec id `AV_CODEC_ID_HEVC`. -/
def AV_CODEC_ID_HEVC : Nat := 173

/-- Media type `AVMEDIA_TYPE_VIDEO`. -/
def AVMEDIA_TYPE_VIDEO : Int := 0

/-- The padding `AV_INPUT_BUFFER_PADDING_SIZE` of the container library. -/
def AV_INPUT_BUFFER_PADDING_SIZE : Nat := 64

/-- Exit status `EXIT_SUCCESS`. -/
def EXIT_SUCCESS : Int := 0

/-- Exit status `EXIT_FAILURE`. -/
def EXIT_FAILURE : Int := 1

/-- The calls of the container library made while the demuxer, the muxer and
the transcoder are constructed, used and destroyed, in program order.  `frame`
is a call made by `transcodeLoop` or by a method it calls.  The Vulkan calls of
`VideoTranscoder::init` and of `VideoTranscoder::cleanup` are not recorded. -/
inductive HostCall where
  | avformat_open_input (ret : Int)
  | avformat_find_stream_info (ret : Int)
  | av_find_best_stream (ret : Int)
  | avformat_close_input
  | avformat_alloc_output_context2 (ret : Int)
  | avformat_new_stream (stream : Bool)
  | avio_open (ret : Int)
  | av_malloc (size : Nat) (buffer : Bool)
  | av_write_trailer
  | avio_closep
  | avformat_free_context
  | vkDeviceWaitIdle
  | frame (event : Event)
  deriving DecidableEq, Repr

/-- How a constructor ends: with the object, or with an exception and no
object. -/
inductive Constructed (α : Type) where
  | object (value : α)
  | threw (e : StdException)
  deriving DecidableEq, Repr

/-- What the container library answers for the input file: the results of
`avformat_open_input`, `avformat_find_stream_info` and `av_find_best_stream`,
the `codecpar` of the stream `av_find_best_stream` names, and the packets
`av_read_frame` delivers. -/
structure InputFile where
  filepath : String
  avformat_open_input : Int
  avformat_find_stream_info : Int
  av_find_best_stream : Int
  codecpar : AVCodecParameters
  packets : List AVPacket
  deriving DecidableEq, Repr

/-- The constructor `H264Demuxer::H264Demuxer` (`H264Demuxer.cpp`, lines
11-54); `extradata_size` is the length of `extradata`. -/
def H264Demuxer.construct (input : InputFile) : List HostCall × Constructed H264Demuxer :=
  if input.avformat_open_input ≠ 0 then
    ([HostCall.avformat_open_input input.avformat_open_input],
      .threw (.runtime_error ("FFmpeg: Could not open input file: " ++ input.filepath)))
  else if input.avformat_find_stream_info < 0 then
    ([HostCall.avformat_open_input input.avformat_open_input,
      HostCall.avformat_find_stream_info input.avformat_find_stream_info,
      HostCall.avformat_close_input],
      .threw (.runtime_error "FFmpeg: Could not find stream information"))
  else
    let videoStreamIndex := input.av_find_best_stream
    if videoStreamIndex < 0 then
      ([HostCall.avformat_open_input input.avformat_open_input,
        HostCall.avformat_find_stream_info input.avformat_find_stream_info,
        HostCall.av_find_best_stream input.av_find_best_stream,
        HostCall.avformat_close_input],
        .threw (.runtime_error "FFmpeg: Could not find a video stream in the input file"))
    else
      let codecParameters := input.codecpar
      if codecParameters.codec_id ≠ AV_CODEC_ID_H264 then
        ([HostCall.avformat_open_input input.avformat_open_input,
          HostCall.avformat_find_stream_info input.avformat_find_stream_info,
          HostCall.av_find_best_stream input.av_find_best_stream,
          HostCall.avformat_close_input],
          .threw (.runtime_error "FFmpeg: Video stream is not H.264"))
      else
        let sps_pps_data : List Nat :=
          if codecParameters.extradata.length > 0 then codecParameters.extradata else []
        ([HostCall.avformat_open_input input.avformat_open_input,
          HostCall.avformat_find_stream_info input.avformat_find_stream_info,
          HostCall.av_find_best_stream input.av_find_best_stream],
          .object
            { videoStreamIndex := videoStreamIndex,
              codecParameters := some codecParameters,
              sps_pps_data := sps_pps_data,
              pending := input.packets })

/-- The destructor `H264Demuxer::~H264Demuxer` of a constructed demuxer, whose
`formatContext` is not null. -/
def H264Demuxer.destroy (_self : H264Demuxer) : List HostCall :=
  [HostCall.avformat_close_input]

/-- What the container library answers while the output is set up: the results
of `avformat_alloc_output_context2` and `avio_open`, whether
`avformat_new_stream` returns a stream, the index of that stream, and whether
the output format has the flag `AVFMT_NOFILE`. -/
structure OutputFile where
  filepath : String
  avformat_alloc_output_context2 : Int
  avformat_new_stream : Bool
  streamIndex : Int
  noFile : Bool
  avio_open : Int
  deriving DecidableEq, Repr

/-- The output `AVFormatContext` as the muxer leaves it: the fields of
`videoStream->codecpar` and `videoStream->time_base` the muxer sets, and the
flag `AVFMT_NOFILE` of its format.  `extradata` holds the first
`extradata_size` bytes of the buffer `codecpar->extradata` (`none` for a null
pointer). -/
structure FormatContext where
  codec_id : Nat
  codec_type : Int
  width : Int
  height : Int
  time_base : Int × Int
  extradata : Option (List Nat) := none
  extradata_size : Int := 0
  noFile : Bool
  deriving DecidableEq, Repr

/-- An `H265Muxer` object whole: the handle `formatContext` (with it
`videoStream`) next to the members `writePacket` uses. -/
structure H265MuxerObject where
  formatContext : Option FormatContext := none
  members : H265Muxer := {}
  deriving DecidableEq, Repr

/-- The constructor `H265Muxer::H265Muxer` (`H265Muxer.cpp`, lines 11-39). -/
def H265Muxer.construct (output : OutputFile) (width height fps : Int) :
    List HostCall × Constructed H265MuxerObject :=
  if output.avformat_alloc_output_context2 < 0 then
    ([HostCall.avformat_alloc_output_context2 output.avformat_alloc_output_context2],
      .threw (.runtime_error
        ("Muxer: Could not create output context for " ++ output.filepath)))
  else if !output.avformat_new_stream then
    ([HostCall.avformat_alloc_output_context2 output.avformat_alloc_output_context2,
      HostCall.avformat_new_stream false],
      .threw (.runtime_error "Muxer: Could not allocate stream"))
  else
    let formatContext : FormatContext :=
      { codec_id := AV_CODEC_ID_HEVC, codec_type := AVMEDIA_TYPE_VIDEO,
        width := width, height := height, time_base := (1, fps), noFile := output.noFile }
    let self : H265MuxerObject :=
      { formatContext := some formatContext,
        members := { headerWritten := false, videoStreamIndex := output.streamIndex } }
    if !output.noFile then
      if output.avio_open < 0 then
        ([HostCall.avformat_alloc_output_context2 output.avformat_alloc_output_context2,
          HostCall.avformat_new_stream true, HostCall.avio_open output.avio_open],
          .threw (.runtime_error ("Muxer: Could not open output file: " ++ output.filepath)))
      else
        ([HostCall.avformat_alloc_output_context2 output.avformat_alloc_output_context2,
          HostCall.avformat_new_stream true, HostCall.avio_open output.avio_open],
          .object self)
    else
      ([HostCall.avformat_alloc_output_context2 output.avformat_alloc_output_context2,
        HostCall.avformat_new_stream true], .object self)

/-- The destructor `H265Muxer::~H265Muxer` (`H265Muxer.cpp`, lines 42-55). -/
def H265MuxerObject.destroy (self : H265MuxerObject) : List HostCall :=
  match self.formatContext with
  | some formatContext =>
    [HostCall.av_write_trailer] ++
      (if !formatContext.noFile then [HostCall.avio_closep] else []) ++
      [HostCall.avformat_free_context]
  | none => []

/-- The method `H265Muxer::setCodecParameters` (`H265Muxer.cpp`, lines 58-73);
`allocated` tells whether `av_malloc` returns a buffer.  The local vector
`extradata` is empty when the buffer is allocated and when it is copied.  On an
object whose `formatContext` is null the source dereferences a null
`videoStream`; the model leaves such an object as it is, and no constructed
object is of that kind. -/
def H265MuxerObject.setCodecParameters (allocated : Bool) (self : H265MuxerObject)
    (_vps _sps _pps : List Nat) : List HostCall × H265MuxerObject × Option StdException :=
  let extradata : List Nat := []
  match self.formatContext with
  | none => ([], self, none)
  | some formatContext =>
    if !allocated then
      ([HostCall.av_malloc (extradata.length + AV_INPUT_BUFFER_PADDING_SIZE) false],
        { self with formatContext := some { formatContext with extradata := none } },
        some (.runtime_error "Muxer: Failed to allocate extradata"))
    else
      ([HostCall.av_malloc (extradata.length + AV_INPUT_BUFFER_PADDING_SIZE) true],
        { self with formatContext := some { formatContext with
            extradata := some extradata,
            extradata_size := extradata.length } },
        none)

/-- The arguments of one call of `H265Muxer::writePacket` together with what
`avformat_write_header` and `av_interleaved_write_frame` answer during it. -/
structure WritePacketCall where
  headerRet : Int
  frameRet : Int
  data : List Nat
  pts : Int
  deriving DecidableEq, Repr

/-- Calls of `H265Muxer::writePacket` made one after the other on one muxer,
up to the first that throws. -/
def H265Muxer.writePackets (self : H265Muxer) :
    List WritePacketCall → List Event × H265Muxer × Option StdException
  | [] => ([], self, none)
  | call :: rest =>
    match self.writePacket call.headerRet call.frameRet call.data call.pts with
    | (events, self, some e) => (events, self, some e)
    | (events, self, none) =>
      let r := H265Muxer.writePackets self rest
      (events ++ r.1, r.2.1, r.2.2)

/-- The packet `writePacket` hands to `av_interleaved_write_frame` in a call. -/
def WritePacketCall.packet (stream : Int) (call : WritePacketCall) : MuxPacket :=
  { data := call.data, size := toInt32 call.data.length, stream_index := stream,
    pts := call.pts, dts := call.pts, flags := 0 ||| AV_PKT_FLAG_KEY }

/-- The event is a call of `avformat_write_header`. -/
def Event.isWriteHeader : Event → Bool
  | .avformat_write_header _ => true
  | _ => false

/-! ## `VideoTranscoder::init`, the constructor, the destructor and `main` -/

/-- Chroma subsampling flag `VK_VIDEO_CHROMA_SUBSAMPLING_420_BIT_KHR`. -/
def VK_VIDEO_CHROMA_SUBSAMPLING_420_BIT_KHR : Nat := 0x00000002

/-- Bit depth flag `VK_VIDEO_COMPONENT_BIT_DEPTH_8_BIT_KHR`. -/
def VK_VIDEO_COMPONENT_BIT_DEPTH_8_BIT_KHR : Nat := 0x00000001

/-- The ten function names `loadVideoFunctionPointers` looks up, in the order
in which line 55 tests the pointers. -/
def videoFunctionNames : List String :=
  [ "vkGetVideoSessionMemoryRequirementsKHR",
    "vkBindVideoSessionMemoryKHR",
    "vkCreateVideoSessionKHR",
    "vkDestroyVideoSessionKHR",
    "vkCreateVideoSessionParametersKHR",
    "vkDestroyVideoSessionParametersKHR",
    "vkCmdBeginVideoCodingKHR",
    "vkCmdEndVideoCodingKHR",
    "vkCmdDecodeVideoKHR",
    "vkCmdEncodeVideoKHR" ]

/-- The members of `VideoTranscoder` that `init` fills (`VideoTranscoder.hpp`,
lines 43-64), with their default member initialisers.  A session, a parameter
object or a command pool is `none` while it is `VK_NULL_HANDLE`; a command pool
is named by its queue family, an image by the arguments of its creation. -/
structure VideoResources where
  loaded : List String := []
  decodeSession : Option VideoSession := none
  decodeSessionParameters : Option VideoSessionParameters := none
  encodeSession : Option VideoSession := none
  encodeSessionParameters : Option VideoSessionParameters := none
  decodeProfile : VideoProfileInfo :=
    { videoCodecOperation := 0, chromaSubsampling := 0, lumaBitDepth := 0, chromaBitDepth := 0 }
  encodeProfile : VideoProfileInfo :=
    { videoCodecOperation := 0, chromaSubsampling := 0, lumaBitDepth := 0, chromaBitDepth := 0 }
  decodeSessionMemory : List (Option Nat) := []
  encodeSessionMemory : List (Option Nat) := []
  frameResources : List FrameResources := []
  decodeDpbImage : Option ImageCreation := none
  encodeDpbImage : Option ImageCreation := none
  decodeCommandPool : Option Nat := none
  encodeCommandPool : Option Nat := none
  deriving DecidableEq, Repr

/-- The answers of the driver and of the helpers of `VulkanUtils` during
`VideoTranscoder::init`: whether `vkGetDeviceProcAddr` finds a function, the
results of the creation calls, the memory requirements the driver reports for
each session, and what the two calls of `VulkanUtils::createImage` of
`createDpbImages` throw, if anything. -/
structure InitEnv where
  vkGetDeviceProcAddr : String → Bool
  vkCreateVideoSessionDecode : Int
  decodeMemReqs : List VideoSessionMemoryRequirements
  decodeSessionMemory : SessionMemoryEnv
  vkCreateVideoSessionParametersDecode : Int
  vkCreateVideoSessionEncode : Int
  encodeMemReqs : List VideoSessionMemoryRequirements
  encodeSessionMemory : SessionMemoryEnv
  vkCreateVideoSessionParametersEncode : Int
  vkCreateCommandPoolDecode : Int
  vkCreateCommandPoolEncode : Int
  createImageDecodeDpb : Option StdException
  createImageEncodeDpb : Option StdException
  frameResources : FrameResourcesEnv

/-- The method `VideoTranscoder::loadVideoFunctionPointers`; `loaded` lists the
names whose pointer is not null. -/
def loadVideoFunctionPointers (env : InitEnv) (self : VideoResources) :
    VideoResources × Option StdException :=
  let self := { self with loaded := videoFunctionNames.filter env.vkGetDeviceProcAddr }
  if videoFunctionNames.any (fun name => !env.vkGetDeviceProcAddr name) then
    (self, some (.runtime_error "Failed to load one or more Vulkan video function pointers!"))
  else (self, none)

/-- The method `VideoTranscoder::initDecode`.  The create-infos handed to the
driver are not kept; the codec-specific structure chained to the profile is not
represented. -/
def initDecode (env : InitEnv) (vulkanBase : VulkanBase) (self : VideoResources) :
    VideoResources × Option StdException :=
  let self := { self with decodeProfile :=
    { videoCodecOperation := VK_VIDEO_CODEC_OPERATION_DECODE_H264_BIT_KHR,
      chromaSubsampling := VK_VIDEO_CHROMA_SUBSAMPLING_420_BIT_KHR,
      lumaBitDepth := VK_VIDEO_COMPONENT_BIT_DEPTH_8_BIT_KHR,
      chromaBitDepth := VK_VIDEO_COMPONENT_BIT_DEPTH_8_BIT_KHR } }
  match vulkanBase.queueFamilyIndices.decodeFamily with
  | none => (self, some .bad_optional_access)
  | some _ =>
    if env.vkCreateVideoSessionDecode ≠ VK_SUCCESS then
      (self, some (.runtime_error "Failed to create decode session!"))
    else
      let self := { self with decodeSession := some .decodeSession }
      let bound := bindVideoSessionMemory env.decodeSessionMemory .decodeSession env.decodeMemReqs
      let self := { self with decodeSessionMemory := bound.memory }
      match bound.thrown with
      | some e => (self, some e)
      | none =>
        if env.vkCreateVideoSessionParametersDecode ≠ VK_SUCCESS then
          (self, some (.runtime_error "Failed to create decode session parameters!"))
        else ({ self with decodeSessionParameters := some .decodeSessionParameters }, none)

/-- The method `VideoTranscoder::initEncode`. -/
def initEncode (env : InitEnv) (vulkanBase : VulkanBase) (self : VideoResources) :
    VideoResources × Option StdException :=
  let self := { self with encodeProfile :=
    { videoCodecOperation := VK_VIDEO_CODEC_OPERATION_ENCODE_H265_BIT_KHR,
      chromaSubsampling := VK_VIDEO_CHROMA_SUBSAMPLING_420_BIT_KHR,
      lumaBitDepth := VK_VIDEO_COMPONENT_BIT_DEPTH_8_BIT_KHR,
      chromaBitDepth := VK_VIDEO_COMPONENT_BIT_DEPTH_8_BIT_KHR } }
  match vulkanBase.queueFamilyIndices.encodeFamily with
  | none => (self, some .bad_optional_access)
  | some _ =>
    if env.vkCreateVideoSessionEncode ≠ VK_SUCCESS then
      (self, some (.runtime_error "Failed to create encode session!"))
    else
      let self := { self with encodeSession := some .encodeSession }
      let bound := bindVideoSessionMemory env.encodeSessionMemory .encodeSession env.encodeMemReqs
      let self := { self with encodeSessionMemory := bound.memory }
      match bound.thrown with
      | some e => (self, some e)
      | none =>
        if env.vkCreateVideoSessionParametersEncode ≠ VK_SUCCESS then
          (self, some (.runtime_error "Failed to create encode session parameters!"))
        else ({ self with encodeSessionParameters := some .encodeSessionParameters }, none)

/-- The method `VideoTranscoder::createCommandPools`. -/
def createCommandPools (env : InitEnv) (vulkanBase : VulkanBase) (self : VideoResources) :
    VideoResources × Option StdException :=
  match vulkanBase.queueFamilyIndices.decodeFamily with
  | none => (self, some .bad_optional_access)
  | some decodeFamily =>
    if env.vkCreateCommandPoolDecode ≠ VK_SUCCESS then
      (self, some (.runtime_error "Failed to create decode command pool!"))
    else
      let self := { self with decodeCommandPool := some decodeFamily }
      match vulkanBase.queueFamilyIndices.encodeFamily with
      | none => (self, some .bad_optional_access)
      | some encodeFamily =>
        if env.vkCreateCommandPoolEncode ≠ VK_SUCCESS then
          (self, some (.runtime_error "Failed to create encode command pool!"))
        else ({ self with encodeCommandPool := some encodeFamily }, none)

/-- The method `VideoTranscoder::createDpbImages` (lines 217-238): the two
calls of `VulkanUtils::createImage`, each recorded by its arguments. -/
def createDpbImages (env : InitEnv) (demuxer : H264Demuxer) (self : VideoResources) :
    VideoResources × Option StdException :=
  let format := VK_FORMAT_G8_B8R8_2PLANE_420_UNORM
  let width := toUInt32 demuxer.getWidth
  let height := toUInt32 demuxer.getHeight
  let decodeProfileList := [self.decodeProfile]
  let encodeProfileList := [self.encodeProfile]
  let decodeDpbUsage := VK_IMAGE_USAGE_VIDEO_DECODE_DPB_BIT_KHR
  match env.createImageDecodeDpb with
  | some e => (self, some e)
  | none =>
    let created : ImageCreation :=
      { width := width, height := height, format := format, usage := decodeDpbUsage,
        arrayLayers := DPB_SIZE, profiles := some decodeProfileList }
    let self := { self with decodeDpbImage := some created }
    let encodeDpbUsage := VK_IMAGE_USAGE_VIDEO_ENCODE_DPB_BIT_KHR
    match env.createImageEncodeDpb with
    | some e => (self, some e)
    | none =>
      let created : ImageCreation :=
        { width := width, height := height, format := format, usage := encodeDpbUsage,
          arrayLayers := DPB_SIZE, profiles := some encodeProfileList }
      ({ self with encodeDpbImage := some created }, none)

/-- The method `VideoTranscoder::init` with a ring of `numFrameResources`
slots. -/
def init (numFrameResources : Nat) (env : InitEnv) (vulkanBase : VulkanBase)
    (demuxer : H264Demuxer) (self : VideoResources) : VideoResources × Option StdException :=
  match loadVideoFunctionPointers env self with
  | (self, some e) => (self, some e)
  | (self, none) =>
    match initDecode env vulkanBase self with
    | (self, some e) => (self, some e)
    | (self, none) =>
      match initEncode env vulkanBase self with
      | (self, some e) => (self, some e)
      | (self, none) =>
        match createCommandPools env vulkanBase self with
        | (self, some e) => (self, some e)
        | (self, none) =>
          match createDpbImages env demuxer self with
          | (self, some e) => (self, some e)
          | (self, none) =>
            let created := createFrameResources numFrameResources env.frameResources
              self.decodeProfile self.encodeProfile demuxer
            ({ self with frameResources := created.1 }, created.2)

/-- A `VideoTranscoder` object whole: the members the transcode loop uses, the
`formatContext` of its muxer, and the members `init` fills. -/
structure TranscoderObject where
  members : VideoTranscoder
  muxerContext : Option FormatContext
  resources : VideoResources
  deriving DecidableEq, Repr

/-- The muxer of a transcoder. -/
def TranscoderObject.muxer (self : TranscoderObject) : H265MuxerObject :=
  { formatContext := self.muxerContext, members := self.members.muxer }

/-- The constructor `VideoTranscoder::VideoTranscoder` (lines 18-28) with a
ring of `numFrameResources` slots; `vulkanBase` is `none` for a null pointer.
When the constructor throws, the members already constructed are destroyed in
the reverse order of their declaration: the muxer, then the demuxer. -/
def VideoTranscoder.construct (numFrameResources : Nat) (vulkanBase : Option VulkanBase)
    (input : InputFile) (output : OutputFile) (env : InitEnv) :
    List HostCall × Constructed TranscoderObject :=
  match vulkanBase with
  | none => ([], .threw (.invalid_argument "VulkanBase pointer or device cannot be null."))
  | some vulkanBase =>
    if vulkanBase.device = none then
      ([], .threw (.invalid_argument "VulkanBase pointer or device cannot be null."))
    else
      match H264Demuxer.construct input with
      | (opened, .threw e) => (opened, .threw e)
      | (opened, .object demuxer) =>
        match H265Muxer.construct output demuxer.getWidth demuxer.getHeight 30 with
        | (created, .threw e) => (opened ++ created ++ demuxer.destroy, .threw e)
        | (created, .object muxer) =>
          match init numFrameResources env vulkanBase demuxer {} with
          | (_, some e) =>
            (opened ++ created ++ muxer.destroy ++ demuxer.destroy, .threw e)
          | (resources, none) =>
            (opened ++ created,
              .object
                { members :=
                    { vulkanBase := vulkanBase, demuxer := demuxer, muxer := muxer.members,
                      currentFrame := 0 },
                  muxerContext := muxer.formatContext,
                  resources := resources })

/-- The destructor `VideoTranscoder::~VideoTranscoder` (lines 30-33) followed by
the destruction of the members: the muxer, then the demuxer. -/
def TranscoderObject.destroy (self : TranscoderObject) : List HostCall :=
  [HostCall.vkDeviceWaitIdle] ++ self.muxer.destroy ++ self.members.demuxer.destroy

/-- Everything outside the program that a run of `main` depends on: the number
of command-line arguments (the program name included), the Vulkan driver, the
two files and the answers during `init` and during the transcode loop. -/
structure World where
  argc : Int
  driver : VulkanDriver
  input : InputFile
  output : OutputFile
  initEnv : InitEnv
  env : Env

/-- How a run of `main` ends: the calls of the container library, the exception
the handler of line 36 caught, if any, and the exit status (`none` when the
evaluation of the transcode loop was cut short). -/
structure MainRun where
  calls : List HostCall
  caught : Option StdException
  exitCode : Option Int
  deriving DecidableEq, Repr

/-- The function `main` (`main.cpp`, lines 8-45).  An exception that leaves
`run` destroys the transcoder before the handler is entered. -/
def main (world : World) : MainRun :=
  if world.argc ≠ 3 then
    { calls := [], caught := none, exitCode := some EXIT_FAILURE }
  else
    match initVulkan world.driver {} with
    | (_, some e) => { calls := [], caught := some e, exitCode := some EXIT_FAILURE }
    | (vulkanBase, none) =>
      match VideoTranscoder.construct NUM_FRAME_RESOURCES (some vulkanBase) world.input
          world.output world.initEnv with
      | (calls, .threw e) => { calls := calls, caught := some e, exitCode := some EXIT_FAILURE }
      | (calls, .object transcoder) =>
        let run := transcoder.members.transcodeLoop NUM_FRAME_RESOURCES world.env
        let transcoder := { transcoder with members := run.self }
        let calls := calls ++ run.events.map HostCall.frame ++ transcoder.destroy
        match run.outcome with
        | .returned => { calls := calls, caught := none, exitCode := some EXIT_SUCCESS }
        | .threw e => { calls := calls, caught := some e, exitCode := some EXIT_FAILURE }
        | .outOfFuel => { calls := calls, caught := none, exitCode := none }

/-! ## Sample worlds -/

/-- An H.264 input of 320x240 whose video stream is stream 0 and delivers
`packets`. -/
def inputOf (packets : List AVPacket) : InputFile :=
  { filepath := "in.mp4", avformat_open_input := 0, avformat_find_stream_info := 0,
    av_find_best_stream := 0,
    codecpar := { codec_id := AV_CODEC_ID_H264, width := 320, height := 240, extradata := [1] },
    packets := packets }

/-- An output file that can be created and opened. -/
def quietOutput : OutputFile :=
  { filepath := "out.mp4", avformat_alloc_output_context2 := 0, avformat_new_stream := true,
    streamIndex := 0, noFile := false, avio_open := 0 }

/-- A driver on which every call of `init` succeeds; each session asks for the
three memory bindings of `sampleMemReqs`. -/
def quietInitEnv : InitEnv :=
  { vkGetDeviceProcAddr := fun _ => true,
    vkCreateVideoSessionDecode := 0,
    decodeMemReqs := sampleMemReqs,
    decodeSessionMemory := quietSessionMemoryEnv,
    vkCreateVideoSessionParametersDecode := 0,
    vkCreateVideoSessionEncode := 0,
    encodeMemReqs := sampleMemReqs,
    encodeSessionMemory := quietSessionMemoryEnv,
    vkCreateVideoSessionParametersEncode := 0,
    vkCreateCommandPoolDecode := 0,
    vkCreateCommandPoolEncode := 0,
    createImageDecodeDpb := none,
    createImageEncodeDpb := none,
    frameResources := quietFrameResourcesEnv }

/-- A world in which everything succeeds, with one suitable adapter and an
input delivering `packets`. -/
def quietWorld (packets : List AVPacket) : World :=
  { argc := 3, driver := workingDriver [adapterIntegratedSuitable], input := inputOf packets,
    output := quietOutput, initEnv := quietInitEnv, env := quietEnv }

/-- The call is `av_write_trailer`. -/
def HostCall.isTrailer : HostCall → Bool
  | .av_write_trailer => true
  | _ => false

/-- The call sets up, writes or finalises the output: it is made by the
constructor, by `writePacket` or by the destructor of the muxer. -/
def HostCall.isMuxerCall : HostCall → Bool
  | .avformat_alloc_output_context2 _ => true
  | .avformat_new_stream _ => true
  | .avio_open _ => true
  | .av_write_trailer => true
  | .avio_closep => true
  | .avformat_free_context => true
  | .frame (.avformat_write_header _) => true
  | .frame (.av_interleaved_write_frame _ _) => true
  | _ => false

/-- The video resources of a ring slot that exist were created with the usage
of their role and the matching profile list: the input staging buffer with the
decode profile, the output staging buffer with the encode profile, the decoded
picture with both. -/
def FrameResources.ProfilesMatch (decodeProfile encodeProfile : VideoProfileInfo)
    (res : FrameResources) : Prop :=
  (∀ buffer, res.decodeBitstreamBuffer = some buffer →
    buffer.usage = VK_BUFFER_USAGE_VIDEO_DECODE_SRC_BIT_KHR ∧
    buffer.profiles = some [decodeProfile]) ∧
  (∀ buffer, res.encodeBitstreamBuffer = some buffer →
    buffer.usage = VK_BUFFER_USAGE_VIDEO_ENCODE_DST_BIT_KHR ∧
    buffer.profiles = some [encodeProfile]) ∧
  (∀ image, res.decodedImage = some image →
    image.usage =
      VK_IMAGE_USAGE_VIDEO_DECODE_DST_BIT_KHR ||| VK_IMAGE_USAGE_VIDEO_ENCODE_SRC_BIT_KHR ∧
    image.profiles = some [decodeProfile, encodeProfile])

/-- The input `inputOf packets` with a video track that carries no extradata. -/
def inputWithoutExtradata (packets : List AVPacket) : InputFile :=
  { filepath := "in.mp4", avformat_open_input := 0, avformat_find_stream_info := 0,
    av_find_best_stream := 0,
    codecpar := { codec_id := AV_CODEC_ID_H264, width := 320, height := 240, extradata := [] },
    packets := packets }

/-- An input whose best video stream is H.265. -/
def inputHevc : InputFile :=
  { filepath := "in.mp4", avformat_open_input := 0, avformat_find_stream_info := 0,
    av_find_best_stream := 0,
    codecpar := { codec_id := AV_CODEC_ID_HEVC, width := 320, height := 240, extradata := [1] },
    packets := [⟨0, 100⟩] }

/-- The world `quietWorld` with another input file. -/
def worldWithInput (input : InputFile) : World :=
  { argc := 3, driver := workingDriver [adapterIntegratedSuitable], input := input,
    output := quietOutput, initEnv := quietInitEnv, env := quietEnv }

/-- A world in which the creation of the decode session fails with
`VK_ERROR_INITIALIZATION_FAILED` (-3), on an input of one video packet. -/
def worldDecodeSessionFails : World :=
  { argc := 3, driver := workingDriver [adapterIntegratedSuitable], input := inputOf [⟨0, 100⟩],
    output := quietOutput,
    initEnv := { quietInitEnv with vkCreateVideoSessionDecode := -3 },
    env := quietEnv }

/-- A world in which the container header cannot be written, on an input of one
video packet. -/
def worldHeaderFails : World :=
  { argc := 3, driver := workingDriver [adapterIntegratedSuitable], input := inputOf [⟨0, 100⟩],
    output := quietOutput, initEnv := quietInitEnv,
    env := { quietEnv with avformat_write_header := -1 } }

/-- A driver and container library during the loop on which every Vulkan call
succeeds and the header can be written, while every write of a packet fails. -/
def writeFailingEnv : Env :=
  { quietEnv with av_interleaved_write_frame := fun _ => -5 }

/-- The results of the calls of `av_interleaved_write_frame` in a trace. -/
def writeResults (T : List Event) : List Int :=
  T.filterMap fun e =>
    match e with
    | .av_interleaved_write_frame _ ret => some ret
    | _ => none

/-- The three video resources of a ring slot exist and are what lines 271-282
create: the input staging buffer, the output staging buffer and the decoded
picture, each with its size, usage and profile list. -/
def FrameResources.Created (decodeProfile encodeProfile : VideoProfileInfo)
    (width height : Nat) (res : FrameResources) : Prop :=
  res.decodeBitstreamBuffer = some
    { size := BITSTREAM_BUFFER_SIZE, usage := VK_BUFFER_USAGE_VIDEO_DECODE_SRC_BIT_KHR,
      properties := VK_MEMORY_PROPERTY_HOST_VISIBLE_BIT ||| VK_MEMORY_PROPERTY_HOST_COHERENT_BIT,
      profiles := some [decodeProfile] } ∧
  res.encodeBitstreamBuffer = some
    { size := BITSTREAM_BUFFER_SIZE, usage := VK_BUFFER_USAGE_VIDEO_ENCODE_DST_BIT_KHR,
      properties := VK_MEMORY_PROPERTY_HOST_VISIBLE_BIT ||| VK_MEMORY_PROPERTY_HOST_COHERENT_BIT,
      profiles := some [encodeProfile] } ∧
  res.decodedImage = some
    { width := width, height := height, format := VK_FORMAT_G8_B8R8_2PLANE_420_UNORM,
      usage := VK_IMAGE_USAGE_VIDEO_DECODE_DST_BIT_KHR ||| VK_IMAGE_USAGE_VIDEO_ENCODE_SRC_BIT_KHR,
      arrayLayers := 1, profiles := some [decodeProfile, encodeProfile] }


/-! ## Searching for the first index -/

theorem firstIndexFrom_none {α : Type} (p : α → Bool) (l : List α) (i : Nat) :
    firstIndexFrom p l i = none ↔ ∀ a ∈ l, p a = false := by
  induction l generalizing i with
  | nil => simp [firstIndexFrom]
  | cons a rest ih =>
    by_cases h : p a = true
    · simp [firstIndexFrom, h]
    · simp [firstIndexFrom, h, ih]

theorem firstIndexFrom_some {α : Type} (p : α → Bool) (l : List α) (i k : Nat) :
    firstIndexFrom p l i = some k ↔ i ≤ k ∧ IsSmallestIndex p l (k - i) := by
  induction l generalizing i with
  | nil => simp [firstIndexFrom, IsSmallestIndex]
  | cons a rest ih =>
    by_cases h : p a = true
    · simp only [firstIndexFrom, h, if_true, Option.some.injEq]
      constructor
      · rintro rfl
        refine ⟨le_refl _, ⟨a, by simp, h⟩, ?_⟩
        intro j b hj
        simp at hj
      · rintro ⟨hik, -, hmin⟩
        by_contra hne
        have hpos : 0 < k - i := by omega
        have := hmin 0 a hpos (by simp)
        simp [h] at this
    · have hf : p a = false := by simpa using h
      have hstep : firstIndexFrom p (a :: rest) i = firstIndexFrom p rest (i + 1) := by
        simp [firstIndexFrom, hf]
      rw [hstep, ih]
      constructor
      · rintro ⟨hik, ⟨b, hb, hpb⟩, hmin⟩
        have hk : k - i = (k - (i + 1)) + 1 := by omega
        refine ⟨by omega, ⟨b, ?_, hpb⟩, ?_⟩
        · rw [hk]; simpa using hb
        · intro j c hj hc
          cases j with
          | zero => simp at hc; rw [← hc]; exact hf
          | succ j =>
            simp at hc
            exact hmin j c (by omega) hc
      · rintro ⟨hik, ⟨b, hb, hpb⟩, hmin⟩
        have hne : k ≠ i := by
          rintro rfl
          simp at hb
          rw [hb] at hf; simp [hf] at hpb
        have hk : k - i = (k - (i + 1)) + 1 := by omega
        rw [hk] at hb
        refine ⟨by omega, ⟨b, by simpa using hb, hpb⟩, ?_⟩
        intro j c hj hc
        exact hmin (j + 1) c (by omega) (by simpa using hc)

theorem findQueueFamiliesLoop_decode (l : List QueueFamilyProperties) (i : Nat)
    (indices : QueueFamilyIndices) :
    (findQueueFamiliesLoop l i indices).decodeFamily =
      match indices.decodeFamily with
      | some d => some d
      | none => firstIndexFrom advertisesDecode l i := by
  induction l generalizing i indices with
  | nil => cases h : indices.decodeFamily <;> simp [findQueueFamiliesLoop, firstIndexFrom, h]
  | cons q rest ih =>
    rw [findQueueFamiliesLoop, ih]
    by_cases hd : q.queueFlags &&& VK_QUEUE_VIDEO_DECODE_BIT_KHR = 0 <;>
    by_cases he : q.queueFlags &&& VK_QUEUE_VIDEO_ENCODE_BIT_KHR = 0 <;>
    cases h : indices.decodeFamily <;> cases h2 : indices.encodeFamily <;>
    simp [findQueueFamiliesStep, firstIndexFrom, advertisesDecode, hd, he, h, h2]

theorem findQueueFamiliesLoop_encode (l : List QueueFamilyProperties) (i : Nat)
    (indices : QueueFamilyIndices) :
    (findQueueFamiliesLoop l i indices).encodeFamily =
      match indices.encodeFamily with
      | some d => some d
      | none => firstIndexFrom advertisesEncode l i := by
  induction l generalizing i indices with
  | nil => cases h : indices.encodeFamily <;> simp [findQueueFamiliesLoop, firstIndexFrom, h]
  | cons q rest ih =>
    rw [findQueueFamiliesLoop, ih]
    by_cases hd : q.queueFlags &&& VK_QUEUE_VIDEO_DECODE_BIT_KHR = 0 <;>
    by_cases he : q.queueFlags &&& VK_QUEUE_VIDEO_ENCODE_BIT_KHR = 0 <;>
    cases h : indices.decodeFamily <;> cases h2 : indices.encodeFamily <;>
    simp [findQueueFamiliesStep, firstIndexFrom, advertisesEncode, hd, he, h, h2]

theorem findQueueFamilies_decode (device : PhysicalDevice) :
    (findQueueFamilies device).decodeFamily =
      firstIndexFrom advertisesDecode device.queueFamilies 0 := by
  simp [findQueueFamilies, findQueueFamiliesLoop_decode]

theorem findQueueFamilies_encode (device : PhysicalDevice) :
    (findQueueFamilies device).encodeFamily =
      firstIndexFrom advertisesEncode device.queueFamilies 0 := by
  simp [findQueueFamilies, findQueueFamiliesLoop_encode]

theorem IsSmallestIndex.unique {α : Type} {p : α → Bool} {l : List α} {i j : Nat}
    (hi : IsSmallestIndex p l i) (hj : IsSmallestIndex p l j) : i = j := by
  obtain ⟨⟨a, ha, hpa⟩, hmi⟩ := hi
  obtain ⟨⟨b, hb, hpb⟩, hmj⟩ := hj
  rcases Nat.lt_trichotomy i j with h | h | h
  · have := hmj i a h ha; simp [hpa] at this
  · exact h
  · have := hmi j b h hb; simp [hpb] at this

/-! ## Queue-family selection -/

/-- C1: `findQueueFamilies` returns as `decodeFamily` the smallest index whose
family has the video-decode flag and as `encodeFamily` the smallest index whose
family has the video-encode flag; a role has no value exactly when no family
advertises it; and when exactly one family advertises decode and exactly one
advertises encode, those two indices are returned. -/
theorem findQueueFamilies_smallest_index (device : PhysicalDevice) :
    (∀ i, (findQueueFamilies device).decodeFamily = some i ↔
        IsSmallestIndex advertisesDecode device.queueFamilies i) ∧
    (∀ i, (findQueueFamilies device).encodeFamily = some i ↔
        IsSmallestIndex advertisesEncode device.queueFamilies i) ∧
    ((findQueueFamilies device).decodeFamily = none ↔
        ∀ q ∈ device.queueFamilies, advertisesDecode q = false) ∧
    ((findQueueFamilies device).encodeFamily = none ↔
        ∀ q ∈ device.queueFamilies, advertisesEncode q = false) ∧
    (∀ d e,
        (∀ j, (∃ q, device.queueFamilies[j]? = some q ∧ advertisesDecode q = true) ↔ j = d) →
        (∀ j, (∃ q, device.queueFamilies[j]? = some q ∧ advertisesEncode q = true) ↔ j = e) →
        findQueueFamilies device = { decodeFamily := some d, encodeFamily := some e }) := by
  have hdec : ∀ i, (findQueueFamilies device).decodeFamily = some i ↔
      IsSmallestIndex advertisesDecode device.queueFamilies i := by
    intro i
    rw [findQueueFamilies_decode, firstIndexFrom_some]
    simp
  have henc : ∀ i, (findQueueFamilies device).encodeFamily = some i ↔
      IsSmallestIndex advertisesEncode device.queueFamilies i := by
    intro i
    rw [findQueueFamilies_encode, firstIndexFrom_some]
    simp
  refine ⟨hdec, henc, ?_, ?_, ?_⟩
  · rw [findQueueFamilies_decode, firstIndexFrom_none]
  · rw [findQueueFamilies_encode, firstIndexFrom_none]
  · intro d e hd he
    have h1 : (findQueueFamilies device).decodeFamily = some d := by
      rw [hdec]
      refine ⟨(hd d).mpr rfl, ?_⟩
      intro j a hj ha
      by_contra hp
      have : j = d := (hd j).mp ⟨a, ha, by simpa using hp⟩
      omega
    have h2 : (findQueueFamilies device).encodeFamily = some e := by
      rw [henc]
      refine ⟨(he e).mpr rfl, ?_⟩
      intro j a hj ha
      by_contra hp
      have : j = e := (he j).mp ⟨a, ha, by simpa using hp⟩
      omega
    cases hr : findQueueFamilies device with
    | mk df ef =>
      rw [hr] at h1 h2
      simp only at h1 h2
      rw [h1, h2]

/-- C1, at a concrete adapter: a graphics family, a decode family and an encode
family give the indices 1 and 2. -/
theorem findQueueFamilies_smallest_index_witness :
    findQueueFamilies adapterNvidiaSuitable = { decodeFamily := some 1, encodeFamily := some 2 } :=
  (findQueueFamilies_smallest_index adapterNvidiaSuitable).2.2.2.2 1 2
    (by intro j; rcases j with _ | _ | _ | j <;> simp [adapterNvidiaSuitable, advertisesDecode,
          VK_QUEUE_VIDEO_DECODE_BIT_KHR] <;> decide)
    (by intro j; rcases j with _ | _ | _ | j <;> simp [adapterNvidiaSuitable, advertisesEncode,
          VK_QUEUE_VIDEO_ENCODE_BIT_KHR] <;> decide)

/-- C2, refuted as stated: the adapter `adapterDecodeThenCombined` has a family
(index 1) advertising both operations, yet the decode index is 0 and the encode
index is 1. -/
theorem findQueueFamilies_combined_not_equal :
    (∃ q ∈ adapterDecodeThenCombined.queueFamilies,
        advertisesDecode q = true ∧ advertisesEncode q = true) ∧
    (findQueueFamilies adapterDecodeThenCombined).decodeFamily = some 0 ∧
    (findQueueFamilies adapterDecodeThenCombined).encodeFamily = some 1 ∧
    (findQueueFamilies adapterDecodeThenCombined).decodeFamily ≠
      (findQueueFamilies adapterDecodeThenCombined).encodeFamily := by
  decide

theorem firstIndexFrom_combined (l : List QueueFamilyProperties) (i s : Nat)
    (q : QueueFamilyProperties) (hq : l[i]? = some q)
    (hd : advertisesDecode q = true) (he : advertisesEncode q = true)
    (hbefore : ∀ j r, j < i → l[j]? = some r → advertisesDecode r = advertisesEncode r) :
    ∃ k, k ≤ s + i ∧ firstIndexFrom advertisesDecode l s = some k ∧
      firstIndexFrom advertisesEncode l s = some k := by
  induction l generalizing i s with
  | nil => simp at hq
  | cons a rest ih =>
    cases i with
    | zero =>
      simp at hq
      subst hq
      exact ⟨s, by omega, by simp [firstIndexFrom, hd], by simp [firstIndexFrom, he]⟩
    | succ i =>
      have ha := hbefore 0 a (by omega) (by simp)
      by_cases hda : advertisesDecode a = true
      · exact ⟨s, by omega, by simp [firstIndexFrom, hda], by simp [firstIndexFrom, ← ha, hda]⟩
      · have hda' : advertisesDecode a = false := by simpa using hda
        have hea' : advertisesEncode a = false := by rw [← ha]; exact hda'
        obtain ⟨k, hk, h1, h2⟩ := ih i (s + 1) (by simpa using hq)
          (fun j r hj hr => hbefore (j + 1) r (by omega) (by simpa using hr))
        exact ⟨k, by omega, by simp [firstIndexFrom, hda', h1], by simp [firstIndexFrom, hea', h2]⟩

/-- C2, amended: when a family at index `i` advertises both operations and no
family of smaller index advertises exactly one of them, the decode index and
the encode index selected by `findQueueFamilies` are the same index, at most `i`. -/
theorem findQueueFamilies_combined_equal (device : PhysicalDevice) (i : Nat)
    (q : QueueFamilyProperties) (hq : device.queueFamilies[i]? = some q)
    (hd : advertisesDecode q = true) (he : advertisesEncode q = true)
    (hbefore : ∀ j r, j < i → device.queueFamilies[j]? = some r →
      advertisesDecode r = advertisesEncode r) :
    ∃ k, k ≤ i ∧ (findQueueFamilies device).decodeFamily = some k ∧
      (findQueueFamilies device).encodeFamily = some k := by
  obtain ⟨k, hk, h1, h2⟩ := firstIndexFrom_combined device.queueFamilies i 0 q hq hd he hbefore
  exact ⟨k, by omega, by rw [findQueueFamilies_decode, h1], by rw [findQueueFamilies_encode, h2]⟩

/-- C2, amended, at `adapterCombinedSecond`: the combined family is at index 1
behind a graphics family, and both selected indices are the same. -/
theorem findQueueFamilies_combined_equal_witness :
    ∃ k, k ≤ 1 ∧ (findQueueFamilies adapterCombinedSecond).decodeFamily = some k ∧
      (findQueueFamilies adapterCombinedSecond).encodeFamily = some k :=
  findQueueFamilies_combined_equal adapterCombinedSecond 1
    { queueFlags := 0x60, videoCodecOperations := 0x20001 } (by decide) (by decide) (by decide)
    (by
      intro j r hj hr
      have hj0 : j = 0 := by omega
      subst hj0
      simp [adapterCombinedSecond] at hr
      subst hr
      decide)

/-- C3, the code at the failing input `adapterWrongCodecFirst`: the family
selected for decode is index 0, whose chained video properties lack the H.264
decode operation, although family 1 advertises it. -/
theorem findQueueFamilies_ignores_codec_operations :
    (findQueueFamilies adapterWrongCodecFirst).decodeFamily = some 0 ∧
    (∃ q, adapterWrongCodecFirst.queueFamilies[0]? = some q ∧
      q.videoCodecOperations &&& VK_VIDEO_CODEC_OPERATION_DECODE_H264_BIT_KHR = 0) ∧
    (∃ q, adapterWrongCodecFirst.queueFamilies[1]? = some q ∧ advertisesDecode q = true ∧
      q.videoCodecOperations &&& VK_VIDEO_CODEC_OPERATION_DECODE_H264_BIT_KHR ≠ 0) := by
  refine ⟨by decide, ⟨_, rfl, by decide⟩, ⟨_, rfl, by decide, by decide⟩⟩

/-! ## Suitability of an adapter -/

theorem checkDeviceExtensionLoop_eq (available required : List String) (allFound : Bool) :
    checkDeviceExtensionLoop available required allFound =
      (allFound && required.all (fun e => decide (e ∈ available))) := by
  induction required generalizing allFound with
  | nil => simp [checkDeviceExtensionLoop]
  | cons e rest ih =>
    by_cases h : e ∈ available
    · have hc : List.count e available ≠ 0 := by
        have := List.count_pos_iff.mpr h
        omega
      simp [checkDeviceExtensionLoop, hc, ih, h]
    · have hc : List.count e available = 0 := List.count_eq_zero.mpr h
      simp [checkDeviceExtensionLoop, hc, ih, h]

theorem mem_foldl_insert (l init : List String) (x : String) :
    x ∈ l.foldl (fun s extensionName => List.insert extensionName s) init ↔ x ∈ init ∨ x ∈ l := by
  induction l generalizing init with
  | nil => simp
  | cons e rest ih =>
    simp only [List.foldl_cons, ih, List.mem_insert_iff, List.mem_cons]
    tauto

theorem checkDeviceExtensionSupport_iff (device : PhysicalDevice) :
    checkDeviceExtensionSupport device = true ↔ ∀ e ∈ deviceExtensions, e ∈ device.extensions := by
  simp [checkDeviceExtensionSupport, checkDeviceExtensionLoop_eq, mem_foldl_insert]

theorem deviceExtensions_all_mem (device : PhysicalDevice) :
    (∀ e ∈ deviceExtensions, e ∈ device.extensions) ↔
      ("VK_KHR_video_queue" ∈ device.extensions ∧
        "VK_KHR_video_decode_queue" ∈ device.extensions ∧
        "VK_KHR_video_decode_h264" ∈ device.extensions ∧
        "VK_KHR_video_encode_queue" ∈ device.extensions ∧
        "VK_KHR_video_encode_h265" ∈ device.extensions ∧
        "VK_KHR_synchronization2" ∈ device.extensions ∧
        "VK_KHR_sampler_ycbcr_conversion" ∈ device.extensions) := by
  unfold deviceExtensions
  simp only [List.forall_mem_cons, List.not_mem_nil, false_imp_iff, imp_true_iff, and_true]

theorem isDeviceSuitable_eq (device : PhysicalDevice) :
    isDeviceSuitable device = true ↔
      ((findQueueFamilies device).decodeFamily.isSome = true ∧
        (findQueueFamilies device).encodeFamily.isSome = true) ∧
      checkDeviceExtensionSupport device = true := by
  unfold isDeviceSuitable QueueFamilyIndices.isComplete
  simp

/-- C4: `isDeviceSuitable` returns true if and only if `findQueueFamilies` finds
both a decode and an encode family and each of the seven required device
extensions is among the extensions the adapter reports. -/
theorem isDeviceSuitable_iff (device : PhysicalDevice) :
    isDeviceSuitable device = true ↔
      ((findQueueFamilies device).decodeFamily.isSome = true ∧
        (findQueueFamilies device).encodeFamily.isSome = true) ∧
      ("VK_KHR_video_queue" ∈ device.extensions ∧
        "VK_KHR_video_decode_queue" ∈ device.extensions ∧
        "VK_KHR_video_decode_h264" ∈ device.extensions ∧
        "VK_KHR_video_encode_queue" ∈ device.extensions ∧
        "VK_KHR_video_encode_h265" ∈ device.extensions ∧
        "VK_KHR_synchronization2" ∈ device.extensions ∧
        "VK_KHR_sampler_ycbcr_conversion" ∈ device.extensions) := by
  rw [isDeviceSuitable_eq, checkDeviceExtensionSupport_iff, deviceExtensions_all_mem]

/-! ## Adapter selection -/

theorem pickPhysicalDeviceNvidiaLoop_eq (l : List PhysicalDevice) (i : Nat)
    (physicalDevice : Option Nat) :
    pickPhysicalDeviceNvidiaLoop l i physicalDevice =
      match firstIndexFrom isPreferredSuitable l i with
      | some k => some k
      | none => physicalDevice := by
  induction l generalizing i with
  | nil => simp [pickPhysicalDeviceNvidiaLoop, firstIndexFrom]
  | cons d rest ih =>
    by_cases h1 : isNvidiaDiscrete d = true <;> by_cases h2 : isDeviceSuitable d = true <;>
      simp [pickPhysicalDeviceNvidiaLoop, firstIndexFrom, isPreferredSuitable, h1, h2, ih]

theorem pickPhysicalDeviceAnyLoop_eq (l : List PhysicalDevice) (i : Nat)
    (physicalDevice : Option Nat) :
    pickPhysicalDeviceAnyLoop l i physicalDevice =
      match firstIndexFrom isDeviceSuitable l i with
      | some k => some k
      | none => physicalDevice := by
  induction l generalizing i with
  | nil => simp [pickPhysicalDeviceAnyLoop, firstIndexFrom]
  | cons d rest ih =>
    by_cases h2 : isDeviceSuitable d = true <;>
      simp [pickPhysicalDeviceAnyLoop, firstIndexFrom, h2, ih]

theorem pickPhysicalDevice_eq_of_null (driver : VulkanDriver) (self : VulkanBase)
    (hnull : self.physicalDevice = none) :
    pickPhysicalDevice driver self =
      if driver.physicalDevices = [] then
        (self, some (.runtime_error "Failed to find GPUs with Vulkan support!"))
      else
        match firstIndexFrom isPreferredSuitable driver.physicalDevices 0 with
        | some k => ({ self with physicalDevice := some k }, none)
        | none =>
          match firstIndexFrom isDeviceSuitable driver.physicalDevices 0 with
          | some k => ({ self with physicalDevice := some k }, none)
          | none => (self, some (.runtime_error "Failed to find a suitable GPU!")) := by
  by_cases hnil : driver.physicalDevices = []
  · simp [pickPhysicalDevice, hnil]
  · have hlen : driver.physicalDevices.length ≠ 0 := by
      simpa [List.length_eq_zero] using hnil
    simp only [pickPhysicalDevice, hlen, if_false, hnil, pickPhysicalDeviceNvidiaLoop_eq,
      pickPhysicalDeviceAnyLoop_eq]
    cases h1 : firstIndexFrom isPreferredSuitable driver.physicalDevices 0 with
    | some k => simp
    | none =>
      cases h2 : firstIndexFrom isDeviceSuitable driver.physicalDevices 0 with
      | some k => simp [hnull]
      | none =>
        cases self
        simp at hnull
        simp [hnull]

theorem pickPhysicalDevice_eq (driver : VulkanDriver) :
    pickPhysicalDevice driver {} =
      if driver.physicalDevices = [] then
        ({}, some (.runtime_error "Failed to find GPUs with Vulkan support!"))
      else
        match firstIndexFrom isPreferredSuitable driver.physicalDevices 0 with
        | some k => ({ physicalDevice := some k }, none)
        | none =>
          match firstIndexFrom isDeviceSuitable driver.physicalDevices 0 with
          | some k => ({ physicalDevice := some k }, none)
          | none => ({}, some (.runtime_error "Failed to find a suitable GPU!")) :=
  pickPhysicalDevice_eq_of_null driver {} rfl

theorem firstIndexFrom_zero_some {α : Type} (p : α → Bool) (l : List α) (k : Nat) :
    firstIndexFrom p l 0 = some k ↔ IsSmallestIndex p l k := by
  rw [firstIndexFrom_some]; simp

/-- C5: `pickPhysicalDevice` selects the first adapter in enumeration order that
is a suitable discrete adapter of vendor 0x10de when there is one, otherwise the
first suitable adapter in enumeration order; whatever it selects is suitable. -/
theorem pickPhysicalDevice_tiers (driver : VulkanDriver) :
    (∀ i, IsSmallestIndex isPreferredSuitable driver.physicalDevices i →
      pickPhysicalDevice driver {} = ({ physicalDevice := some i }, none)) ∧
    ((∀ d ∈ driver.physicalDevices, isPreferredSuitable d = false) →
      ∀ i, IsSmallestIndex isDeviceSuitable driver.physicalDevices i →
        pickPhysicalDevice driver {} = ({ physicalDevice := some i }, none)) ∧
    (∀ i, (pickPhysicalDevice driver {}).1.physicalDevice = some i →
      ∃ d, driver.physicalDevices[i]? = some d ∧ isDeviceSuitable d = true) := by
  refine ⟨?_, ?_, ?_⟩
  · intro i hi
    have hne : driver.physicalDevices ≠ [] := by
      rintro h
      obtain ⟨⟨a, ha, -⟩, -⟩ := hi
      simp [h] at ha
    rw [pickPhysicalDevice_eq, if_neg hne, (firstIndexFrom_zero_some _ _ _).mpr hi]
  · intro hnone i hi
    have hne : driver.physicalDevices ≠ [] := by
      rintro h
      obtain ⟨⟨a, ha, -⟩, -⟩ := hi
      simp [h] at ha
    rw [pickPhysicalDevice_eq, if_neg hne, (firstIndexFrom_none _ _ _).mpr hnone,
      (firstIndexFrom_zero_some _ _ _).mpr hi]
  · intro i hi
    rw [pickPhysicalDevice_eq] at hi
    by_cases hne : driver.physicalDevices = []
    · simp [hne] at hi
    · rw [if_neg hne] at hi
      cases h1 : firstIndexFrom isPreferredSuitable driver.physicalDevices 0 with
      | some k =>
        rw [h1] at hi
        simp at hi
        subst hi
        obtain ⟨⟨a, ha, hp⟩, -⟩ := (firstIndexFrom_zero_some _ _ _).mp h1
        refine ⟨a, ha, ?_⟩
        simp [isPreferredSuitable] at hp
        exact hp.2
      | none =>
        rw [h1] at hi
        cases h2 : firstIndexFrom isDeviceSuitable driver.physicalDevices 0 with
        | some k =>
          rw [h2] at hi
          simp at hi
          subst hi
          obtain ⟨⟨a, ha, hp⟩, -⟩ := (firstIndexFrom_zero_some _ _ _).mp h2
          exact ⟨a, ha, hp⟩
        | none =>
          rw [h2] at hi
          simp at hi

/-- C5, at a concrete enumeration: a suitable integrated adapter listed before a
suitable discrete NVIDIA adapter is passed over for the latter. -/
theorem pickPhysicalDevice_tiers_witness :
    pickPhysicalDevice
      (workingDriver [adapterNoEncode, adapterIntegratedSuitable,
        adapterNvidiaMissingExtension, adapterNvidiaSuitable]) {} =
      ({ physicalDevice := some 3 }, none) :=
  (pickPhysicalDevice_tiers _).1 3 (by
    refine ⟨⟨adapterNvidiaSuitable, rfl, by decide⟩, ?_⟩
    intro j a hj ha
    rcases j with _ | _ | _ | j
    · simp [workingDriver] at ha; subst ha; decide
    · simp [workingDriver] at ha; subst ha; decide
    · simp [workingDriver] at ha; subst ha; decide
    · omega)

/-! ## Failure of adapter selection -/

theorem firstIndexFrom_none_of_preferred {l : List PhysicalDevice} {i : Nat}
    (h : firstIndexFrom isDeviceSuitable l i = none) :
    firstIndexFrom isPreferredSuitable l i = none := by
  rw [firstIndexFrom_none] at h ⊢
  intro a ha
  simp [isPreferredSuitable, h a ha]

theorem pickPhysicalDevice_throws_iff (driver : VulkanDriver) (self : VulkanBase)
    (hnull : self.physicalDevice = none) :
    (pickPhysicalDevice driver self).2 ≠ none ↔
      (driver.physicalDevices = [] ∨ ∀ d ∈ driver.physicalDevices, isDeviceSuitable d = false) := by
  rw [pickPhysicalDevice_eq_of_null driver self hnull]
  by_cases hnil : driver.physicalDevices = []
  · simp [hnil]
  · rw [if_neg hnil]
    cases h2 : firstIndexFrom isDeviceSuitable driver.physicalDevices 0 with
    | none =>
      rw [firstIndexFrom_none_of_preferred h2]
      simp only [ne_eq, reduceCtorEq, not_false_eq_true, true_iff]
      exact Or.inr ((firstIndexFrom_none _ _ _).mp h2)
    | some k =>
      have hk : ¬ ∀ d ∈ driver.physicalDevices, isDeviceSuitable d = false := by
        intro hall
        rw [(firstIndexFrom_none _ _ _).mpr hall] at h2
        simp at h2
      cases h1 : firstIndexFrom isPreferredSuitable driver.physicalDevices 0 with
      | none => simp [hnil, hk]
      | some j => simp [hnil, hk]

theorem pickPhysicalDevice_throws_what (driver : VulkanDriver) (self : VulkanBase)
    (hnull : self.physicalDevice = none)
    (hall : ∀ d ∈ driver.physicalDevices, isDeviceSuitable d = false) :
    pickPhysicalDevice driver self = (self, some (.runtime_error
      (if driver.physicalDevices = [] then "Failed to find GPUs with Vulkan support!"
        else "Failed to find a suitable GPU!"))) := by
  rw [pickPhysicalDevice_eq_of_null driver self hnull]
  by_cases hnil : driver.physicalDevices = []
  · simp [hnil]
  · have h2 := (firstIndexFrom_none isDeviceSuitable driver.physicalDevices 0).mpr hall
    rw [if_neg hnil, if_neg hnil, firstIndexFrom_none_of_preferred h2, h2]

theorem isDeviceSuitable_false_of_no_encode (d : PhysicalDevice)
    (h : ∀ q ∈ d.queueFamilies, advertisesEncode q = false) : isDeviceSuitable d = false := by
  have henc : (findQueueFamilies d).encodeFamily = none := by
    rw [findQueueFamilies_encode, firstIndexFrom_none]; exact h
  cases hs : isDeviceSuitable d with
  | false => rfl
  | true =>
    have := (isDeviceSuitable_eq d).mp hs
    rw [henc] at this
    simp at this

/-- C6, refuted as stated: for an adapter list whose only adapter has no encode
family, `pickPhysicalDevice` throws `runtime_error` with the text
`Failed to find a suitable GPU!`; the very same exception is thrown when the
decode family is the missing one and when an extension is missing, so no reading
of the exception yields `NoVideoQueue` with the role that is missing. -/
theorem pickPhysicalDevice_error_unclassified :
    (∀ q ∈ adapterNoEncode.queueFamilies, advertisesEncode q = false) ∧
    (pickPhysicalDevice (workingDriver [adapterNoEncode]) {}).2 =
      some (.runtime_error "Failed to find a suitable GPU!") ∧
    (pickPhysicalDevice (workingDriver [adapterNoDecode]) {}).2 =
      some (.runtime_error "Failed to find a suitable GPU!") ∧
    (pickPhysicalDevice (workingDriver [adapterNvidiaMissingExtension]) {}).2 =
      some (.runtime_error "Failed to find a suitable GPU!") ∧
    ¬ ∃ report : StdException → ContextError,
        (∀ e, (pickPhysicalDevice (workingDriver [adapterNoEncode]) {}).2 = some e →
          report e = .NoVideoQueue .encode) ∧
        (∀ e, (pickPhysicalDevice (workingDriver [adapterNoDecode]) {}).2 = some e →
          report e = .NoVideoQueue .decode) := by
  have h1 : (pickPhysicalDevice (workingDriver [adapterNoEncode]) {}).2 =
      some (.runtime_error "Failed to find a suitable GPU!") := by
    decide
  have h2 : (pickPhysicalDevice (workingDriver [adapterNoDecode]) {}).2 =
      some (.runtime_error "Failed to find a suitable GPU!") := by
    decide
  refine ⟨by decide, h1, h2, by decide, ?_⟩
  rintro ⟨report, hen, hde⟩
  have a := hen _ h1
  have b := hde _ h2
  rw [a] at b
  cases b

/-- C6, amended: `pickPhysicalDevice` throws if and only if the adapter list is
empty or holds no suitable adapter; when no adapter has an encode family it
throws `std::runtime_error` with the text `Failed to find GPUs with Vulkan
support!` for an empty list and `Failed to find a suitable GPU!` otherwise (no
role is carried), `initVulkan` fails and leaves the logical device null, and
when the instance was created the exception of `initVulkan` is that one. -/
theorem pickPhysicalDevice_raises (driver : VulkanDriver) :
    ((pickPhysicalDevice driver {}).2 ≠ none ↔
        (driver.physicalDevices = [] ∨
          ∀ d ∈ driver.physicalDevices, isDeviceSuitable d = false)) ∧
    ((∀ d ∈ driver.physicalDevices, ∀ q ∈ d.queueFamilies, advertisesEncode q = false) →
        (pickPhysicalDevice driver {}).2 = some (.runtime_error
          (if driver.physicalDevices = [] then "Failed to find GPUs with Vulkan support!"
            else "Failed to find a suitable GPU!")) ∧
        (initVulkan driver {}).2 ≠ none ∧
        (initVulkan driver {}).1.device = none ∧
        (driver.vkCreateInstance = VK_SUCCESS →
          (initVulkan driver {}).2 = (pickPhysicalDevice driver {}).2)) := by
  refine ⟨pickPhysicalDevice_throws_iff driver {} rfl, ?_⟩
  intro hno
  have hall : ∀ d ∈ driver.physicalDevices, isDeviceSuitable d = false :=
    fun d hd => isDeviceSuitable_false_of_no_encode d (hno d hd)
  have hp := pickPhysicalDevice_throws_what driver {} rfl hall
  have hp1 := pickPhysicalDevice_throws_what driver { vkInstance := some () } rfl hall
  refine ⟨by rw [hp], ?_⟩
  by_cases hci : driver.vkCreateInstance = VK_SUCCESS
  · have hinit : initVulkan driver {} = ({ vkInstance := some () }, some (.runtime_error
        (if driver.physicalDevices = [] then "Failed to find GPUs with Vulkan support!"
          else "Failed to find a suitable GPU!"))) := by
      simp only [initVulkan, createInstance, hci, ne_eq, not_true_eq_false, if_false, hp1]
    rw [hinit, hp]
    simp
  · have hinit : initVulkan driver {} =
        ({}, some (.runtime_error "Failed to create Vulkan instance!")) := by
      simp only [initVulkan, createInstance, ne_eq, hci, not_false_eq_true, if_true]
    rw [hinit]
    simp [hci]

/-- C6, amended, at the adapter list holding only `adapterNoEncode`. -/
theorem pickPhysicalDevice_raises_witness :
    (pickPhysicalDevice (workingDriver [adapterNoEncode]) {}).2 = some (.runtime_error
          (if [adapterNoEncode] = [] then "Failed to find GPUs with Vulkan support!"
            else "Failed to find a suitable GPU!")) ∧
    (initVulkan (workingDriver [adapterNoEncode]) {}).2 ≠ none ∧
    (initVulkan (workingDriver [adapterNoEncode]) {}).1.device = none ∧
    ((workingDriver [adapterNoEncode]).vkCreateInstance = VK_SUCCESS →
      (initVulkan (workingDriver [adapterNoEncode]) {}).2 =
      (pickPhysicalDevice (workingDriver [adapterNoEncode]) {}).2) :=
  (pickPhysicalDevice_raises (workingDriver [adapterNoEncode])).2 (by decide)

/-! ## The transcode loop is `transcodeRun` -/

theorem transcodeLoopIter_skip (N : Nat) (env : Env) (fuel n : Nat) (self : VideoTranscoder)
    (frameCount : Int) (packet : AVPacket) (rest : List AVPacket)
    (hp : packet.stream_index ≠ self.demuxer.videoStreamIndex) :
    transcodeLoopIter N env (fuel + 1) n
        { self with demuxer := { self.demuxer with pending := packet :: rest } } frameCount =
      { transcodeLoopIter N env (fuel + 1) n
          { self with demuxer := { self.demuxer with pending := rest } } frameCount with
        events := Event.av_read_frame 0 :: Event.av_packet_unref packet ::
          (transcodeLoopIter N env (fuel + 1) n
            { self with demuxer := { self.demuxer with pending := rest } } frameCount).events } := by
  simp only [transcodeLoopIter, H264Demuxer.getNextPacket, getNextPacketLoop, hp, if_false]
  rcases hr : getNextPacketLoop self.demuxer.videoStreamIndex rest with ⟨read, _ | found, left⟩
  · simp
  · simp only [H264Demuxer.getVideoStreamIndex]
    by_cases hf : found.stream_index ≠ self.demuxer.videoStreamIndex
    · simp [hf]
    · simp only [hf, if_false]
      split <;> simp

theorem transcodeLoopIter_eq_transcodeRun (N : Nat) (env : Env) (l : List AVPacket) :
    ∀ (fuel n : Nat) (self : VideoTranscoder) (frameCount : Int), l.length < fuel →
      transcodeLoopIter N env fuel n
          { self with demuxer := { self.demuxer with pending := l } } frameCount =
        transcodeRun N env l n self frameCount := by
  induction l with
  | nil =>
    intro fuel n self frameCount hfuel
    obtain ⟨fuel, rfl⟩ : ∃ f, fuel = f + 1 := ⟨fuel - 1, by simp at hfuel; omega⟩
    simp [transcodeLoopIter, transcodeRun, H264Demuxer.getNextPacket, getNextPacketLoop]
  | cons packet rest ih =>
    intro fuel n self frameCount hfuel
    obtain ⟨fuel, rfl⟩ : ∃ f, fuel = f + 1 := ⟨fuel - 1, by simp at hfuel; omega⟩
    have hrest : rest.length < fuel := by simp at hfuel; omega
    by_cases hp : packet.stream_index = self.demuxer.videoStreamIndex
    · simp only [transcodeLoopIter, transcodeRun, H264Demuxer.getNextPacket, getNextPacketLoop,
        hp, if_true, H264Demuxer.getVideoStreamIndex, ne_eq, not_true_eq_false, if_false]
      split
      · simp_all
      · rename_i mux muxer hw
        have := ih fuel (n + 1)
          { self with demuxer := { self.demuxer with pending := rest }, muxer := muxer,
                      currentFrame := (self.currentFrame + 1) % 2 ^ 32 % N }
          (toInt32 (frameCount + 1)) hrest
        simp at this
        simp [this, transcodeRun]
    · rw [transcodeLoopIter_skip N env fuel n self frameCount packet rest hp,
        ih (fuel + 1) n self frameCount (by omega)]
      simp [transcodeRun, hp]

theorem transcodeLoop_eq_transcodeRun (N : Nat) (env : Env) (self : VideoTranscoder)
    (halloc : env.av_packet_alloc = true) :
    self.transcodeLoop N env = transcodeRun N env self.demuxer.pending 0 self 0 := by
  have h := transcodeLoopIter_eq_transcodeRun N env self.demuxer.pending
    (self.demuxer.pending.length + 1) 0 self 0 (by omega)
  simp only [VideoTranscoder.transcodeLoop, halloc, Bool.not_true, Bool.false_eq_true, if_false]
  exact h

theorem transcodeRun_outcome_ne_outOfFuel (N : Nat) (env : Env) (l : List AVPacket) :
    ∀ (n : Nat) (self : VideoTranscoder) (frameCount : Int),
      (transcodeRun N env l n self frameCount).outcome ≠ .outOfFuel := by
  induction l with
  | nil => intro n self frameCount; simp [transcodeRun]
  | cons packet rest ih =>
    intro n self frameCount
    simp only [transcodeRun]
    split
    · split
      · simp
      · exact ih _ _ _
    · exact ih _ _ _

theorem transcodeLoop_outcome_ne_outOfFuel (N : Nat) (env : Env) (self : VideoTranscoder) :
    (self.transcodeLoop N env).outcome ≠ .outOfFuel := by
  by_cases halloc : env.av_packet_alloc = true
  · rw [transcodeLoop_eq_transcodeRun N env self halloc]
    exact transcodeRun_outcome_ne_outOfFuel N env _ _ _ _
  · simp [VideoTranscoder.transcodeLoop, halloc]

/-! ## What the muxer is handed -/

theorem writePacket_events_not_call (headerRet frameRet : Int) (m : H265Muxer) (data : List Nat)
    (pts : Int) (d : List Nat) (p : Int) :
    Event.writePacket d p ∉ (m.writePacket headerRet frameRet data pts).1 := by
  unfold H265Muxer.writePacket H265Muxer.writeHeader
  cases m.headerWritten <;> by_cases h : headerRet < 0 <;> simp [h]

theorem stageAndSubmit_not_call (env : Env) (n : Nat) (self : VideoTranscoder) (packet : AVPacket)
    (d : List Nat) (p : Int) :
    Event.writePacket d p ∉ self.stageAndSubmit env n packet := by
  simp [VideoTranscoder.stageAndSubmit, VideoTranscoder.recordDecodeCommandBuffer,
    VideoTranscoder.recordEncodeCommandBuffer, VideoTranscoder.submitWork]

theorem encodedData_length (env : Env) (n : Nat) : (encodedData env n).length = 1024 := by
  simp [encodedData]

theorem transcodeRun_writePacket_data (N : Nat) (env : Env) (l : List AVPacket) :
    ∀ (n : Nat) (self : VideoTranscoder) (frameCount : Int) (data : List Nat) (pts : Int),
      Event.writePacket data pts ∈ (transcodeRun N env l n self frameCount).events →
        ∃ m, n ≤ m ∧ data = encodedData env m := by
  induction l with
  | nil => intro n self frameCount data pts h; simp [transcodeRun] at h
  | cons packet rest ih =>
    intro n self frameCount data pts h
    simp only [transcodeRun] at h
    split at h
    · split at h
      · rename_i mux muxer e hw
        have hmux := writePacket_events_not_call env.avformat_write_header
          (env.av_interleaved_write_frame n) self.muxer (encodedData env n) frameCount data pts
        simp only [hw] at hmux
        simp only [List.mem_cons, List.mem_append, reduceCtorEq, false_or,
          Event.writePacket.injEq] at h
        rcases h with h | h | h
        · exact absurd h (stageAndSubmit_not_call _ _ _ _ _ _)
        · exact ⟨n, le_refl _, h.1⟩
        · exact absurd h hmux
      · rename_i mux muxer hw
        have hmux := writePacket_events_not_call env.avformat_write_header
          (env.av_interleaved_write_frame n) self.muxer (encodedData env n) frameCount data pts
        simp only [hw] at hmux
        simp only [List.mem_cons, List.mem_append, reduceCtorEq, false_or,
          Event.writePacket.injEq] at h
        rcases h with (h | h | h) | h
        · exact absurd h (stageAndSubmit_not_call _ _ _ _ _ _)
        · exact ⟨n, le_refl _, h.1⟩
        · exact absurd h hmux
        · obtain ⟨m, hm, hd⟩ := ih _ _ _ _ _ h
          exact ⟨m, by omega, hd⟩
    · simp only [List.mem_cons, reduceCtorEq, false_or] at h
      obtain ⟨m, hm, hd⟩ := ih _ _ _ _ _ h
      exact ⟨m, hm, hd⟩

/-- Every vector the loop passes to `writePacket` has 1024 elements and is
`encodedData` of some iteration; the evaluation of the loop is never cut
short. -/
theorem transcodeLoop_packet_length (numFrameResources : Nat) (env : Env)
    (self : VideoTranscoder) (data : List Nat) (pts : Int)
    (h : Event.writePacket data pts ∈ (self.transcodeLoop numFrameResources env).events) :
    (self.transcodeLoop numFrameResources env).outcome ≠ .outOfFuel ∧
    data.length = 1024 ∧ ∃ n, data = (List.range 1024).map (env.encodeBitstreamHost n) := by
  refine ⟨transcodeLoop_outcome_ne_outOfFuel numFrameResources env self, ?_⟩
  by_cases halloc : env.av_packet_alloc = true
  · rw [transcodeLoop_eq_transcodeRun numFrameResources env self halloc] at h
    obtain ⟨m, -, hd⟩ := transcodeRun_writePacket_data _ _ _ _ _ _ _ _ h
    exact ⟨by rw [hd, encodedData_length], m, by rw [hd]; rfl⟩
  · simp [VideoTranscoder.transcodeLoop, halloc] at h

/-- C7, the code at the failing input: with an encoder that writes 5000 bytes
for the frame of the only video packet, the call of `writePacket` in the trace
(the call right after the copy of 1024 bytes out of the output staging buffer)
is given `encodedData` of frame 0, a vector of 1024 elements and not of 5000,
and the packet handed to `av_interleaved_write_frame` has size 1024.  The
vector is the same whatever number of bytes the encoder wrote: `encodedData`
does not read `encodedSize`. -/
theorem transcodeLoop_packet_length_fixed :
    quietEnv.encodedSize 0 = 5000 ∧
    ((transcoderOn [⟨0, 100⟩]).transcodeLoop 1 quietEnv).events[19]? =
      some (Event.memcpyFromEncodeBitstream 0 1024) ∧
    ((transcoderOn [⟨0, 100⟩]).transcodeLoop 1 quietEnv).events[20]? =
      some (Event.writePacket (encodedData quietEnv 0) 0) ∧
    (encodedData quietEnv 0).length = 1024 ∧
    (encodedData quietEnv 0).length ≠ quietEnv.encodedSize 0 ∧
    (writtenFrames ((transcoderOn [⟨0, 100⟩]).transcodeLoop 1 quietEnv).events).map
      MuxPacket.size = [1024] ∧
    (∀ (env : Env) (encodedSize : Nat → Nat) (n : Nat),
      encodedData { env with encodedSize := encodedSize } n = encodedData env n ∧
      (encodedData env n).length = 1024) := by
  refine ⟨rfl, rfl, rfl, encodedData_length _ _, ?_, ?_, ?_⟩
  · rw [encodedData_length]; decide
  · have h : (writtenFrames ((transcoderOn [⟨0, 100⟩]).transcodeLoop 1 quietEnv).events).map
        MuxPacket.size = [toInt32 ((encodedData quietEnv 0).length : Int)] := rfl
    rw [h, encodedData_length]
    decide
  · intro env encodedSize n
    exact ⟨rfl, encodedData_length _ _⟩

/-- C8, the code at the failing input: for a video packet of 2 MiB + 1 bytes the
loop copies 2097153 bytes into the input staging buffer of slot 0, which was
created and mapped with `BITSTREAM_BUFFER_SIZE` = 2097152 bytes, and records a
decode of the same range; no call of the trace before the copy creates or maps a
buffer. -/
theorem transcodeLoop_copies_past_capacity :
    ((transcoderOn [⟨0, 2097153⟩]).transcodeLoop 1 quietEnv).events.take 4 =
      [ Event.av_read_frame 0, Event.vkWaitForFences 0 0, Event.vkResetFences 0 0,
        Event.memcpyToDecodeBitstream 0 2097153 ] ∧
    BITSTREAM_BUFFER_SIZE = 2097152 ∧ BITSTREAM_BUFFER_SIZE < 2097153 := by
  decide

/-- C9, the code at the failing input: for a single video packet the copy out of
the output staging buffer of slot 0 is the call right after the encode
submission that signals the fence of slot 0, and no wait on that fence follows
the submission anywhere in the run. -/
theorem transcodeLoop_reads_before_fence_wait :
    ((transcoderOn [⟨0, 100⟩]).transcodeLoop 1 quietEnv).events[18]? =
      some (Event.vkQueueSubmit (some 2)
        { waitSemaphores := [0], waitDstStageMask := [VK_PIPELINE_STAGE_2_VIDEO_ENCODE_BIT_KHR],
          commandBuffers := [CommandBuffer.encodeCommandBuffer 0], signalSemaphores := [] }
        (some 0) 0) ∧
    ((transcoderOn [⟨0, 100⟩]).transcodeLoop 1 quietEnv).events[19]? =
      some (Event.memcpyFromEncodeBitstream 0 1024) ∧
    (((transcoderOn [⟨0, 100⟩]).transcodeLoop 1 quietEnv).events.drop 19).any
      (Event.isFenceWait 0) = false ∧
    ((transcoderOn [⟨0, 100⟩]).transcodeLoop 1 quietEnv).outcome = .returned := by
  decide

/-! ## Reuse of a ring slot -/

theorem noUseWhilePending_wait_before (s : Nat) (T : List Event)
    (h : noUseWhilePending s T true = true) :
    ∀ (j : Nat) (u : Event), T[j]? = some u → u.usesSlot s = true →
      ∃ k ret, k < j ∧ T[k]? = some (Event.vkWaitForFences s ret) := by
  induction T with
  | nil => intro j u hu; simp at hu
  | cons e rest ih =>
    intro j u hu hus
    rw [noUseWhilePending] at h
    by_cases hw : e.isFenceWait s = true
    · cases e <;> simp [Event.isFenceWait] at hw
      rename_i slot ret
      subst hw
      cases j with
      | zero =>
        simp at hu
        subst hu
        simp [Event.usesSlot] at hus
      | succ j => exact ⟨0, ret, by omega, by simp⟩
    · simp only [hw, Bool.false_eq_true, if_false, Bool.true_and, Bool.true_or, Bool.and_eq_true,
        Bool.not_eq_true'] at h
      cases j with
      | zero =>
        simp at hu
        subst hu
        rw [h.1] at hus
        simp at hus
      | succ j =>
        obtain ⟨k, ret, hk, hkw⟩ := ih h.2 j u (by simpa using hu) hus
        exact ⟨k + 1, ret, by omega, by simpa using hkw⟩

theorem noUseWhilePending_tail (s : Nat) (e : Event) (rest : List Event) (b : Bool)
    (h : noUseWhilePending s (e :: rest) b = true) :
    ∃ b', noUseWhilePending s rest b' = true ∧ (e.isEncodeSubmit s = true → b' = true) := by
  rw [noUseWhilePending] at h
  by_cases hw : e.isFenceWait s = true
  · rw [if_pos hw] at h
    refine ⟨false, h, ?_⟩
    intro hes
    cases e <;> simp [Event.isFenceWait, Event.isEncodeSubmit] at hw hes
  · simp only [hw, Bool.false_eq_true, if_false, Bool.and_eq_true] at h
    refine ⟨b || e.isEncodeSubmit s, h.2, ?_⟩
    intro hes
    simp [hes]

theorem noUseWhilePending_sound (s : Nat) (T : List Event) :
    ∀ (b : Bool), noUseWhilePending s T b = true →
      ∀ (i j : Nat) (e u : Event), i < j → T[i]? = some e → e.isEncodeSubmit s = true →
        T[j]? = some u → u.usesSlot s = true →
        ∃ k ret, i < k ∧ k < j ∧ T[k]? = some (Event.vkWaitForFences s ret) := by
  induction T with
  | nil => intro b _ i j e u _ he; simp at he
  | cons x rest ih =>
    intro b h i j e u hij he hes hu hus
    obtain ⟨b', hb', hsub⟩ := noUseWhilePending_tail s x rest b h
    cases j with
    | zero => omega
    | succ j =>
      cases i with
      | zero =>
        simp at he
        subst he
        have hb : b' = true := hsub hes
        subst hb
        obtain ⟨k, ret, hk, hkw⟩ :=
          noUseWhilePending_wait_before s rest hb' j u (by simpa using hu) hus
        exact ⟨k + 1, ret, by omega, by omega, by simpa using hkw⟩
      | succ i =>
        obtain ⟨k, ret, hik, hkj, hkw⟩ :=
          ih b' hb' i j e u (by omega) (by simpa using he) hes (by simpa using hu) hus
        exact ⟨k + 1, ret, by omega, by omega, by simpa using hkw⟩

theorem noUseWhilePending_writePacket (s : Nat) (headerRet frameRet : Int) (m : H265Muxer)
    (data : List Nat) (pts : Int) (rest : List Event) (b : Bool) :
    noUseWhilePending s ((m.writePacket headerRet frameRet data pts).1 ++ rest) b =
      noUseWhilePending s rest b := by
  unfold H265Muxer.writePacket H265Muxer.writeHeader
  cases m.headerWritten <;> by_cases h : headerRet < 0 <;>
    simp [h, noUseWhilePending, Event.isFenceWait, Event.usesSlot, Event.isEncodeSubmit]

theorem noUseWhilePending_stageAndSubmit (s : Nat) (env : Env) (n : Nat) (self : VideoTranscoder)
    (packet : AVPacket) (rest : List Event) (b : Bool) :
    noUseWhilePending s (self.stageAndSubmit env n packet ++ rest) b =
      noUseWhilePending s rest (if self.currentFrame = s then true else b) := by
  by_cases hs : self.currentFrame = s
  · simp [VideoTranscoder.stageAndSubmit, VideoTranscoder.recordDecodeCommandBuffer,
      VideoTranscoder.recordEncodeCommandBuffer, VideoTranscoder.submitWork, noUseWhilePending,
      Event.isFenceWait, Event.usesSlot, Event.isEncodeSubmit, CommandBuffer.slot, hs]
  · have hs' : ¬ s = self.currentFrame := fun h => hs h.symm
    have hbeq : (self.currentFrame == s) = false := by simpa using hs
    simp [hs', hbeq, VideoTranscoder.stageAndSubmit, VideoTranscoder.recordDecodeCommandBuffer,
      VideoTranscoder.recordEncodeCommandBuffer, VideoTranscoder.submitWork, noUseWhilePending,
      Event.isFenceWait, Event.usesSlot, Event.isEncodeSubmit, CommandBuffer.slot, hs]

theorem transcodeRun_noUseWhilePending (s N : Nat) (env : Env) (l : List AVPacket) :
    ∀ (n : Nat) (self : VideoTranscoder) (frameCount : Int) (b : Bool),
      noUseWhilePending s (transcodeRun N env l n self frameCount).events b = true := by
  induction l with
  | nil =>
    intro n self frameCount b
    simp [transcodeRun, noUseWhilePending, Event.isFenceWait, Event.usesSlot,
      Event.isEncodeSubmit]
  | cons packet rest ih =>
    intro n self frameCount b
    simp only [transcodeRun]
    split
    · split
      · rename_i mux muxer e hw
        have hmux := noUseWhilePending_writePacket s env.avformat_write_header
          (env.av_interleaved_write_frame n) self.muxer (encodedData env n) frameCount []
        simp only [hw, List.append_nil] at hmux
        rw [List.cons_append, noUseWhilePending]
        simp only [Event.isFenceWait, Bool.false_eq_true, if_false, Event.usesSlot,
          Bool.and_false, Bool.not_false, Event.isEncodeSubmit, Bool.or_false, Bool.true_and]
        rw [noUseWhilePending_stageAndSubmit, noUseWhilePending]
        simp only [Event.isFenceWait, Bool.false_eq_true, if_false, Event.usesSlot,
          Bool.and_false, Bool.not_false, Event.isEncodeSubmit, Bool.or_false, Bool.true_and]
        rw [hmux]
        simp [noUseWhilePending]
      · rename_i mux muxer hw
        have hmux := fun rest' b' => noUseWhilePending_writePacket s env.avformat_write_header
          (env.av_interleaved_write_frame n) self.muxer (encodedData env n) frameCount rest' b'
        simp only [hw] at hmux
        rw [List.append_assoc, List.cons_append, noUseWhilePending]
        simp only [Event.isFenceWait, Bool.false_eq_true, if_false, Event.usesSlot,
          Bool.and_false, Bool.not_false, Event.isEncodeSubmit, Bool.or_false, Bool.true_and]
        rw [noUseWhilePending_stageAndSubmit, List.cons_append, noUseWhilePending]
        simp only [Event.isFenceWait, Bool.false_eq_true, if_false, Event.usesSlot,
          Bool.and_false, Bool.not_false, Event.isEncodeSubmit, Bool.or_false, Bool.true_and]
        rw [hmux, noUseWhilePending]
        simp only [Event.isFenceWait, Bool.false_eq_true, if_false, Event.usesSlot,
          Bool.and_false, Bool.not_false, Event.isEncodeSubmit, Bool.or_false, Bool.true_and]
        exact ih _ _ _ _
    · simp only [noUseWhilePending, Event.isFenceWait, Bool.false_eq_true, if_false,
        Event.usesSlot, Bool.and_false, Bool.not_false, Event.isEncodeSubmit, Bool.or_false,
        Bool.true_and]
      exact ih _ _ _ _

/-- C10: for every ring size N >= 1 and every packet sequence, whenever the run
of `transcodeLoop` submits the encode command buffer of a slot (position `i`)
and later writes that slot's input staging buffer, resets or records one of its
command buffers, or submits one of them (position `j`), the host has called
`vkWaitForFences` on that slot's fence at a position strictly between the two
(and the evaluation of the loop is never cut short). -/
theorem transcodeLoop_slot_reuse_waits (numFrameResources : Nat) (_hN : 1 ≤ numFrameResources)
    (env : Env) (self : VideoTranscoder) (s i j : Nat) (e u : Event) (hij : i < j)
    (he : (self.transcodeLoop numFrameResources env).events[i]? = some e)
    (hes : e.isEncodeSubmit s = true)
    (hu : (self.transcodeLoop numFrameResources env).events[j]? = some u)
    (hus : u.usesSlot s = true) :
    (self.transcodeLoop numFrameResources env).outcome ≠ .outOfFuel ∧
    ∃ k ret, i < k ∧ k < j ∧
      (self.transcodeLoop numFrameResources env).events[k]? =
        some (Event.vkWaitForFences s ret) := by
  refine ⟨transcodeLoop_outcome_ne_outOfFuel numFrameResources env self, ?_⟩
  by_cases halloc : env.av_packet_alloc = true
  · rw [transcodeLoop_eq_transcodeRun numFrameResources env self halloc] at he hu ⊢
    exact noUseWhilePending_sound s _ false
      (transcodeRun_noUseWhilePending s numFrameResources env _ _ _ _ _) i j e u hij he hes hu hus
  · simp [VideoTranscoder.transcodeLoop, halloc] at he

/-- C10, at a ring of two slots and three video packets: between the encode
submission of frame 0 (position 18, slot 0) and the copy of frame 2 into the
input staging buffer of slot 0 (position 50) the host waits on the fence of
slot 0. -/
theorem transcodeLoop_slot_reuse_waits_witness :
    ((transcoderOn [⟨0, 100⟩, ⟨0, 60⟩, ⟨0, 80⟩]).transcodeLoop 2 quietEnv).outcome ≠
      .outOfFuel ∧
    ∃ k ret, 18 < k ∧ k < 50 ∧
      ((transcoderOn [⟨0, 100⟩, ⟨0, 60⟩, ⟨0, 80⟩]).transcodeLoop 2 quietEnv).events[k]? =
        some (Event.vkWaitForFences 0 ret) :=
  transcodeLoop_slot_reuse_waits 2 (by decide) quietEnv
    (transcoderOn [⟨0, 100⟩, ⟨0, 60⟩, ⟨0, 80⟩]) 0 18 50
    (Event.vkQueueSubmit (some 2)
      { waitSemaphores := [0], waitDstStageMask := [VK_PIPELINE_STAGE_2_VIDEO_ENCODE_BIT_KHR],
        commandBuffers := [CommandBuffer.encodeCommandBuffer 0], signalSemaphores := [] }
      (some 0) 0)
    (Event.memcpyToDecodeBitstream 0 80) (by decide) (by decide) (by decide) (by decide)
    (by decide)

/-! ## Submission, recording and the demuxer filter -/

theorem queueSubmits_append (A B : List Event) :
    queueSubmits (A ++ B) = queueSubmits A ++ queueSubmits B := by
  simp [queueSubmits]

theorem queueSubmits_stageAndSubmit (env : Env) (n : Nat) (self : VideoTranscoder)
    (p : AVPacket) :
    queueSubmits (self.stageAndSubmit env n p) =
      queueSubmits (self.submitWork env n self.currentFrame) := by
  simp [queueSubmits, VideoTranscoder.stageAndSubmit, VideoTranscoder.recordDecodeCommandBuffer,
    VideoTranscoder.recordEncodeCommandBuffer, VideoTranscoder.submitWork]

theorem queueSubmits_writePacket (headerRet frameRet : Int) (m : H265Muxer) (data : List Nat)
    (pts : Int) : queueSubmits (m.writePacket headerRet frameRet data pts).1 = [] := by
  unfold H265Muxer.writePacket H265Muxer.writeHeader
  cases m.headerWritten <;> by_cases h : headerRet < 0 <;> simp [h, queueSubmits]

theorem transcodeRun_queueSubmits (N : Nat) (env : Env) (vb : VulkanBase) (l : List AVPacket) :
    ∀ (n : Nat) (self : VideoTranscoder) (fc : Int), self.vulkanBase = vb →
      ∃ slots : List Nat,
        queueSubmits (transcodeRun N env l n self fc).events =
          slots.flatMap (fun s =>
            [ (vb.decodeQueue,
                { waitSemaphores := [], waitDstStageMask := [],
                  commandBuffers := [CommandBuffer.decodeCommandBuffer s],
                  signalSemaphores := [s] }, none),
              (vb.encodeQueue,
                { waitSemaphores := [s],
                  waitDstStageMask := [VK_PIPELINE_STAGE_2_VIDEO_ENCODE_BIT_KHR],
                  commandBuffers := [CommandBuffer.encodeCommandBuffer s],
                  signalSemaphores := [] }, some s) ]) := by
  induction l with
  | nil =>
    intro n self fc _
    exact ⟨[], by simp [transcodeRun, queueSubmits]⟩
  | cons p rest ih =>
    intro n self fc hvb
    simp only [transcodeRun]
    split
    · split
      · rename_i mux muxer e hw
        have hmux : queueSubmits mux = [] := by
          have := queueSubmits_writePacket env.avformat_write_header
            (env.av_interleaved_write_frame n) self.muxer (encodedData env n) fc
          rw [hw] at this
          exact this
        refine ⟨[self.currentFrame], ?_⟩
        have hsplit : ∀ (S : List Event),
            (Event.av_read_frame 0 :: S ++ Event.writePacket (encodedData env n) fc :: mux) =
              [Event.av_read_frame 0] ++ S ++ [Event.writePacket (encodedData env n) fc] ++
                mux := by
          intro S; simp
        show queueSubmits (Event.av_read_frame 0 :: _ ++ _ :: mux) = _
        rw [hsplit]
        simp only [queueSubmits_append, queueSubmits_stageAndSubmit, hmux]
        simp [queueSubmits, VideoTranscoder.submitWork, hvb]
      · rename_i mux muxer hw
        have hmux : queueSubmits mux = [] := by
          have := queueSubmits_writePacket env.avformat_write_header
            (env.av_interleaved_write_frame n) self.muxer (encodedData env n) fc
          rw [hw] at this
          exact this
        obtain ⟨slots, hslots⟩ := ih (n + 1)
          { self with
            demuxer := { self.demuxer with pending := rest },
            muxer := muxer,
            currentFrame := (self.currentFrame + 1) % 2 ^ 32 % N }
          (toInt32 (fc + 1)) hvb
        refine ⟨self.currentFrame :: slots, ?_⟩
        have hsplit : ∀ (S R : List Event),
            (Event.av_read_frame 0 :: S ++ Event.writePacket (encodedData env n) fc :: mux ++
                Event.av_packet_unref p :: R) =
              [Event.av_read_frame 0] ++ S ++ [Event.writePacket (encodedData env n) fc] ++
                mux ++ [Event.av_packet_unref p] ++ R := by
          intro S R; simp
        show queueSubmits (Event.av_read_frame 0 :: _ ++ _ :: mux ++ _ :: _) = _
        rw [hsplit]
        simp only [queueSubmits_append, queueSubmits_stageAndSubmit, hmux, hslots]
        simp [queueSubmits, VideoTranscoder.submitWork, hvb]
    · obtain ⟨slots, hslots⟩ := ih n self fc hvb
      refine ⟨slots, ?_⟩
      show queueSubmits (Event.av_read_frame 0 :: Event.av_packet_unref p :: _) = _
      rw [← hslots]
      simp [queueSubmits]

/-- C11: for every frame index, `submitWork` makes two submissions in this order:
first, on the decode queue, exactly the slot's decode command buffer, waiting on
nothing, signalling the slot's `decodeCompleteSemaphore` and no fence; then, on
the encode queue, exactly the slot's encode command buffer, waiting on that same
semaphore at stage `VIDEO_ENCODE` and signalling the slot's `encodeCompleteFence`.
The submissions of a whole run of `transcodeLoop` are such pairs, one after the
other. -/
theorem submitWork_order (env : Env) (n : Nat) (self : VideoTranscoder) (frameIndex : Nat) :
    self.submitWork env n frameIndex =
      [ Event.vkQueueSubmit self.vulkanBase.decodeQueue
          { waitSemaphores := [], waitDstStageMask := [],
            commandBuffers := [CommandBuffer.decodeCommandBuffer frameIndex],
            signalSemaphores := [frameIndex] }
          none (env.vkQueueSubmitDecode n),
        Event.vkQueueSubmit self.vulkanBase.encodeQueue
          { waitSemaphores := [frameIndex],
            waitDstStageMask := [VK_PIPELINE_STAGE_2_VIDEO_ENCODE_BIT_KHR],
            commandBuffers := [CommandBuffer.encodeCommandBuffer frameIndex],
            signalSemaphores := [] }
          (some frameIndex) (env.vkQueueSubmitEncode n) ] ∧
    ∀ numFrameResources : Nat, ∃ slots : List Nat,
      queueSubmits (self.transcodeLoop numFrameResources env).events =
        slots.flatMap (fun s =>
          [ (self.vulkanBase.decodeQueue,
              { waitSemaphores := [], waitDstStageMask := [],
                commandBuffers := [CommandBuffer.decodeCommandBuffer s],
                signalSemaphores := [s] }, none),
            (self.vulkanBase.encodeQueue,
              { waitSemaphores := [s],
                waitDstStageMask := [VK_PIPELINE_STAGE_2_VIDEO_ENCODE_BIT_KHR],
                commandBuffers := [CommandBuffer.encodeCommandBuffer s],
                signalSemaphores := [] }, some s) ]) := by
  refine ⟨rfl, ?_⟩
  intro numFrameResources
  by_cases halloc : env.av_packet_alloc = true
  · rw [transcodeLoop_eq_transcodeRun numFrameResources env self halloc]
    exact transcodeRun_queueSubmits numFrameResources env self.vulkanBase _ _ _ _ rfl
  · exact ⟨[], by simp [VideoTranscoder.transcodeLoop, halloc, queueSubmits]⟩

theorem getNextPacketLoop_found (v : Int) (skipped : List AVPacket) (p : AVPacket)
    (rest : List AVPacket) (hskip : ∀ q ∈ skipped, q.stream_index ≠ v)
    (hp : p.stream_index = v) :
    getNextPacketLoop v (skipped ++ p :: rest) =
      (skipped.flatMap skipEvents ++ [Event.av_read_frame 0], some p, rest) := by
  induction skipped with
  | nil => simp [getNextPacketLoop, hp]
  | cons q qs ih =>
    have hq : q.stream_index ≠ v := hskip q (by simp)
    have := ih (fun r hr => hskip r (by simp [hr]))
    simp [getNextPacketLoop, hq, this, skipEvents]

theorem getNextPacketLoop_none (v : Int) (l : List AVPacket)
    (hskip : ∀ q ∈ l, q.stream_index ≠ v) :
    getNextPacketLoop v l = (l.flatMap skipEvents ++ [Event.av_read_frame (-1)], none, []) := by
  induction l with
  | nil => simp [getNextPacketLoop]
  | cons q qs ih =>
    have hq : q.stream_index ≠ v := hskip q (by simp)
    have := ih (fun r hr => hskip r (by simp [hr]))
    simp [getNextPacketLoop, hq, this, skipEvents]

theorem getNextPacketLoop_isSome (v : Int) (l : List AVPacket) :
    (getNextPacketLoop v l).2.1.isSome = true ↔ ∃ p ∈ l, p.stream_index = v := by
  induction l with
  | nil => simp [getNextPacketLoop]
  | cons q qs ih =>
    by_cases hq : q.stream_index = v
    · simp [getNextPacketLoop, hq]
    · simp [getNextPacketLoop, hq, ih]

/-- C13: `getNextPacket` returns true exactly when a packet of the video stream
is still to come; it then leaves the earliest such packet in the caller's
packet, having read and released every packet before it, and the demuxer goes
on after that packet; when no video packet is left it reads and releases every
packet and returns false. -/
theorem getNextPacket_first_video (self : H264Demuxer) :
    (self.getNextPacket.2.1.isSome = true ↔
        ∃ p ∈ self.pending, p.stream_index = self.videoStreamIndex) ∧
    (∀ skipped p rest, self.pending = skipped ++ p :: rest →
        (∀ q ∈ skipped, q.stream_index ≠ self.videoStreamIndex) →
        p.stream_index = self.videoStreamIndex →
        self.getNextPacket =
          (skipped.flatMap skipEvents ++ [Event.av_read_frame 0], some p,
            { self with pending := rest })) ∧
    ((∀ q ∈ self.pending, q.stream_index ≠ self.videoStreamIndex) →
        self.getNextPacket =
          (self.pending.flatMap skipEvents ++ [Event.av_read_frame (-1)], none,
            { self with pending := [] })) := by
  refine ⟨?_, ?_, ?_⟩
  · simpa [H264Demuxer.getNextPacket] using
      getNextPacketLoop_isSome self.videoStreamIndex self.pending
  · intro skipped p rest hpend hskip hp
    simp [H264Demuxer.getNextPacket, hpend, getNextPacketLoop_found _ _ _ _ hskip hp]
  · intro hskip
    simp [H264Demuxer.getNextPacket, getNextPacketLoop_none _ _ hskip]

/-- C13, at a demuxer about to deliver two audio packets, a video packet and a
further packet. -/
theorem getNextPacket_first_video_witness :
    (transcoderOn [⟨1, 10⟩, ⟨1, 20⟩, ⟨0, 100⟩, ⟨1, 30⟩]).demuxer.getNextPacket =
      ([(⟨1, 10⟩ : AVPacket), ⟨1, 20⟩].flatMap skipEvents ++ [Event.av_read_frame 0],
        some ⟨0, 100⟩,
        { (transcoderOn [⟨1, 10⟩, ⟨1, 20⟩, ⟨0, 100⟩, ⟨1, 30⟩]).demuxer with
          pending := [⟨1, 30⟩] }) :=
  (getNextPacket_first_video (transcoderOn [⟨1, 10⟩, ⟨1, 20⟩, ⟨0, 100⟩, ⟨1, 30⟩]).demuxer).2.1
    [⟨1, 10⟩, ⟨1, 20⟩] ⟨0, 100⟩ [⟨1, 30⟩] rfl (by decide) rfl

theorem toUInt32_of_int (x : Int) (h0 : 0 ≤ x) (h1 : x < 2 ^ 31) : (toUInt32 x : Int) = x := by
  unfold toUInt32
  rw [Int.toNat_of_nonneg (Int.emod_nonneg _ (by norm_num))]
  exact Int.emod_eq_of_lt h0 (by omega)

/-- C16: for every frame index, the decode command buffer holds exactly the
video-coding scope with one decode command and the encode command buffer exactly
a transition of the same slot's decoded picture and the video-coding scope with
one encode command (no copy and no other image); the destination picture of the
decode command and the source picture of the encode command are the same
picture resource, `sharedPicture`: the slot's `decodedImageView`, layer 0, whose
coded extent is the source width and height. -/
theorem record_shared_picture (self : VideoTranscoder) (frameIndex bitstreamSize : Nat) :
    recordedCommands (.decodeCommandBuffer frameIndex)
        (self.recordDecodeCommandBuffer frameIndex bitstreamSize) =
      [ .vkCmdBeginVideoCodingKHR .decodeSession .decodeSessionParameters [],
        .vkCmdDecodeVideoKHR
          { srcBuffer := frameIndex, srcBufferOffset := 0, srcBufferRange := bitstreamSize,
            dstPictureResource := self.sharedPicture frameIndex,
            pSetupReferenceSlot := none, referenceSlots := [] },
        .vkCmdEndVideoCodingKHR ] ∧
    recordedCommands (.encodeCommandBuffer frameIndex)
        (self.recordEncodeCommandBuffer frameIndex) =
      [ .transitionImageLayout frameIndex VK_IMAGE_LAYOUT_UNDEFINED
          VK_IMAGE_LAYOUT_VIDEO_ENCODE_SRC_KHR,
        .vkCmdBeginVideoCodingKHR .encodeSession .encodeSessionParameters [],
        .vkCmdEncodeVideoKHR
          { dstBuffer := frameIndex, dstBufferOffset := 0,
            dstBufferRange := BITSTREAM_BUFFER_SIZE,
            srcPictureResource := self.sharedPicture frameIndex,
            pSetupReferenceSlot := none, referenceSlots := [] },
        .vkCmdEndVideoCodingKHR ] ∧
    (self.sharedPicture frameIndex).imageViewBinding = frameIndex ∧
    (self.sharedPicture frameIndex).baseArrayLayer = 0 ∧
    (0 ≤ self.demuxer.getWidth → self.demuxer.getWidth < 2 ^ 31 →
      0 ≤ self.demuxer.getHeight → self.demuxer.getHeight < 2 ^ 31 →
      ((self.sharedPicture frameIndex).codedExtent.1 : Int) = self.demuxer.getWidth ∧
      ((self.sharedPicture frameIndex).codedExtent.2 : Int) = self.demuxer.getHeight) := by
  refine ⟨?_, ?_, rfl, rfl, ?_⟩
  · simp [recordedCommands, VideoTranscoder.recordDecodeCommandBuffer,
      VideoTranscoder.sharedPicture]
  · simp [recordedCommands, VideoTranscoder.recordEncodeCommandBuffer,
      VideoTranscoder.sharedPicture]
  · intro hw0 hw1 hh0 hh1
    exact ⟨toUInt32_of_int _ hw0 hw1, toUInt32_of_int _ hh0 hh1⟩

/-- C16, at slot 0 of a 320x240 input: the coded extent of the shared picture
is 320x240. -/
theorem record_shared_picture_witness :
    (((transcoderOn []).sharedPicture 0).codedExtent.1 : Int) = 320 ∧
    (((transcoderOn []).sharedPicture 0).codedExtent.2 : Int) = 240 :=
  (record_shared_picture (transcoderOn []) 0 100).2.2.2.2
    (by decide) (by decide) (by decide) (by decide)

/-! ## Barriers and reference slots of the recorded commands -/

/-- C17, the code at every frame index: the transition recorded on the slot's
decoded picture at the head of the encode command buffer has old layout
`VK_IMAGE_LAYOUT_UNDEFINED` (0), which is not `VIDEO_DECODE_DST`, and new layout
`VIDEO_ENCODE_SRC`; it is the only transition recorded for the frame. -/
theorem recordEncodeCommandBuffer_old_layout_undefined (self : VideoTranscoder)
    (frameIndex bitstreamSize : Nat) :
    (recordedCommands (.encodeCommandBuffer frameIndex)
        (self.recordEncodeCommandBuffer frameIndex)).filter Command.isTransition =
      [ .transitionImageLayout frameIndex VK_IMAGE_LAYOUT_UNDEFINED
          VK_IMAGE_LAYOUT_VIDEO_ENCODE_SRC_KHR ] ∧
    (recordedCommands (.encodeCommandBuffer frameIndex)
        (self.recordEncodeCommandBuffer frameIndex)).head? =
      some (.transitionImageLayout frameIndex VK_IMAGE_LAYOUT_UNDEFINED
          VK_IMAGE_LAYOUT_VIDEO_ENCODE_SRC_KHR) ∧
    (recordedCommands (.decodeCommandBuffer frameIndex)
        (self.recordDecodeCommandBuffer frameIndex bitstreamSize)).filter Command.isTransition =
      [] ∧
    VK_IMAGE_LAYOUT_UNDEFINED ≠ VK_IMAGE_LAYOUT_VIDEO_DECODE_DST_KHR := by
  refine ⟨?_, ?_, ?_, by decide⟩
  · simp [recordedCommands, VideoTranscoder.recordEncodeCommandBuffer, Command.isTransition]
  · simp [recordedCommands, VideoTranscoder.recordEncodeCommandBuffer]
  · simp [recordedCommands, VideoTranscoder.recordDecodeCommandBuffer, Command.isTransition]

/-- C18, refuted as stated: on a device whose decode family (1) differs from its
encode family (2), the last call that records into the decode command buffer of
slot 0 is `vkCmdEndVideoCodingKHR`, and no barrier is recorded into it. -/
theorem recordDecodeCommandBuffer_no_barrier :
    (transcoderOn []).vulkanBase.queueFamilyIndices.decodeFamily ≠
      (transcoderOn []).vulkanBase.queueFamilyIndices.encodeFamily ∧
    (recordedCommands (.decodeCommandBuffer 0)
        ((transcoderOn []).recordDecodeCommandBuffer 0 100)).getLast? =
      some .vkCmdEndVideoCodingKHR ∧
    (recordedCommands (.decodeCommandBuffer 0)
        ((transcoderOn []).recordDecodeCommandBuffer 0 100)).any Command.isTransition = false ∧
    ((transcoderOn []).recordDecodeCommandBuffer 0 100).getLast? =
      some (Event.vkEndCommandBuffer (.decodeCommandBuffer 0)) := by
  decide

/-- C18, amended: for every frame, the command sequence recorded into the decode
command buffer ends with the command that closes the video-coding scope and
holds no barrier; the transition of the slot's shared decoded picture to
`VIDEO_ENCODE_SRC` is the first command recorded into the encode command buffer
and the only transition recorded into it;
and what is recorded into either buffer is the same whatever the queue families
of the device are. -/
theorem recordDecodeCommandBuffer_ends_with_scope (self : VideoTranscoder)
    (frameIndex bitstreamSize : Nat) :
    (recordedCommands (.decodeCommandBuffer frameIndex)
        (self.recordDecodeCommandBuffer frameIndex bitstreamSize)).getLast? =
      some .vkCmdEndVideoCodingKHR ∧
    (recordedCommands (.decodeCommandBuffer frameIndex)
        (self.recordDecodeCommandBuffer frameIndex bitstreamSize)).any Command.isTransition =
      false ∧
    (∃ oldLayout,
      (recordedCommands (.encodeCommandBuffer frameIndex)
          (self.recordEncodeCommandBuffer frameIndex)).head? =
        some (.transitionImageLayout frameIndex oldLayout
          VK_IMAGE_LAYOUT_VIDEO_ENCODE_SRC_KHR) ∧
      (recordedCommands (.encodeCommandBuffer frameIndex)
          (self.recordEncodeCommandBuffer frameIndex)).filter Command.isTransition =
        [.transitionImageLayout frameIndex oldLayout VK_IMAGE_LAYOUT_VIDEO_ENCODE_SRC_KHR]) ∧
    (∀ vulkanBase : VulkanBase,
      ({ self with vulkanBase := vulkanBase }).recordDecodeCommandBuffer frameIndex
          bitstreamSize = self.recordDecodeCommandBuffer frameIndex bitstreamSize ∧
      ({ self with vulkanBase := vulkanBase }).recordEncodeCommandBuffer frameIndex =
        self.recordEncodeCommandBuffer frameIndex) := by
  refine ⟨?_, ?_, ⟨VK_IMAGE_LAYOUT_UNDEFINED, ?_, ?_⟩, fun vb => ⟨rfl, rfl⟩⟩
  · simp [recordedCommands, VideoTranscoder.recordDecodeCommandBuffer]
  · simp [recordedCommands, VideoTranscoder.recordDecodeCommandBuffer, Command.isTransition]
  · simp [recordedCommands, VideoTranscoder.recordEncodeCommandBuffer]
  · simp [recordedCommands, VideoTranscoder.recordEncodeCommandBuffer, Command.isTransition]

/-- C19: every decode command recorded by `recordDecodeCommandBuffer` has no
setup-reference slot and an empty list of reference slots, so its
setup-reference slot, when present, does not occur in its reference-slot list. -/
theorem recordDecodeCommandBuffer_setup_slot (self : VideoTranscoder)
    (frameIndex bitstreamSize : Nat) (cb : CommandBuffer) (decodeInfo : VideoDecodeInfo)
    (h : Event.record cb (.vkCmdDecodeVideoKHR decodeInfo) ∈
      self.recordDecodeCommandBuffer frameIndex bitstreamSize) :
    decodeInfo.pSetupReferenceSlot = none ∧ decodeInfo.referenceSlots = [] ∧
    ∀ s, decodeInfo.pSetupReferenceSlot = some s → s ∉ decodeInfo.referenceSlots := by
  simp [VideoTranscoder.recordDecodeCommandBuffer] at h
  obtain ⟨-, rfl⟩ := h
  simp

/-- C19, at the decode command recorded for a packet of 100 bytes in slot 0. -/
theorem recordDecodeCommandBuffer_setup_slot_witness :
    ((transcoderOn []).recordDecodeCommandBuffer 0 100)[3]? =
      some (Event.record (.decodeCommandBuffer 0) (.vkCmdDecodeVideoKHR
        { srcBuffer := 0, srcBufferOffset := 0, srcBufferRange := 100,
          dstPictureResource := (transcoderOn []).sharedPicture 0,
          pSetupReferenceSlot := none, referenceSlots := [] })) ∧
    ∀ s, (none : Option Nat) = some s → s ∉ ([] : List Nat) :=
  ⟨by decide,
    (recordDecodeCommandBuffer_setup_slot (transcoderOn []) 0 100 (.decodeCommandBuffer 0)
      { srcBuffer := 0, srcBufferOffset := 0, srcBufferRange := 100,
        dstPictureResource := (transcoderOn []).sharedPicture 0,
        pSetupReferenceSlot := none, referenceSlots := [] }
      (List.getElem?_mem (show ((transcoderOn []).recordDecodeCommandBuffer 0 100)[3]? = _
        by decide))).2.2⟩

/-! ## A run in which the container header can be written -/

theorem toInt32_of_lt (x : Int) (h0 : 0 ≤ x) (h1 : x < 2 ^ 31) : toInt32 x = x := by
  unfold toInt32
  have : (x + 2 ^ 31) % 2 ^ 32 = x + 2 ^ 31 := Int.emod_eq_of_lt (by omega) (by omega)
  omega

theorem writePacket_of_header_ok (headerRet frameRet : Int) (m : H265Muxer) (data : List Nat)
    (pts : Int) (h : 0 ≤ headerRet) :
    m.writePacket headerRet frameRet data pts =
      ((if m.headerWritten then [] else [Event.avformat_write_header headerRet]) ++
        [Event.av_interleaved_write_frame
          { data := data, size := toInt32 data.length, stream_index := m.videoStreamIndex,
            pts := pts, dts := pts, flags := AV_PKT_FLAG_KEY } frameRet],
        { m with headerWritten := true }, none) := by
  have hlt : ¬ headerRet < 0 := by omega
  cases m with
  | mk hw vs =>
    cases hw <;> simp [H265Muxer.writePacket, H265Muxer.writeHeader, hlt]

theorem transcodeRun_cons_video (N : Nat) (env : Env) (p : AVPacket) (rest : List AVPacket)
    (n : Nat) (self : VideoTranscoder) (fc : Int) (hh : 0 ≤ env.avformat_write_header)
    (hp : p.stream_index = self.demuxer.videoStreamIndex) :
    (transcodeRun N env (p :: rest) n self fc).events =
      self.frameEvents env n p fc ++
        (transcodeRun N env rest (n + 1) (self.afterFrame N rest) (toInt32 (fc + 1))).events ∧
    (transcodeRun N env (p :: rest) n self fc).outcome =
      (transcodeRun N env rest (n + 1) (self.afterFrame N rest) (toInt32 (fc + 1))).outcome ∧
    (transcodeRun N env (p :: rest) n self fc).self =
      (transcodeRun N env rest (n + 1) (self.afterFrame N rest) (toInt32 (fc + 1))).self := by
  have hsize : toInt32 ((encodedData env n).length : Int) = 1024 := by
    rw [encodedData_length]; decide
  simp only [transcodeRun, hp, if_true, writePacket_of_header_ok _ _ _ _ _ hh, hsize]
  refine ⟨?_, rfl, rfl⟩
  simp [VideoTranscoder.frameEvents, VideoTranscoder.afterFrame, muxPacketOf,
    VideoTranscoder.stageAndSubmit, VideoTranscoder.recordDecodeCommandBuffer,
    VideoTranscoder.recordEncodeCommandBuffer, VideoTranscoder.submitWork,
    H264Demuxer.getWidth, H264Demuxer.getHeight]

theorem transcodeRun_cons_skip (N : Nat) (env : Env) (p : AVPacket) (rest : List AVPacket)
    (n : Nat) (self : VideoTranscoder) (fc : Int)
    (hp : p.stream_index ≠ self.demuxer.videoStreamIndex) :
    (transcodeRun N env (p :: rest) n self fc).events =
      skipEvents p ++ (transcodeRun N env rest n self fc).events ∧
    (transcodeRun N env (p :: rest) n self fc).outcome =
      (transcodeRun N env rest n self fc).outcome ∧
    (transcodeRun N env (p :: rest) n self fc).self =
      (transcodeRun N env rest n self fc).self := by
  simp [transcodeRun, hp, skipEvents]

theorem writePacketCalls_frameEvents (env : Env) (n : Nat) (self : VideoTranscoder)
    (p : AVPacket) (fc : Int) :
    writePacketCalls (self.frameEvents env n p fc) = [(encodedData env n, fc)] := by
  cases h : self.muxer.headerWritten <;>
    simp [writePacketCalls, VideoTranscoder.frameEvents, h, VideoTranscoder.stageAndSubmit,
      VideoTranscoder.recordDecodeCommandBuffer, VideoTranscoder.recordEncodeCommandBuffer,
      VideoTranscoder.submitWork]

theorem writtenFrames_frameEvents (env : Env) (n : Nat) (self : VideoTranscoder)
    (p : AVPacket) (fc : Int) :
    writtenFrames (self.frameEvents env n p fc) =
      [muxPacketOf self.muxer.videoStreamIndex (encodedData env n) fc] := by
  cases h : self.muxer.headerWritten <;>
    simp [writtenFrames, VideoTranscoder.frameEvents, h, VideoTranscoder.stageAndSubmit,
      VideoTranscoder.recordDecodeCommandBuffer, VideoTranscoder.recordEncodeCommandBuffer,
      VideoTranscoder.submitWork]

theorem fenceWaits_frameEvents (env : Env) (n : Nat) (self : VideoTranscoder)
    (p : AVPacket) (fc : Int) :
    fenceWaits (self.frameEvents env n p fc) = [self.currentFrame] := by
  cases h : self.muxer.headerWritten <;>
    simp [fenceWaits, VideoTranscoder.frameEvents, h, VideoTranscoder.stageAndSubmit,
      VideoTranscoder.recordDecodeCommandBuffer, VideoTranscoder.recordEncodeCommandBuffer,
      VideoTranscoder.submitWork]

theorem writePacketCalls_append (A B : List Event) :
    writePacketCalls (A ++ B) = writePacketCalls A ++ writePacketCalls B := by
  simp [writePacketCalls]

theorem writtenFrames_append (A B : List Event) :
    writtenFrames (A ++ B) = writtenFrames A ++ writtenFrames B := by
  simp [writtenFrames]

theorem fenceWaits_append (A B : List Event) :
    fenceWaits (A ++ B) = fenceWaits A ++ fenceWaits B := by
  simp [fenceWaits]

theorem transcodeRun_writes (N : Nat) (env : Env) (hh : 0 ≤ env.avformat_write_header)
    (v stream : Int) (l : List AVPacket) :
    ∀ (n k : Nat) (self : VideoTranscoder) (fc : Int),
      self.demuxer.videoStreamIndex = v → self.muxer.videoStreamIndex = stream →
      (0 < (l.filter (fun p => decide (p.stream_index = v))).length → fc = (k : Int)) →
      k + (l.filter (fun p => decide (p.stream_index = v))).length ≤ 2 ^ 31 →
      (transcodeRun N env l n self fc).outcome = .returned ∧
      writePacketCalls (transcodeRun N env l n self fc).events =
        (List.range (l.filter (fun p => decide (p.stream_index = v))).length).map
          (fun i => (encodedData env (n + i), ((k + i : Nat) : Int))) ∧
      writtenFrames (transcodeRun N env l n self fc).events =
        (List.range (l.filter (fun p => decide (p.stream_index = v))).length).map
          (fun i => muxPacketOf stream (encodedData env (n + i)) ((k + i : Nat) : Int)) := by
  induction l with
  | nil =>
    intro n k self fc _ _ _ _
    simp [transcodeRun, writePacketCalls, writtenFrames]
  | cons p rest ih =>
    intro n k self fc hv hs hfc hk
    by_cases hp : p.stream_index = v
    · have hfilter : (List.filter (fun p => decide (p.stream_index = v)) (p :: rest)) =
          p :: List.filter (fun p => decide (p.stream_index = v)) rest := by
        simp [List.filter_cons, hp]
      rw [hfilter] at hfc hk ⊢
      simp only [List.length_cons] at hfc hk ⊢
      have hfck : fc = (k : Int) := hfc (by omega)
      obtain ⟨hev, hout, -⟩ :=
        transcodeRun_cons_video N env p rest n self fc hh (hp.trans hv.symm)
      obtain ⟨ho, hw, hf⟩ := ih (n + 1) (k + 1) (self.afterFrame N rest) (toInt32 (fc + 1))
        hv hs
        (by
          intro hpos
          rw [hfck]
          have : ((k : Int) + 1) < 2 ^ 31 := by omega
          rw [toInt32_of_lt _ (by omega) this]
          push_cast
          rfl)
        (by omega)
      refine ⟨by rw [hout, ho], ?_, ?_⟩
      · rw [hev, writePacketCalls_append, writePacketCalls_frameEvents, hw,
          List.range_succ_eq_map, List.map_cons, List.map_map, hfck]
        simp [Function.comp_def, Nat.add_assoc, Nat.add_comm 1]
      · rw [hev, writtenFrames_append, writtenFrames_frameEvents, hf,
          List.range_succ_eq_map, List.map_cons, List.map_map, hfck, hs]
        simp [Function.comp_def, Nat.add_assoc, Nat.add_comm 1]
    · have hfilter : (List.filter (fun p => decide (p.stream_index = v)) (p :: rest)) =
          List.filter (fun p => decide (p.stream_index = v)) rest := by
        simp [List.filter_cons, hp]
      rw [hfilter] at hfc hk ⊢
      obtain ⟨hev, hout, -⟩ := transcodeRun_cons_skip N env p rest n self fc
        (fun h => hp (h.trans hv))
      obtain ⟨ho, hw, hf⟩ := ih n k self fc hv hs hfc hk
      refine ⟨by rw [hout, ho], ?_, ?_⟩
      · rw [hev, writePacketCalls_append, hw]; simp [writePacketCalls, skipEvents]
      · rw [hev, writtenFrames_append, hf]; simp [writtenFrames, skipEvents]

/-! ## Timestamps and ring slots of a run -/

theorem videoPackets_videoPackets (d : H264Demuxer) :
    ({ d with pending := d.videoPackets } : H264Demuxer).videoPackets = d.videoPackets := by
  simp [H264Demuxer.videoPackets, List.filter_filter]

/-- C12: when the packet can be allocated, the container header can be written
and the input has R video packets (R at most 2^31, the range of the `int` frame
counter), `transcodeLoop` returns after calling `writePacket` exactly R times,
the i-th call (i = 0..R-1) with timestamp i, and the packet handed to the
container library has pts = i and dts = pts; the calls are the same as for the
input with the packets of other streams left out. -/
theorem transcodeLoop_pts (numFrameResources : Nat) (env : Env) (self : VideoTranscoder)
    (halloc : env.av_packet_alloc = true) (hheader : 0 ≤ env.avformat_write_header)
    (hR : self.demuxer.videoPackets.length ≤ 2 ^ 31) :
    (self.transcodeLoop numFrameResources env).outcome = .returned ∧
    writePacketCalls (self.transcodeLoop numFrameResources env).events =
      (List.range self.demuxer.videoPackets.length).map
        (fun i => (encodedData env i, (i : Int))) ∧
    writtenFrames (self.transcodeLoop numFrameResources env).events =
      (List.range self.demuxer.videoPackets.length).map
        (fun i => muxPacketOf self.muxer.videoStreamIndex (encodedData env i) (i : Int)) ∧
    (∀ packet ∈ writtenFrames (self.transcodeLoop numFrameResources env).events,
      packet.dts = packet.pts) ∧
    writePacketCalls (self.transcodeLoop numFrameResources env).events =
      writePacketCalls (({ self with
        demuxer := { self.demuxer with pending := self.demuxer.videoPackets } }
          : VideoTranscoder).transcodeLoop numFrameResources env).events := by
  have key : ∀ t : VideoTranscoder, t.demuxer.videoPackets.length ≤ 2 ^ 31 →
      (t.transcodeLoop numFrameResources env).outcome = .returned ∧
      writePacketCalls (t.transcodeLoop numFrameResources env).events =
        (List.range t.demuxer.videoPackets.length).map
          (fun i => (encodedData env i, (i : Int))) ∧
      writtenFrames (t.transcodeLoop numFrameResources env).events =
        (List.range t.demuxer.videoPackets.length).map
          (fun i => muxPacketOf t.muxer.videoStreamIndex (encodedData env i) (i : Int)) := by
    intro t ht
    rw [transcodeLoop_eq_transcodeRun numFrameResources env t halloc]
    have := transcodeRun_writes numFrameResources env hheader t.demuxer.videoStreamIndex
      t.muxer.videoStreamIndex t.demuxer.pending 0 0 t 0 rfl rfl (fun _ => rfl)
      (by simpa [H264Demuxer.videoPackets] using ht)
    simpa [H264Demuxer.videoPackets] using this
  obtain ⟨h1, h2, h3⟩ := key self hR
  refine ⟨h1, h2, h3, ?_, ?_⟩
  · intro packet hpacket
    rw [h3] at hpacket
    simp only [List.mem_map] at hpacket
    obtain ⟨i, -, rfl⟩ := hpacket
    rfl
  · have hR' : ({ self with demuxer := { self.demuxer with pending := self.demuxer.videoPackets } }
        : VideoTranscoder).demuxer.videoPackets.length ≤ 2 ^ 31 := by
      show ({ self.demuxer with pending := self.demuxer.videoPackets }
        : H264Demuxer).videoPackets.length ≤ 2 ^ 31
      rw [videoPackets_videoPackets]; exact hR
    obtain ⟨-, h2', -⟩ := key _ hR'
    rw [h2, h2']
    show _ = List.map _ (List.range ({ self.demuxer with pending := self.demuxer.videoPackets }
        : H264Demuxer).videoPackets.length)
    rw [videoPackets_videoPackets]

/-- C12, at an input of two video packets interleaved with two audio packets:
two calls of `writePacket`, with timestamps 0 and 1. -/
theorem transcodeLoop_pts_witness :
    ((transcoderOn [⟨1, 10⟩, ⟨0, 100⟩, ⟨1, 5⟩, ⟨0, 60⟩]).transcodeLoop 1 quietEnv).outcome =
      .returned ∧
    writePacketCalls
        ((transcoderOn [⟨1, 10⟩, ⟨0, 100⟩, ⟨1, 5⟩, ⟨0, 60⟩]).transcodeLoop 1 quietEnv).events =
      [(encodedData quietEnv 0, 0), (encodedData quietEnv 1, 1)] ∧
    writtenFrames
        ((transcoderOn [⟨1, 10⟩, ⟨0, 100⟩, ⟨1, 5⟩, ⟨0, 60⟩]).transcodeLoop 1 quietEnv).events =
      [muxPacketOf 0 (encodedData quietEnv 0) 0, muxPacketOf 0 (encodedData quietEnv 1) 1] := by
  have h := transcodeLoop_pts 1 quietEnv (transcoderOn [⟨1, 10⟩, ⟨0, 100⟩, ⟨1, 5⟩, ⟨0, 60⟩])
    rfl (by decide) (by decide)
  exact ⟨h.1, h.2.1, h.2.2.1⟩

theorem count_range_mul_mod (N k s : Nat) (hs : s < N) :
    List.count s ((List.range (k * N)).map (fun i => i % N)) = k := by
  induction k with
  | zero => simp
  | succ k ih =>
    have hsplit : (k + 1) * N = k * N + N := by ring
    rw [hsplit, List.range_add, List.map_append, List.count_append, ih, List.map_map]
    have hmap : List.map ((fun i => i % N) ∘ fun x => k * N + x) (List.range N) =
        List.range N := by
      conv_rhs => rw [← List.map_id (List.range N)]
      apply List.map_congr_left
      intro i hi
      have hiN : i < N := List.mem_range.mp hi
      simp only [Function.comp_apply, id]
      rw [Nat.add_comm, Nat.add_mul_mod_self_right]
      exact Nat.mod_eq_of_lt hiN
    rw [hmap, List.count_eq_one_of_mem (List.nodup_range N) (List.mem_range.mpr hs)]

theorem transcodeRun_fenceWaits (N : Nat) (hN : 0 < N) (hN32 : N < 2 ^ 32) (env : Env)
    (hh : 0 ≤ env.avformat_write_header) (v : Int) (l : List AVPacket) :
    ∀ (n c : Nat) (self : VideoTranscoder) (fc : Int),
      self.demuxer.videoStreamIndex = v → self.currentFrame = c → c < N →
      fenceWaits (transcodeRun N env l n self fc).events =
        (List.range (l.filter (fun p => decide (p.stream_index = v))).length).map
          (fun i => (c + i) % N) := by
  induction l with
  | nil =>
    intro n c self fc _ _ _
    simp [transcodeRun, fenceWaits]
  | cons p rest ih =>
    intro n c self fc hv hc hcN
    by_cases hp : p.stream_index = v
    · have hfilter : (List.filter (fun p => decide (p.stream_index = v)) (p :: rest)) =
          p :: List.filter (fun p => decide (p.stream_index = v)) rest := by
        simp [List.filter_cons, hp]
      obtain ⟨hev, -, -⟩ :=
        transcodeRun_cons_video N env p rest n self fc hh (hp.trans hv.symm)
      have hnext : (self.afterFrame N rest).currentFrame = (c + 1) % N := by
        show (self.currentFrame + 1) % 2 ^ 32 % N = (c + 1) % N
        rw [hc, Nat.mod_eq_of_lt (a := c + 1) (by omega)]
      have hih := ih (n + 1) ((c + 1) % N) (self.afterFrame N rest) (toInt32 (fc + 1)) hv hnext
        (Nat.mod_lt _ hN)
      rw [hev, fenceWaits_append, fenceWaits_frameEvents, hih, hfilter, List.length_cons,
        List.range_succ_eq_map, List.map_cons, List.map_map, hc]
      simp only [Nat.add_zero, Nat.mod_eq_of_lt hcN, List.singleton_append, List.cons.injEq,
        true_and]
      apply List.map_congr_left
      intro i _
      simp only [Function.comp_apply, Nat.succ_eq_add_one, Nat.mod_add_mod]
      congr 1
      omega
    · have hfilter : (List.filter (fun p => decide (p.stream_index = v)) (p :: rest)) =
          List.filter (fun p => decide (p.stream_index = v)) rest := by
        simp [List.filter_cons, hp]
      obtain ⟨hev, -, -⟩ := transcodeRun_cons_skip N env p rest n self fc
        (fun h => hp (h.trans hv))
      rw [hev, fenceWaits_append, ih n c self fc hv hc hcN, hfilter]
      simp [fenceWaits, skipEvents]

/-- C15: with a ring of N slots (1 <= N < 2^32), a transcoder whose
`currentFrame` is 0, a packet that can be allocated and a container header that
can be written, the slot whose fence the host waits on for the n-th video frame
is n mod N, every such slot is below N, and when the input has k * N video
frames the fence of every slot is waited on exactly k times. -/
theorem transcodeLoop_ring_slots (numFrameResources : Nat) (hN : 1 ≤ numFrameResources)
    (hN32 : numFrameResources < 2 ^ 32) (env : Env) (self : VideoTranscoder)
    (hfresh : self.currentFrame = 0) (halloc : env.av_packet_alloc = true)
    (hheader : 0 ≤ env.avformat_write_header) :
    fenceWaits (self.transcodeLoop numFrameResources env).events =
      (List.range self.demuxer.videoPackets.length).map (fun n => n % numFrameResources) ∧
    (∀ s ∈ fenceWaits (self.transcodeLoop numFrameResources env).events,
      s < numFrameResources) ∧
    (∀ k, self.demuxer.videoPackets.length = k * numFrameResources →
      ∀ s, s < numFrameResources →
        List.count s (fenceWaits (self.transcodeLoop numFrameResources env).events) = k) := by
  have hw : fenceWaits (self.transcodeLoop numFrameResources env).events =
      (List.range self.demuxer.videoPackets.length).map (fun n => n % numFrameResources) := by
    rw [transcodeLoop_eq_transcodeRun numFrameResources env self halloc,
      transcodeRun_fenceWaits numFrameResources hN hN32 env hheader
        self.demuxer.videoStreamIndex self.demuxer.pending 0 0 self 0 rfl hfresh (by omega)]
    simp [H264Demuxer.videoPackets]
  refine ⟨hw, ?_, ?_⟩
  · intro s hs
    rw [hw] at hs
    simp only [List.mem_map] at hs
    obtain ⟨n, -, rfl⟩ := hs
    exact Nat.mod_lt _ hN
  · intro k hk s hs
    rw [hw, hk]
    exact count_range_mul_mod numFrameResources k s hs

theorem transcoderOn300_videoPackets :
    transcoderOn300.demuxer.videoPackets.length = 100 * 3 := by
  have h : transcoderOn300.demuxer.videoPackets = List.replicate 300 ⟨0, 100⟩ := by
    unfold H264Demuxer.videoPackets
    show List.filter _ (List.replicate 300 (⟨0, 100⟩ : AVPacket)) = _
    apply List.filter_eq_self.mpr
    intro a ha
    rw [List.eq_of_mem_replicate ha]
    rfl
  rw [h, List.length_replicate]

/-- C15, at 300 video frames and a ring of three slots: each of the three fences
is waited on exactly 100 times. -/
theorem transcodeLoop_ring_slots_witness :
    List.count 0 (fenceWaits (transcoderOn300.transcodeLoop 3 quietEnv).events) = 100 ∧
    List.count 1 (fenceWaits (transcoderOn300.transcodeLoop 3 quietEnv).events) = 100 ∧
    List.count 2 (fenceWaits (transcoderOn300.transcodeLoop 3 quietEnv).events) = 100 :=
  have h := (transcodeLoop_ring_slots 3 (by decide) (by decide) quietEnv transcoderOn300 rfl rfl
    (by decide)).2.2 100 transcoderOn300_videoPackets
  ⟨h 0 (by decide), h 1 (by decide), h 2 (by decide)⟩

/-! ## Size of the frame ring -/

theorem createFrameResourcesLoop_length (env : FrameResourcesEnv)
    (decodeProfile encodeProfile : VideoProfileInfo) (width height : Nat) (remaining : Nat) :
    ∀ (i : Nat) (frameResources : List FrameResources),
      (createFrameResourcesLoop env decodeProfile encodeProfile width height remaining i
        frameResources).1.length = frameResources.length := by
  induction remaining with
  | zero => intro i frameResources; simp [createFrameResourcesLoop]
  | succ remaining ih =>
    intro i frameResources
    simp only [createFrameResourcesLoop]
    split
    · simp
    · rw [ih]; simp

/-- C14, refuted as stated: the ring that `createFrameResources` makes with the
ring size of the sources, on a driver where every call succeeds, has exactly one
slot, which is fewer than two. -/
theorem createFrameResources_one_slot :
    (createFrameResources NUM_FRAME_RESOURCES quietFrameResourcesEnv sampleDecodeProfile
      sampleEncodeProfile (transcoderOn []).demuxer).1.length = 1 ∧
    (createFrameResources NUM_FRAME_RESOURCES quietFrameResourcesEnv sampleDecodeProfile
      sampleEncodeProfile (transcoderOn []).demuxer).2 = none ∧
    ¬ 2 ≤ (createFrameResources NUM_FRAME_RESOURCES quietFrameResourcesEnv sampleDecodeProfile
      sampleEncodeProfile (transcoderOn []).demuxer).1.length := by
  decide

/-- C14, amended: the frame ring created by `createFrameResources` has exactly
as many slots as the ring size it is given, whether or not the creation of a
slot fails; with `NUM_FRAME_RESOURCES`, which is 1, it has exactly one slot. -/
theorem createFrameResources_ring_size (env : FrameResourcesEnv)
    (decodeProfile encodeProfile : VideoProfileInfo) (demuxer : H264Demuxer) :
    (∀ numFrameResources,
      (createFrameResources numFrameResources env decodeProfile encodeProfile
        demuxer).1.length = numFrameResources) ∧
    (createFrameResources NUM_FRAME_RESOURCES env decodeProfile encodeProfile
      demuxer).1.length = 1 := by
  have h : ∀ numFrameResources,
      (createFrameResources numFrameResources env decodeProfile encodeProfile
        demuxer).1.length = numFrameResources := by
    intro numFrameResources
    simp [createFrameResources, createFrameResourcesLoop_length]
  exact ⟨h, h NUM_FRAME_RESOURCES⟩

/-! ## Binding of session memory -/

theorem bindVideoSessionMemoryLoop_ok (env : SessionMemoryEnv) (session : VideoSession)
    (todo : List VideoSessionMemoryRequirements) :
    ∀ (i : Nat) (memory : List (Option Nat)) (bindInfos : List BindVideoSessionMemoryInfo),
      (∀ j r, todo[j]? = some r →
        (∃ t, env.findMemoryType r.memoryTypeBits VK_MEMORY_PROPERTY_DEVICE_LOCAL_BIT = .ok t) ∧
        (env.vkAllocateMemory (i + j)).1 = VK_SUCCESS) →
      i + todo.length = bindInfos.length → memory.length = bindInfos.length →
      ∃ B : List BindVideoSessionMemoryInfo,
        (bindVideoSessionMemoryLoop env session todo i memory bindInfos).calls.filter
            MemoryCall.isBind =
          [MemoryCall.vkBindVideoSessionMemoryKHR session B env.vkBindVideoSessionMemoryKHR] ∧
        (bindVideoSessionMemoryLoop env session todo i memory bindInfos).calls.getLast? =
          some (MemoryCall.vkBindVideoSessionMemoryKHR session B
            env.vkBindVideoSessionMemoryKHR) ∧
        ((bindVideoSessionMemoryLoop env session todo i memory bindInfos).calls.filter
            (fun c => !c.isBind)).length = todo.length ∧
        B.length = bindInfos.length ∧
        (∀ j, j < i → B[j]? = bindInfos[j]?) ∧
        (∀ j r, todo[j]? = some r → B[i + j]? = some
          { memoryBindIndex := r.memoryBindIndex,
            memory := some (env.vkAllocateMemory (i + j)).2,
            memoryOffset := 0, memorySize := r.size }) ∧
        (bindVideoSessionMemoryLoop env session todo i memory bindInfos).thrown =
          (if env.vkBindVideoSessionMemoryKHR ≠ VK_SUCCESS then
            some (.runtime_error "Failed to bind video session memory") else none) := by
  induction todo with
  | nil =>
    intro i memory bindInfos _ _ _
    exact ⟨bindInfos, by simp [bindVideoSessionMemoryLoop, MemoryCall.isBind]⟩
  | cons req rest ih =>
    intro i memory bindInfos hok hlen hmem
    obtain ⟨⟨t, ht⟩, halloc⟩ := hok 0 req (by simp)
    simp only [Nat.add_zero] at halloc
    simp only [List.length_cons] at hlen
    have hi : i < bindInfos.length := by omega
    have him : i < memory.length := by omega
    have hgetD : (memory.set i (some (env.vkAllocateMemory i).2)).getD i none =
        some (env.vkAllocateMemory i).2 := by
      simp [List.getElem?_set_self him]
    obtain ⟨B, hB1, hB2, hB3, hB4, hB5, hB6, hB7⟩ := ih (i + 1)
      (memory.set i (some (env.vkAllocateMemory i).2))
      (bindInfos.set i
        { memoryBindIndex := req.memoryBindIndex,
          memory := some (env.vkAllocateMemory i).2,
          memoryOffset := 0, memorySize := req.size })
      (by
        intro j r hj
        have := hok (j + 1) r (by simpa using hj)
        rw [show i + (j + 1) = i + 1 + j by omega] at this
        exact this)
      (by simp; omega) (by simp; omega)
    have hstep : bindVideoSessionMemoryLoop env session (req :: rest) i memory bindInfos =
        { bindVideoSessionMemoryLoop env session rest (i + 1)
            (memory.set i (some (env.vkAllocateMemory i).2))
            (bindInfos.set i
              { memoryBindIndex := req.memoryBindIndex,
                memory := some (env.vkAllocateMemory i).2,
                memoryOffset := 0, memorySize := req.size }) with
          calls := MemoryCall.vkAllocateMemory req.size t (env.vkAllocateMemory i).1 ::
            (bindVideoSessionMemoryLoop env session rest (i + 1)
              (memory.set i (some (env.vkAllocateMemory i).2))
              (bindInfos.set i
                { memoryBindIndex := req.memoryBindIndex,
                  memory := some (env.vkAllocateMemory i).2,
                  memoryOffset := 0, memorySize := req.size })).calls } := by
      rw [bindVideoSessionMemoryLoop]
      simp only [ht, halloc, ne_eq, not_true_eq_false, if_false, hgetD]
    rw [hstep]
    refine ⟨B, ?_, ?_, ?_, ?_, ?_, ?_, ?_⟩
    · simp [MemoryCall.isBind, hB1]
    · show (_ :: _).getLast? = _
      rw [List.getLast?_cons, hB2]
      simp
    · show (List.filter (fun c : MemoryCall => !c.isBind) (_ :: _)).length = _
      rw [List.filter_cons_of_pos (by rfl), List.length_cons, hB3, List.length_cons]
    · simpa using hB4
    · intro j hj
      rw [hB5 j (by omega), List.getElem?_set_ne (by omega)]
    · intro j r hj
      cases j with
      | zero =>
        simp at hj
        subst hj
        rw [Nat.add_zero, hB5 i (by omega), List.getElem?_set_self hi]
      | succ j =>
        have := hB6 j r (by simpa using hj)
        rw [show i + (j + 1) = i + 1 + j by omega]
        exact this
    · exact hB7

theorem bindVideoSessionMemoryLoop_fail (env : SessionMemoryEnv) (session : VideoSession)
    (todo : List VideoSessionMemoryRequirements) :
    ∀ (i : Nat) (memory : List (Option Nat)) (bindInfos : List BindVideoSessionMemoryInfo),
      (∃ j, j < todo.length ∧ (env.vkAllocateMemory (i + j)).1 ≠ VK_SUCCESS) →
      (bindVideoSessionMemoryLoop env session todo i memory bindInfos).thrown ≠ none ∧
      (bindVideoSessionMemoryLoop env session todo i memory bindInfos).calls.filter
        MemoryCall.isBind = [] := by
  induction todo with
  | nil => intro i memory bindInfos h; obtain ⟨j, hj, -⟩ := h; simp at hj
  | cons req rest ih =>
    intro i memory bindInfos h
    obtain ⟨j, hj, hfail⟩ := h
    simp only [bindVideoSessionMemoryLoop]
    cases hfind : env.findMemoryType req.memoryTypeBits VK_MEMORY_PROPERTY_DEVICE_LOCAL_BIT with
    | error e => simp
    | ok t =>
      by_cases halloc : (env.vkAllocateMemory i).1 = VK_SUCCESS
      · cases j with
        | zero => simp [halloc] at hfail
        | succ j =>
          have hrest : ∃ j', j' < rest.length ∧ (env.vkAllocateMemory (i + 1 + j')).1 ≠ VK_SUCCESS :=
            ⟨j, by simpa using hj, by rw [show i + 1 + j = i + (j + 1) by omega]; exact hfail⟩
          simp only [halloc, ne_eq, not_true_eq_false, if_false]
          constructor
          · exact (ih _ _ _ hrest).1
          · rw [List.filter_cons_of_neg (by simp [MemoryCall.isBind])]
            exact (ih _ _ _ hrest).2
      · simp [halloc, MemoryCall.isBind]

/-- C20: for every list of n session memory requirements, when every memory
type is found and every allocation succeeds, `bindVideoSessionMemory` makes n
allocations and then exactly one bind call, its last call, carrying n entries,
entry i having requirement i's `memoryBindIndex`, offset 0, the size of
requirement i and the handle returned by the i-th allocation; when an allocation
fails it throws and makes no bind call. -/
theorem bindVideoSessionMemory_all_or_nothing (env : SessionMemoryEnv)
    (session : VideoSession) (memReqs : List VideoSessionMemoryRequirements) :
    ((∀ (i : Nat) (r : VideoSessionMemoryRequirements), memReqs[i]? = some r →
        (∃ t, env.findMemoryType r.memoryTypeBits VK_MEMORY_PROPERTY_DEVICE_LOCAL_BIT = .ok t) ∧
        (env.vkAllocateMemory i).1 = VK_SUCCESS) →
      ∃ bindInfos : List BindVideoSessionMemoryInfo,
        (bindVideoSessionMemory env session memReqs).calls.filter MemoryCall.isBind =
          [MemoryCall.vkBindVideoSessionMemoryKHR session bindInfos
            env.vkBindVideoSessionMemoryKHR] ∧
        (bindVideoSessionMemory env session memReqs).calls.getLast? =
          some (MemoryCall.vkBindVideoSessionMemoryKHR session bindInfos
            env.vkBindVideoSessionMemoryKHR) ∧
        ((bindVideoSessionMemory env session memReqs).calls.filter
          (fun c => !c.isBind)).length = memReqs.length ∧
        bindInfos.length = memReqs.length ∧
        (∀ (i : Nat) (r : VideoSessionMemoryRequirements), memReqs[i]? = some r →
          bindInfos[i]? = some
            ({ memoryBindIndex := r.memoryBindIndex,
               memory := some (env.vkAllocateMemory i).2,
               memoryOffset := 0, memorySize := r.size } : BindVideoSessionMemoryInfo)) ∧
        (bindVideoSessionMemory env session memReqs).thrown =
          (if env.vkBindVideoSessionMemoryKHR ≠ VK_SUCCESS then
            some (.runtime_error "Failed to bind video session memory") else none)) ∧
    ((∃ i, i < memReqs.length ∧ (env.vkAllocateMemory i).1 ≠ VK_SUCCESS) →
      (bindVideoSessionMemory env session memReqs).thrown ≠ none ∧
      (bindVideoSessionMemory env session memReqs).calls.filter MemoryCall.isBind = []) := by
  constructor
  · intro hok
    obtain ⟨B, h1, h2, h3, h4, -, h6, h7⟩ := bindVideoSessionMemoryLoop_ok env session memReqs 0
      (List.replicate memReqs.length none)
      (List.replicate memReqs.length ({} : BindVideoSessionMemoryInfo))
      (by intro j r hj; simpa using hok j r hj) (by simp) (by simp)
    refine ⟨B, h1, h2, h3, by simpa using h4, ?_, h7⟩
    intro i r hi
    simpa using h6 i r hi
  · intro hfail
    obtain ⟨i, hi, hne⟩ := hfail
    exact bindVideoSessionMemoryLoop_fail env session memReqs 0 _ _
      ⟨i, hi, by simpa using hne⟩

/-- C20, at three requirements: on a driver where everything succeeds the only
bind call carries the three entries, and on a driver whose second allocation
fails an exception is thrown and no bind call is made. -/
theorem bindVideoSessionMemory_all_or_nothing_witness :
    (∃ bindInfos : List BindVideoSessionMemoryInfo,
      (bindVideoSessionMemory quietSessionMemoryEnv .decodeSession sampleMemReqs).calls.filter
          MemoryCall.isBind =
        [MemoryCall.vkBindVideoSessionMemoryKHR .decodeSession bindInfos 0] ∧
      bindInfos.length = 3 ∧
      bindInfos[1]? = some
        { memoryBindIndex := 1, memory := some 101, memoryOffset := 0, memorySize := 65536 }) ∧
    (bindVideoSessionMemory failingSessionMemoryEnv .decodeSession sampleMemReqs).thrown ≠
      none ∧
    (bindVideoSessionMemory failingSessionMemoryEnv .decodeSession sampleMemReqs).calls.filter
      MemoryCall.isBind = [] := by
  obtain ⟨B, h1, -, -, h4, h5, -⟩ :=
    (bindVideoSessionMemory_all_or_nothing quietSessionMemoryEnv .decodeSession
      sampleMemReqs).1 (by
        intro i r hi
        exact ⟨⟨0, rfl⟩, rfl⟩)
  have hfail := (bindVideoSessionMemory_all_or_nothing failingSessionMemoryEnv .decodeSession
      sampleMemReqs).2 ⟨1, by decide, by decide⟩
  exact ⟨⟨B, h1, h4, h5 1 _ rfl⟩, hfail⟩

/-! ## Profile lists of the video resources -/

theorem createFrameResourcesSlot_profilesMatch (env : FrameResourcesEnv)
    (decodeProfile encodeProfile : VideoProfileInfo) (width height i : Nat)
    (res : FrameResources) (h : res.ProfilesMatch decodeProfile encodeProfile) :
    (createFrameResourcesSlot env decodeProfile encodeProfile width height i
      res).1.ProfilesMatch decodeProfile encodeProfile := by
  obtain ⟨h1, h2, h3⟩ := h
  unfold createFrameResourcesSlot
  (repeat' split) <;> simp_all [FrameResources.ProfilesMatch]

theorem createFrameResourcesLoop_profilesMatch (env : FrameResourcesEnv)
    (decodeProfile encodeProfile : VideoProfileInfo) (width height : Nat) (remaining : Nat) :
    ∀ (i : Nat) (frameResources : List FrameResources),
      (∀ res ∈ frameResources, res.ProfilesMatch decodeProfile encodeProfile) →
      ∀ res ∈ (createFrameResourcesLoop env decodeProfile encodeProfile width height remaining i
        frameResources).1, res.ProfilesMatch decodeProfile encodeProfile := by
  induction remaining with
  | zero =>
    intro i frameResources h
    simpa [createFrameResourcesLoop] using h
  | succ remaining ih =>
    intro i frameResources h
    have hdefault : ({} : FrameResources).ProfilesMatch decodeProfile encodeProfile := by
      simp [FrameResources.ProfilesMatch]
    have hget : (frameResources.getD i {}).ProfilesMatch decodeProfile encodeProfile := by
      rw [List.getD_eq_getElem?_getD]
      cases hi : frameResources[i]? with
      | none => simpa using hdefault
      | some r => simpa using h r (List.getElem?_mem hi)
    have hslot := createFrameResourcesSlot_profilesMatch env decodeProfile encodeProfile width
      height i _ hget
    have hset : ∀ res ∈ frameResources.set i
        (createFrameResourcesSlot env decodeProfile encodeProfile width height i
          (frameResources.getD i {})).1, res.ProfilesMatch decodeProfile encodeProfile := by
      intro res hres
      rcases List.mem_or_eq_of_mem_set hres with hmem | heq
      · exact h res hmem
      · rw [heq]; exact hslot
    rw [createFrameResourcesLoop]
    split
    · rename_i r e hr
      rw [hr] at hset
      exact hset
    · rename_i r hr
      rw [hr] at hset
      exact ih (i + 1) _ hset

theorem createFrameResourcesSlot_created (env : FrameResourcesEnv)
    (decodeProfile encodeProfile : VideoProfileInfo) (width height i : Nat)
    (res : FrameResources)
    (h : (createFrameResourcesSlot env decodeProfile encodeProfile width height i res).2 = none) :
    (createFrameResourcesSlot env decodeProfile encodeProfile width height i res).1.Created
      decodeProfile encodeProfile width height := by
  unfold createFrameResourcesSlot at h ⊢
  (repeat' split at h) <;> simp_all [FrameResources.Created]

theorem createFrameResourcesLoop_created (env : FrameResourcesEnv)
    (decodeProfile encodeProfile : VideoProfileInfo) (width height : Nat) (remaining : Nat) :
    ∀ (i : Nat) (frameResources : List FrameResources),
      frameResources.length = i + remaining →
      (∀ j, j < i → ∃ r, frameResources[j]? = some r ∧
        r.Created decodeProfile encodeProfile width height) →
      (createFrameResourcesLoop env decodeProfile encodeProfile width height remaining i
        frameResources).2 = none →
      ∀ res ∈ (createFrameResourcesLoop env decodeProfile encodeProfile width height remaining i
        frameResources).1, res.Created decodeProfile encodeProfile width height := by
  induction remaining with
  | zero =>
    intro i frameResources hlen hdone _ res hres
    simp only [createFrameResourcesLoop] at hres
    obtain ⟨j, hj, hget⟩ := List.getElem_of_mem hres
    obtain ⟨r, hr, hcreated⟩ := hdone j (by omega)
    rw [List.getElem?_eq_getElem hj, hget] at hr
    cases hr
    exact hcreated
  | succ remaining ih =>
    intro i frameResources hlen hdone hnone
    rw [createFrameResourcesLoop] at hnone ⊢
    cases hslot : createFrameResourcesSlot env decodeProfile encodeProfile width height i
        (frameResources.getD i {}) with
    | mk slot thrown =>
      rw [hslot] at hnone
      cases thrown with
      | some e => simp at hnone
      | none =>
        simp only at hnone ⊢
        have hcreated : slot.Created decodeProfile encodeProfile width height := by
          have := createFrameResourcesSlot_created env decodeProfile encodeProfile width height
            i (frameResources.getD i {}) (by rw [hslot])
          rw [hslot] at this
          exact this
        apply ih (i + 1) (frameResources.set i slot) (by rw [List.length_set]; omega) _ hnone
        intro j hj
        by_cases hji : j = i
        · subst hji
          exact ⟨slot, by rw [List.getElem?_set_self (by omega)], hcreated⟩
        · obtain ⟨r, hr, hc⟩ := hdone j (by omega)
          exact ⟨r, by rw [List.getElem?_set_ne (Ne.symm hji)]; exact hr, hc⟩

/-- C21: on a transcoder whose profiles are `decodeProfile` and `encodeProfile`,
every buffer and image that `createFrameResources` and `createDpbImages` create
is created with the profile list of its video usage.  In every slot of the ring
the input staging buffer (usage `VIDEO_DECODE_SRC`) lists exactly the decode
profile, the output staging buffer (usage `VIDEO_ENCODE_DST`) exactly the encode
profile, and the decoded picture (usage `VIDEO_DECODE_DST | VIDEO_ENCODE_SRC`)
the decode profile and the encode profile; the decode DPB image (usage
`VIDEO_DECODE_DPB`) lists exactly the decode profile and the encode DPB image
(usage `VIDEO_ENCODE_DPB`) exactly the encode profile.  These resources are
created: when neither call of `createImage` throws, `createDpbImages` creates
both DPB images, and when `createFrameResources` throws nothing the ring has
`numFrameResources` slots, each holding its input staging buffer, its output
staging buffer and its decoded picture, created with exactly these
arguments. -/
theorem video_resources_profile_lists (numFrameResources : Nat) (frameEnv : FrameResourcesEnv)
    (initEnv : InitEnv) (demuxer : H264Demuxer) (self : VideoResources) :
    (∀ res ∈ (createFrameResources numFrameResources frameEnv self.decodeProfile
        self.encodeProfile demuxer).1,
      (∀ buffer, res.decodeBitstreamBuffer = some buffer →
        buffer.usage = VK_BUFFER_USAGE_VIDEO_DECODE_SRC_BIT_KHR ∧
        buffer.profiles = some [self.decodeProfile]) ∧
      (∀ buffer, res.encodeBitstreamBuffer = some buffer →
        buffer.usage = VK_BUFFER_USAGE_VIDEO_ENCODE_DST_BIT_KHR ∧
        buffer.profiles = some [self.encodeProfile]) ∧
      (∀ image, res.decodedImage = some image →
        image.usage =
          VK_IMAGE_USAGE_VIDEO_DECODE_DST_BIT_KHR ||| VK_IMAGE_USAGE_VIDEO_ENCODE_SRC_BIT_KHR ∧
        image.profiles = some [self.decodeProfile, self.encodeProfile])) ∧
    (∀ image,
      (createDpbImages initEnv demuxer
        { self with decodeDpbImage := none, encodeDpbImage := none }).1.decodeDpbImage =
          some image →
      image.usage = VK_IMAGE_USAGE_VIDEO_DECODE_DPB_BIT_KHR ∧
      image.profiles = some [self.decodeProfile]) ∧
    (∀ image,
      (createDpbImages initEnv demuxer
        { self with decodeDpbImage := none, encodeDpbImage := none }).1.encodeDpbImage =
          some image →
      image.usage = VK_IMAGE_USAGE_VIDEO_ENCODE_DPB_BIT_KHR ∧
      image.profiles = some [self.encodeProfile]) ∧
    ((createDpbImages initEnv demuxer
        { self with decodeDpbImage := none, encodeDpbImage := none }).2 = none →
      (createDpbImages initEnv demuxer
        { self with decodeDpbImage := none, encodeDpbImage := none }).1.decodeDpbImage =
        some
          { width := toUInt32 demuxer.getWidth, height := toUInt32 demuxer.getHeight,
            format := VK_FORMAT_G8_B8R8_2PLANE_420_UNORM,
            usage := VK_IMAGE_USAGE_VIDEO_DECODE_DPB_BIT_KHR, arrayLayers := DPB_SIZE,
            profiles := some [self.decodeProfile] } ∧
      (createDpbImages initEnv demuxer
        { self with decodeDpbImage := none, encodeDpbImage := none }).1.encodeDpbImage =
        some
          { width := toUInt32 demuxer.getWidth, height := toUInt32 demuxer.getHeight,
            format := VK_FORMAT_G8_B8R8_2PLANE_420_UNORM,
            usage := VK_IMAGE_USAGE_VIDEO_ENCODE_DPB_BIT_KHR, arrayLayers := DPB_SIZE,
            profiles := some [self.encodeProfile] }) ∧
    ((createFrameResources numFrameResources frameEnv self.decodeProfile self.encodeProfile
        demuxer).2 = none →
      (createFrameResources numFrameResources frameEnv self.decodeProfile self.encodeProfile
        demuxer).1.length = numFrameResources ∧
      ∀ res ∈ (createFrameResources numFrameResources frameEnv self.decodeProfile
          self.encodeProfile demuxer).1,
        res.decodeBitstreamBuffer = some
          { size := BITSTREAM_BUFFER_SIZE, usage := VK_BUFFER_USAGE_VIDEO_DECODE_SRC_BIT_KHR,
            properties :=
              VK_MEMORY_PROPERTY_HOST_VISIBLE_BIT ||| VK_MEMORY_PROPERTY_HOST_COHERENT_BIT,
            profiles := some [self.decodeProfile] } ∧
        res.encodeBitstreamBuffer = some
          { size := BITSTREAM_BUFFER_SIZE, usage := VK_BUFFER_USAGE_VIDEO_ENCODE_DST_BIT_KHR,
            properties :=
              VK_MEMORY_PROPERTY_HOST_VISIBLE_BIT ||| VK_MEMORY_PROPERTY_HOST_COHERENT_BIT,
            profiles := some [self.encodeProfile] } ∧
        res.decodedImage = some
          { width := toUInt32 demuxer.getWidth, height := toUInt32 demuxer.getHeight,
            format := VK_FORMAT_G8_B8R8_2PLANE_420_UNORM,
            usage :=
              VK_IMAGE_USAGE_VIDEO_DECODE_DST_BIT_KHR ||| VK_IMAGE_USAGE_VIDEO_ENCODE_SRC_BIT_KHR,
            arrayLayers := 1,
            profiles := some [self.decodeProfile, self.encodeProfile] }) := by
  refine ⟨?_, ?_, ?_, ?_, ?_⟩
  · intro res hres
    have := createFrameResourcesLoop_profilesMatch frameEnv self.decodeProfile self.encodeProfile
      (toUInt32 demuxer.getWidth) (toUInt32 demuxer.getHeight) numFrameResources 0
      (List.replicate numFrameResources ({} : FrameResources))
      (by
        intro r hr
        rw [List.eq_of_mem_replicate hr]
        simp [FrameResources.ProfilesMatch])
      res hres
    exact this
  · intro image
    unfold createDpbImages
    cases initEnv.createImageDecodeDpb <;> cases initEnv.createImageEncodeDpb <;> simp
    all_goals (intro h; subst h; simp)
  · intro image
    unfold createDpbImages
    cases initEnv.createImageDecodeDpb <;> cases initEnv.createImageEncodeDpb <;> simp
    intro h
    subst h
    simp
  · unfold createDpbImages
    cases initEnv.createImageDecodeDpb <;> cases initEnv.createImageEncodeDpb <;> simp
  · intro hnone
    refine ⟨by simp [createFrameResources, createFrameResourcesLoop_length], ?_⟩
    intro res hres
    exact createFrameResourcesLoop_created frameEnv self.decodeProfile self.encodeProfile
      (toUInt32 demuxer.getWidth) (toUInt32 demuxer.getHeight) numFrameResources 0
      (List.replicate numFrameResources ({} : FrameResources)) (by simp)
      (fun j hj => absurd hj (Nat.not_lt_zero j)) hnone res hres

/-- C21, at the ring of one slot created on a driver where every call succeeds,
for a 320x240 input: nothing is thrown, the ring has one slot, and that slot
holds the input staging buffer with the decode profile, the output staging
buffer with the encode profile and the decoded picture with both. -/
theorem video_resources_profile_lists_witness :
    (createFrameResources 1 quietFrameResourcesEnv sampleDecodeProfile sampleEncodeProfile
      (transcoderOn []).demuxer).2 = none ∧
    (createFrameResources 1 quietFrameResourcesEnv sampleDecodeProfile sampleEncodeProfile
      (transcoderOn []).demuxer).1.length = 1 ∧
    ∀ res ∈ (createFrameResources 1 quietFrameResourcesEnv sampleDecodeProfile
        sampleEncodeProfile (transcoderOn []).demuxer).1,
      res.decodeBitstreamBuffer = some
        { size := 2097152, usage := 0x2000, properties := 6,
          profiles := some [sampleDecodeProfile] } ∧
      res.encodeBitstreamBuffer = some
        { size := 2097152, usage := 0x8000, properties := 6,
          profiles := some [sampleEncodeProfile] } ∧
      res.decodedImage = some
        { width := 320, height := 240, format := 1000156003, usage := 0x4400,
          arrayLayers := 1, profiles := some [sampleDecodeProfile, sampleEncodeProfile] } :=
  have hnone : (createFrameResources 1 quietFrameResourcesEnv sampleDecodeProfile
      sampleEncodeProfile (transcoderOn []).demuxer).2 = none := by decide
  ⟨hnone,
    (video_resources_profile_lists 1 quietFrameResourcesEnv quietInitEnv
      (transcoderOn []).demuxer
      { decodeProfile := sampleDecodeProfile, encodeProfile := sampleEncodeProfile }).2.2.2.2
        hnone⟩

/-! ## The muxer: header, parameter sets and trailer -/

theorem writePackets_of_headerWritten (calls : List WritePacketCall) :
    ∀ (self : H265Muxer), self.headerWritten = true →
      self.writePackets calls =
        (calls.map (fun call =>
          Event.av_interleaved_write_frame (call.packet self.videoStreamIndex) call.frameRet),
          self, none) := by
  induction calls with
  | nil => intro self _; rfl
  | cons call rest ih =>
    intro self h
    have hstep : self.writePacket call.headerRet call.frameRet call.data call.pts =
        ([Event.av_interleaved_write_frame (call.packet self.videoStreamIndex) call.frameRet],
          self, none) := by
      cases self with
      | mk hw vs =>
        simp only at h
        subst h
        simp [H265Muxer.writePacket, WritePacketCall.packet]
    rw [H265Muxer.writePackets, hstep]
    simp [ih self h]

/-- C28: on a muxer whose header is not yet written, when the calls
`first, rest...` of `writePacket` (n >= 1 of them) all return without throwing,
the calls of the container library are `avformat_write_header` once, as the very
first call, followed by one `av_interleaved_write_frame` per `writePacket` in
order: the header is written exactly once, before the first packet, and no later
call writes it again. -/
theorem writePacket_header_once (self : H265Muxer) (first : WritePacketCall)
    (rest : List WritePacketCall) (hfresh : self.headerWritten = false)
    (hok : (self.writePackets (first :: rest)).2.2 = none) :
    (self.writePackets (first :: rest)).1 =
      Event.avformat_write_header first.headerRet ::
        (first :: rest).map (fun call =>
          Event.av_interleaved_write_frame (call.packet self.videoStreamIndex) call.frameRet) ∧
    ((self.writePackets (first :: rest)).1.filter Event.isWriteHeader).length = 1 ∧
    (self.writePackets (first :: rest)).2.1.headerWritten = true := by
  have hheader : 0 ≤ first.headerRet := by
    by_contra hneg
    have hlt : first.headerRet < 0 := by omega
    have : (self.writePackets (first :: rest)).2.2 ≠ none := by
      cases self with
      | mk hw vs =>
        simp only at hfresh
        subst hfresh
        simp [H265Muxer.writePackets, H265Muxer.writePacket, H265Muxer.writeHeader, hlt]
    exact this hok
  have hstep := writePacket_of_header_ok first.headerRet first.frameRet self first.data
    first.pts hheader
  have hrest := writePackets_of_headerWritten rest { self with headerWritten := true } rfl
  have hall : self.writePackets (first :: rest) =
      (Event.avformat_write_header first.headerRet ::
        (first :: rest).map (fun call =>
          Event.av_interleaved_write_frame (call.packet self.videoStreamIndex) call.frameRet),
        { self with headerWritten := true }, none) := by
    rw [H265Muxer.writePackets, hstep]
    simp [hrest, hfresh, WritePacketCall.packet]
  rw [hall]
  refine ⟨rfl, ?_, rfl⟩
  simp [List.filter_cons, Event.isWriteHeader, List.filter_eq_nil_iff]

/-- C28, at three calls on a freshly constructed muxer, the second of which
fails to write its packet (a warning only): one header, then three packets. -/
theorem writePacket_header_once_witness :
    ((({} : H265Muxer).writePackets
        [⟨0, 0, [1], 0⟩, ⟨0, -5, [2], 1⟩, ⟨0, 0, [3], 2⟩]).1.filter
      Event.isWriteHeader).length = 1 ∧
    (({} : H265Muxer).writePackets
        [⟨0, 0, [1], 0⟩, ⟨0, -5, [2], 1⟩, ⟨0, 0, [3], 2⟩]).1.head? =
      some (Event.avformat_write_header 0) :=
  have h := writePacket_header_once {} ⟨0, 0, [1], 0⟩ [⟨0, -5, [2], 1⟩, ⟨0, 0, [3], 2⟩]
    rfl (by decide)
  ⟨h.2.1, by rw [h.1]; rfl⟩

/-- C26, the code: whatever `vps`, `sps` and `pps` are, after
`setCodecParameters` on a constructed muxer (with the buffer allocated) the
extradata of the output stream holds no byte and `extradata_size` is 0; the
three vectors are not read.  For `vps = [64, 1]`, `sps = [66, 1]`,
`pps = [68, 1]` the size is 0 although the vectors are not empty. -/
theorem setCodecParameters_extradata_empty (formatContext : FormatContext)
    (members : H265Muxer) (vps sps pps : List Nat) :
    H265MuxerObject.setCodecParameters true
        { formatContext := some formatContext, members := members } vps sps pps =
      ([HostCall.av_malloc AV_INPUT_BUFFER_PADDING_SIZE true],
        { formatContext := some { formatContext with extradata := some [], extradata_size := 0 },
          members := members },
        none) ∧
    ((H265MuxerObject.setCodecParameters true
        { formatContext := some formatContext, members := members }
        [64, 1] [66, 1] [68, 1]).2.1.formatContext.map FormatContext.extradata_size) =
      some 0 := by
  constructor <;> simp [H265MuxerObject.setCodecParameters]

/-- C29, the code: the destructor of a constructed muxer calls
`av_write_trailer` whether or not the header was written; the call does not
depend on `headerWritten`.  On an input without video packets, in a world where
every call succeeds, `main` returns 0 and the calls of the container library are
those listed: `av_write_trailer` is called and `avformat_write_header` never
was. -/
theorem destructor_writes_trailer_without_header (formatContext : FormatContext)
    (members : H265Muxer) :
    HostCall.av_write_trailer ∈
      H265MuxerObject.destroy { formatContext := some formatContext, members := members } ∧
    H265MuxerObject.destroy { formatContext := some formatContext, members := members } =
      H265MuxerObject.destroy
        { formatContext := some formatContext,
          members := { members with headerWritten := false } } ∧
    main (quietWorld []) =
      { calls :=
          [ HostCall.avformat_open_input 0, HostCall.avformat_find_stream_info 0,
            HostCall.av_find_best_stream 0, HostCall.avformat_alloc_output_context2 0,
            HostCall.avformat_new_stream true, HostCall.avio_open 0,
            HostCall.frame (Event.av_read_frame (-1)), HostCall.frame Event.av_packet_free,
            HostCall.vkDeviceWaitIdle, HostCall.av_write_trailer, HostCall.avio_closep,
            HostCall.avformat_free_context, HostCall.avformat_close_input ],
        caught := none, exitCode := some 0 } := by
  refine ⟨?_, rfl, by decide⟩
  simp [H265MuxerObject.destroy]

/-! ## The exit status of `main` and the checks of the demuxer -/

/-- C27: `main` always ends with an exit status, which is `EXIT_SUCCESS` (0) or
`EXIT_FAILURE` (1); it is 0 if and only if `argc` is 3 (two positional
arguments), `initVulkan` throws nothing, the constructor of `VideoTranscoder`
yields a transcoder, and the transcode loop of that transcoder returns without
throwing. -/
theorem main_exit_code (world : World) :
    ∃ code, (main world).exitCode = some code ∧
      (code = EXIT_SUCCESS ∨ code = EXIT_FAILURE) ∧
      (code = EXIT_SUCCESS ↔
        world.argc = 3 ∧ (initVulkan world.driver {}).2 = none ∧
        ∃ transcoder : TranscoderObject,
          (VideoTranscoder.construct NUM_FRAME_RESOURCES
            (some (initVulkan world.driver {}).1) world.input world.output
            world.initEnv).2 = .object transcoder ∧
          (transcoder.members.transcodeLoop NUM_FRAME_RESOURCES world.env).outcome =
            .returned) := by
  unfold main
  by_cases hargc : world.argc = 3
  · simp only [hargc, ne_eq, not_true_eq_false, if_false, true_and]
    cases hv : initVulkan world.driver {} with
    | mk vulkanBase thrown =>
      cases thrown with
      | some e =>
        exact ⟨EXIT_FAILURE, rfl, Or.inr rfl, by simp [EXIT_SUCCESS, EXIT_FAILURE]⟩
      | none =>
        simp only
        cases hc : VideoTranscoder.construct NUM_FRAME_RESOURCES (some vulkanBase) world.input
            world.output world.initEnv with
        | mk calls constructed =>
          cases constructed with
          | threw e =>
            exact ⟨EXIT_FAILURE, rfl, Or.inr rfl, by simp [EXIT_SUCCESS, EXIT_FAILURE]⟩
          | object transcoder =>
            simp only
            cases ho : (transcoder.members.transcodeLoop NUM_FRAME_RESOURCES world.env).outcome with
            | returned =>
              exact ⟨EXIT_SUCCESS, rfl, Or.inl rfl, by simp [ho]⟩
            | threw e =>
              exact ⟨EXIT_FAILURE, rfl, Or.inr rfl, by simp [EXIT_SUCCESS, EXIT_FAILURE, ho]⟩
            | outOfFuel =>
              exact absurd ho (transcodeLoop_outcome_ne_outOfFuel _ _ _)
  · exact ⟨EXIT_FAILURE, by simp [hargc], Or.inr rfl, by simp [EXIT_SUCCESS, EXIT_FAILURE, hargc]⟩

theorem createLogicalDevice_device (driver : VulkanDriver) (self : VulkanBase)
    (h : (createLogicalDevice driver self).2 = none) :
    (createLogicalDevice driver self).1.device ≠ none := by
  unfold createLogicalDevice at h ⊢
  simp only at h ⊢
  cases hd : (findQueueFamilies (adapterOf driver self.physicalDevice)).decodeFamily <;>
    cases he : (findQueueFamilies (adapterOf driver self.physicalDevice)).encodeFamily <;>
    simp only [hd, he] at h ⊢
  · simp at h
  · simp at h
  · simp at h
  · by_cases hc : driver.vkCreateDevice = VK_SUCCESS
    · simp [hc]
    · simp [hc] at h

theorem initVulkan_device (driver : VulkanDriver) (self : VulkanBase)
    (h : (initVulkan driver self).2 = none) : (initVulkan driver self).1.device ≠ none := by
  unfold initVulkan at h ⊢
  cases h1 : createInstance driver self with
  | mk self1 e1 =>
    rw [h1] at h
    cases e1 with
    | some e => simp at h
    | none =>
      simp only at h ⊢
      cases h2 : pickPhysicalDevice driver self1 with
      | mk self2 e2 =>
        rw [h2] at h
        cases e2 with
        | some e => simp at h
        | none =>
          simp only at h ⊢
          exact createLogicalDevice_device driver self2 h

theorem H264Demuxer.construct_not_h264 (input : InputFile) (hopen : input.avformat_open_input = 0)
    (hinfo : 0 ≤ input.avformat_find_stream_info) (hbest : 0 ≤ input.av_find_best_stream)
    (hcodec : input.codecpar.codec_id ≠ AV_CODEC_ID_H264) :
    H264Demuxer.construct input =
      ([HostCall.avformat_open_input input.avformat_open_input,
        HostCall.avformat_find_stream_info input.avformat_find_stream_info,
        HostCall.av_find_best_stream input.av_find_best_stream,
        HostCall.avformat_close_input],
        .threw (.runtime_error "FFmpeg: Video stream is not H.264")) := by
  have h1 : ¬ input.avformat_find_stream_info < 0 := by omega
  have h2 : ¬ input.av_find_best_stream < 0 := by omega
  simp [H264Demuxer.construct, hopen, h1, h2, hcodec]

theorem H264Demuxer.construct_h264 (input : InputFile) (hopen : input.avformat_open_input = 0)
    (hinfo : 0 ≤ input.avformat_find_stream_info) (hbest : 0 ≤ input.av_find_best_stream)
    (hcodec : input.codecpar.codec_id = AV_CODEC_ID_H264) :
    H264Demuxer.construct input =
      ([HostCall.avformat_open_input input.avformat_open_input,
        HostCall.avformat_find_stream_info input.avformat_find_stream_info,
        HostCall.av_find_best_stream input.av_find_best_stream],
        .object
          { videoStreamIndex := input.av_find_best_stream,
            codecParameters := some input.codecpar,
            sps_pps_data := input.codecpar.extradata,
            pending := input.packets }) := by
  have h1 : ¬ input.avformat_find_stream_info < 0 := by omega
  have h2 : ¬ input.av_find_best_stream < 0 := by omega
  cases hx : input.codecpar.extradata with
  | nil => simp [H264Demuxer.construct, hopen, h1, h2, hcodec, hx]
  | cons b bs => simp [H264Demuxer.construct, hopen, h1, h2, hcodec, hx]

/-- C24: for an input that the container library opens, for which it finds
stream information and a best video stream: when the codec of that stream is
not H.264 the constructor of the demuxer closes the input and throws
`runtime_error("FFmpeg: Video stream is not H.264")`, and every run of `main` on
that input ends with `EXIT_FAILURE` without a single call that sets up, writes
or finalises the output (the muxer is never constructed, so no trailer is
written), the exception caught being that one whenever `main` gets as far as
the demuxer; when the codec is H.264 the constructor yields a demuxer. -/
theorem non_h264_input_rejected (input : InputFile) (hopen : input.avformat_open_input = 0)
    (hinfo : 0 ≤ input.avformat_find_stream_info) (hbest : 0 ≤ input.av_find_best_stream) :
    (input.codecpar.codec_id ≠ AV_CODEC_ID_H264 →
      H264Demuxer.construct input =
        ([HostCall.avformat_open_input input.avformat_open_input,
          HostCall.avformat_find_stream_info input.avformat_find_stream_info,
          HostCall.av_find_best_stream input.av_find_best_stream,
          HostCall.avformat_close_input],
          .threw (.runtime_error "FFmpeg: Video stream is not H.264")) ∧
      ∀ world : World, world.input = input →
        (main world).exitCode = some EXIT_FAILURE ∧
        (main world).calls.filter HostCall.isMuxerCall = [] ∧
        (world.argc = 3 → (initVulkan world.driver {}).2 = none →
          (main world).caught = some (.runtime_error "FFmpeg: Video stream is not H.264"))) ∧
    (input.codecpar.codec_id = AV_CODEC_ID_H264 →
      ∃ demuxer, (H264Demuxer.construct input).2 = .object demuxer) := by
  constructor
  · intro hcodec
    have hdemux := H264Demuxer.construct_not_h264 input hopen hinfo hbest hcodec
    refine ⟨hdemux, ?_⟩
    intro world hworld
    subst hworld
    unfold main
    by_cases hargc : world.argc = 3
    · simp only [hargc, ne_eq, not_true_eq_false, if_false, true_implies]
      cases hv : initVulkan world.driver {} with
      | mk vulkanBase thrown =>
        cases thrown with
        | some e => simp
        | none =>
          have hdevice : vulkanBase.device ≠ none := by
            have := initVulkan_device world.driver {} (by rw [hv])
            rw [hv] at this
            exact this
          simp [VideoTranscoder.construct, hdevice, hdemux, HostCall.isMuxerCall]
    · simp [hargc]
  · intro hcodec
    exact ⟨_, by rw [H264Demuxer.construct_h264 input hopen hinfo hbest hcodec]⟩

/-- C24, at an input whose best video stream is H.265, in a world where
everything else succeeds: `main` ends with 1, the muxer is never set up, and
the exception caught is the one of the demuxer. -/
theorem non_h264_input_rejected_witness :
    (main (worldWithInput inputHevc)).exitCode = some EXIT_FAILURE ∧
    (main (worldWithInput inputHevc)).calls.filter HostCall.isMuxerCall = [] ∧
    (main (worldWithInput inputHevc)).caught =
      some (.runtime_error "FFmpeg: Video stream is not H.264") :=
  have h := ((non_h264_input_rejected inputHevc rfl (by decide) (by decide)).1
    (by decide)).2 (worldWithInput inputHevc) rfl
  ⟨h.1, h.2.1, h.2.2 rfl (by decide)⟩

/-- C23, refuted as stated: on an H.264 input whose video track carries no
extradata, the constructor of the demuxer yields a demuxer with an empty
parameter-set vector, and in a world where every call succeeds `main` ends with
0 after the frame was transcoded and the trailer written. -/
theorem demuxer_accepts_missing_extradata :
    (inputWithoutExtradata [⟨0, 100⟩]).codecpar.extradata.length = 0 ∧
    (H264Demuxer.construct (inputWithoutExtradata [⟨0, 100⟩])).2 =
      .object
        { videoStreamIndex := 0,
          codecParameters := some (inputWithoutExtradata [⟨0, 100⟩]).codecpar,
          sps_pps_data := [],
          pending := [⟨0, 100⟩] } ∧
    (main (worldWithInput (inputWithoutExtradata [⟨0, 100⟩]))).exitCode = some EXIT_SUCCESS ∧
    (main (worldWithInput (inputWithoutExtradata [⟨0, 100⟩]))).caught = none ∧
    HostCall.frame (Event.avformat_write_header 0) ∈
      (main (worldWithInput (inputWithoutExtradata [⟨0, 100⟩]))).calls ∧
    HostCall.av_write_trailer ∈
      (main (worldWithInput (inputWithoutExtradata [⟨0, 100⟩]))).calls := by
  refine ⟨by decide, by decide, by decide, by decide, by decide, by decide⟩

/-- C23, amended: for every input whose video track carries no extradata, when
the container opens, stream information and a best video stream are found and
that stream is H.264, the constructor of the demuxer throws nothing: it yields
a demuxer whose parameter-set vector is empty (a warning is all it prints), and
the constructor of the transcoder goes on to set up the muxer. -/
theorem missing_extradata_accepted (input : InputFile) (hopen : input.avformat_open_input = 0)
    (hinfo : 0 ≤ input.avformat_find_stream_info) (hbest : 0 ≤ input.av_find_best_stream)
    (hcodec : input.codecpar.codec_id = AV_CODEC_ID_H264)
    (hextradata : input.codecpar.extradata = []) :
    H264Demuxer.construct input =
      ([HostCall.avformat_open_input input.avformat_open_input,
        HostCall.avformat_find_stream_info input.avformat_find_stream_info,
        HostCall.av_find_best_stream input.av_find_best_stream],
        .object
          { videoStreamIndex := input.av_find_best_stream,
            codecParameters := some input.codecpar,
            sps_pps_data := [],
            pending := input.packets }) ∧
    ∀ (numFrameResources : Nat) (vulkanBase : VulkanBase) (output : OutputFile) (env : InitEnv),
      vulkanBase.device ≠ none →
      ∃ calls,
        (VideoTranscoder.construct numFrameResources (some vulkanBase) input output env).1 =
          [HostCall.avformat_open_input input.avformat_open_input,
            HostCall.avformat_find_stream_info input.avformat_find_stream_info,
            HostCall.av_find_best_stream input.av_find_best_stream,
            HostCall.avformat_alloc_output_context2 output.avformat_alloc_output_context2] ++
            calls := by
  have hdemux := H264Demuxer.construct_h264 input hopen hinfo hbest hcodec
  rw [hextradata] at hdemux
  refine ⟨hdemux, ?_⟩
  intro numFrameResources vulkanBase output env hdevice
  unfold VideoTranscoder.construct
  simp only [hdevice, if_false, hdemux]
  cases hm : H265Muxer.construct output
      (H264Demuxer.getWidth
        { videoStreamIndex := input.av_find_best_stream,
          codecParameters := some input.codecpar, sps_pps_data := [],
          pending := input.packets })
      (H264Demuxer.getHeight
        { videoStreamIndex := input.av_find_best_stream,
          codecParameters := some input.codecpar, sps_pps_data := [],
          pending := input.packets }) 30 with
  | mk created constructed =>
    have hcreated : ∃ tail, created =
        HostCall.avformat_alloc_output_context2 output.avformat_alloc_output_context2 ::
          tail := by
      unfold H265Muxer.construct at hm
      split at hm
      · exact ⟨_, (Prod.mk.inj hm).1.symm⟩
      · split at hm
        · exact ⟨_, (Prod.mk.inj hm).1.symm⟩
        · split at hm
          · split at hm
            · exact ⟨_, (Prod.mk.inj hm).1.symm⟩
            · exact ⟨_, (Prod.mk.inj hm).1.symm⟩
          · exact ⟨_, (Prod.mk.inj hm).1.symm⟩
    obtain ⟨tail, rfl⟩ := hcreated
    cases constructed with
    | threw e =>
      simp only [List.append_assoc, List.cons_append, List.nil_append]
      exact ⟨_, rfl⟩
    | object muxer =>
      simp only
      split
      · simp only [List.append_assoc, List.cons_append, List.nil_append]
        exact ⟨_, rfl⟩
      · simp only [List.append_assoc, List.cons_append, List.nil_append]
        exact ⟨_, rfl⟩

/-- C23, amended, at the H.264 input without extradata. -/
theorem missing_extradata_accepted_witness :
    (H264Demuxer.construct (inputWithoutExtradata [⟨0, 100⟩])).2 =
      .object
        { videoStreamIndex := 0,
          codecParameters := some (inputWithoutExtradata [⟨0, 100⟩]).codecpar,
          sps_pps_data := [],
          pending := [⟨0, 100⟩] } :=
  congrArg Prod.snd
    (missing_extradata_accepted (inputWithoutExtradata [⟨0, 100⟩]) rfl (by decide) (by decide)
      rfl rfl).1

/-! ## Failures after the muxer has been opened -/

theorem H265Muxer.construct_destroy (output : OutputFile) (width height fps : Int)
    (created : List HostCall) (muxer : H265MuxerObject)
    (h : H265Muxer.construct output width height fps = (created, .object muxer)) :
    muxer.destroy =
      [HostCall.av_write_trailer] ++
        (if output.noFile then [] else [HostCall.avio_closep]) ++
        [HostCall.avformat_free_context] := by
  unfold H265Muxer.construct at h
  split at h
  · simp at h
  · split at h
    · simp at h
    · split at h
      · rename_i hfile
        split at h
        · simp at h
        · obtain ⟨-, hobject⟩ := Prod.mk.inj h
          injection hobject with hobject
          subst hobject
          simp at hfile
          simp [H265MuxerObject.destroy, hfile]
      · rename_i hfile
        obtain ⟨-, hobject⟩ := Prod.mk.inj h
        injection hobject with hobject
        subst hobject
        simp at hfile
        simp [H265MuxerObject.destroy, hfile]

theorem filter_isTrailer_frame (events : List Event) :
    (events.map HostCall.frame).filter HostCall.isTrailer = [] := by
  rw [List.filter_eq_nil_iff]
  intro call hcall
  obtain ⟨e, -, rfl⟩ := List.mem_map.mp hcall
  simp [HostCall.isTrailer]

/-- C22, the code: in a world where the creation of the decode session fails
(the muxer is open by then), `main` ends with 1 and the calls of the container
library are those listed: the muxer's destructor has called `av_write_trailer`
on the output, whose header was never written.  The same holds in a world where
the transcode loop fails at the first frame because the container header cannot
be written. -/
theorem trailer_written_after_failure :
    main worldDecodeSessionFails =
      { calls :=
          [ HostCall.avformat_open_input 0, HostCall.avformat_find_stream_info 0,
            HostCall.av_find_best_stream 0, HostCall.avformat_alloc_output_context2 0,
            HostCall.avformat_new_stream true, HostCall.avio_open 0,
            HostCall.av_write_trailer, HostCall.avio_closep,
            HostCall.avformat_free_context, HostCall.avformat_close_input ],
        caught := some (.runtime_error "Failed to create decode session!"),
        exitCode := some 1 } ∧
    (main worldHeaderFails).exitCode = some 1 ∧
    (main worldHeaderFails).caught =
      some (.runtime_error "Muxer: Error occurred when writing header") ∧
    HostCall.av_write_trailer ∈ (main worldHeaderFails).calls := by
  refine ⟨by decide, by decide, by decide, by decide⟩

/-- In every run of `main` in which the muxer has been opened, whether or not a
component fails after that (during `init` or inside the transcode loop), the
muxer is destroyed and its destructor makes the same calls: `av_write_trailer`
once, then `avio_closep` (unless the format has `AVFMT_NOFILE`) and
`avformat_free_context`, followed by the closing of the input; no trailer call
is made before that. -/
theorem muxer_destroyed_after_failure (world : World) (opened created : List HostCall)
    (demuxer : H264Demuxer) (muxer : H265MuxerObject) (hargc : world.argc = 3)
    (hvulkan : (initVulkan world.driver {}).2 = none)
    (hdemuxer : H264Demuxer.construct world.input = (opened, .object demuxer))
    (hmuxer : H265Muxer.construct world.output demuxer.getWidth demuxer.getHeight 30 =
      (created, .object muxer)) :
    ∃ middle : List HostCall,
      (main world).calls =
        opened ++ created ++ middle ++
          ([HostCall.av_write_trailer] ++
            (if world.output.noFile then [] else [HostCall.avio_closep]) ++
            [HostCall.avformat_free_context]) ++
          [HostCall.avformat_close_input] ∧
      middle.filter HostCall.isTrailer = [] := by
  have hdestroy := H265Muxer.construct_destroy _ _ _ _ _ _ hmuxer
  unfold main
  simp only [hargc, ne_eq, not_true_eq_false, if_false]
  cases hv : initVulkan world.driver {} with
  | mk vulkanBase thrown =>
    rw [hv] at hvulkan
    simp only at hvulkan
    subst hvulkan
    have hdevice : vulkanBase.device ≠ none := by
      have := initVulkan_device world.driver {} (by rw [hv])
      rw [hv] at this
      exact this
    simp only [VideoTranscoder.construct, hdevice, if_false, hdemuxer, hmuxer]
    cases hi : init NUM_FRAME_RESOURCES world.initEnv vulkanBase demuxer {} with
    | mk resources thrown =>
      cases thrown with
      | some e =>
        refine ⟨[], ?_, rfl⟩
        simp [hdestroy, H264Demuxer.destroy]
      | none =>
        simp only
        refine ⟨List.map HostCall.frame
          (VideoTranscoder.transcodeLoop NUM_FRAME_RESOURCES world.env
            { vulkanBase := vulkanBase, demuxer := demuxer, muxer := muxer.members,
              currentFrame := 0 }).events ++ [HostCall.vkDeviceWaitIdle], ?_, ?_⟩
        · have hd : ∀ m : H265Muxer,
              H265MuxerObject.destroy { formatContext := muxer.formatContext, members := m } =
                [HostCall.av_write_trailer] ++
                  (if world.output.noFile then [] else [HostCall.avio_closep]) ++
                  [HostCall.avformat_free_context] := by
            intro m
            rw [← hdestroy]
            rfl
          split <;>
            simp [TranscoderObject.destroy, TranscoderObject.muxer, hd, H264Demuxer.destroy]
        · rw [List.filter_append, filter_isTrailer_frame]
          simp [HostCall.isTrailer]

/-! ## Failures inside the transcode loop -/

theorem transcodeRun_outcome_threw (N : Nat) (env : Env)
    (hheader : env.avformat_write_header < 0) (l : List AVPacket) :
    ∀ (n : Nat) (self : VideoTranscoder) (fc : Int), self.muxer.headerWritten = false →
      (∃ p ∈ l, p.stream_index = self.demuxer.videoStreamIndex) →
      (transcodeRun N env l n self fc).outcome =
        .threw (.runtime_error "Muxer: Error occurred when writing header") := by
  induction l with
  | nil => intro n self fc _ h; simp at h
  | cons p rest ih =>
    intro n self fc hw hvideo
    by_cases hp : p.stream_index = self.demuxer.videoStreamIndex
    · simp [transcodeRun, hp, H265Muxer.writePacket, H265Muxer.writeHeader, hw, hheader]
    · have hrest : ∃ q ∈ rest, q.stream_index = self.demuxer.videoStreamIndex := by
        obtain ⟨q, hq, hqv⟩ := hvideo
        rcases List.mem_cons.mp hq with rfl | hq
        · exact absurd hqv hp
        · exact ⟨q, hq, hqv⟩
      rw [(transcodeRun_cons_skip N env p rest n self fc hp).2.1]
      exact ih n self fc hw hrest

theorem transcodeRun_outcome_returned (N : Nat) (env : Env) (l : List AVPacket) :
    ∀ (n : Nat) (self : VideoTranscoder) (fc : Int),
      ¬ (env.avformat_write_header < 0 ∧ self.muxer.headerWritten = false ∧
        ∃ p ∈ l, p.stream_index = self.demuxer.videoStreamIndex) →
      (transcodeRun N env l n self fc).outcome = .returned := by
  induction l with
  | nil => intro n self fc _; simp [transcodeRun]
  | cons p rest ih =>
    intro n self fc hcond
    by_cases hp : p.stream_index = self.demuxer.videoStreamIndex
    · have hok : ¬ (env.avformat_write_header < 0 ∧ self.muxer.headerWritten = false) := by
        intro h
        exact hcond ⟨h.1, h.2, p, by simp, hp⟩
      cases hw : self.muxer.headerWritten with
      | true =>
        simp only [transcodeRun, hp, if_true, H265Muxer.writePacket, hw, Bool.not_true,
          Bool.false_eq_true, if_false]
        apply ih
        simp [hw]
      | false =>
        have hheader : ¬ env.avformat_write_header < 0 := fun h => hok ⟨h, hw⟩
        simp only [transcodeRun, hp, if_true, H265Muxer.writePacket, hw, Bool.not_false,
          if_true, H265Muxer.writeHeader, hheader, if_false]
        apply ih
        simp
    · rw [(transcodeRun_cons_skip N env p rest n self fc hp).2.1]
      apply ih
      intro h
      obtain ⟨h1, h2, q, hq, hqv⟩ := h
      exact hcond ⟨h1, h2, q, by simp [hq], hqv⟩

theorem transcodeLoop_outcome_eq (N : Nat) (env : Env) (self : VideoTranscoder) :
    (self.transcodeLoop N env).outcome =
      if env.av_packet_alloc = true then
        if env.avformat_write_header < 0 ∧ self.muxer.headerWritten = false ∧
            ∃ p ∈ self.demuxer.pending, p.stream_index = self.demuxer.videoStreamIndex then
          .threw (.runtime_error "Muxer: Error occurred when writing header")
        else .returned
      else .threw (.runtime_error "Failed to allocate AVPacket") := by
  by_cases halloc : env.av_packet_alloc = true
  · rw [transcodeLoop_eq_transcodeRun N env self halloc, if_pos halloc]
    by_cases hcond : env.avformat_write_header < 0 ∧ self.muxer.headerWritten = false ∧
        ∃ p ∈ self.demuxer.pending, p.stream_index = self.demuxer.videoStreamIndex
    · rw [if_pos hcond]
      exact transcodeRun_outcome_threw N env hcond.1 _ _ _ _ hcond.2.1 hcond.2.2
    · rw [if_neg hcond]
      exact transcodeRun_outcome_returned N env _ _ _ _ hcond
  · rw [if_neg halloc]
    simp [VideoTranscoder.transcodeLoop, halloc]

theorem writePacketCalls_stageAndSubmit (env : Env) (n : Nat) (self : VideoTranscoder)
    (packet : AVPacket) : writePacketCalls (self.stageAndSubmit env n packet) = [] := by
  simp [writePacketCalls, VideoTranscoder.stageAndSubmit,
    VideoTranscoder.recordDecodeCommandBuffer, VideoTranscoder.recordEncodeCommandBuffer,
    VideoTranscoder.submitWork]

theorem writePacketCalls_writePacket (headerRet frameRet : Int) (m : H265Muxer)
    (data : List Nat) (pts : Int) :
    writePacketCalls (m.writePacket headerRet frameRet data pts).1 = [] := by
  unfold H265Muxer.writePacket H265Muxer.writeHeader
  cases m.headerWritten <;> by_cases h : headerRet < 0 <;> simp [h, writePacketCalls]

theorem writePacket_state (headerRet frameRet other : Int) (m : H265Muxer) (data : List Nat)
    (pts : Int) :
    (m.writePacket headerRet frameRet data pts).2 = (m.writePacket headerRet other data pts).2 := by
  unfold H265Muxer.writePacket H265Muxer.writeHeader
  cases m.headerWritten <;> by_cases h : headerRet < 0 <;> simp [h]

theorem transcodeRun_writePacketCalls_video (N : Nat) (env : Env) (p : AVPacket)
    (rest : List AVPacket) (n : Nat) (self : VideoTranscoder) (fc : Int)
    (hp : p.stream_index = self.demuxer.videoStreamIndex) :
    writePacketCalls (transcodeRun N env (p :: rest) n self fc).events =
      (encodedData env n, fc) ::
        (match (self.muxer.writePacket env.avformat_write_header
            (env.av_interleaved_write_frame n) (encodedData env n) fc).2 with
        | (_, some _) => []
        | (muxer, none) =>
          writePacketCalls
            (transcodeRun N env rest (n + 1)
              { self with
                demuxer := { self.demuxer with pending := rest },
                muxer := muxer,
                currentFrame := (self.currentFrame + 1) % 2 ^ 32 % N }
              (toInt32 (fc + 1))).events) := by
  simp only [transcodeRun, hp, if_true]
  have hmux := writePacketCalls_writePacket env.avformat_write_header
    (env.av_interleaved_write_frame n) self.muxer (encodedData env n) fc
  cases hw : self.muxer.writePacket env.avformat_write_header
      (env.av_interleaved_write_frame n) (encodedData env n) fc with
  | mk mux state =>
    rw [hw] at hmux
    simp only at hmux
    cases state with
    | mk muxer thrown =>
      cases thrown with
      | some e =>
        simp only
        have hsplit : ∀ (S : List Event),
            (Event.av_read_frame 0 :: S ++ Event.writePacket (encodedData env n) fc :: mux) =
              [Event.av_read_frame 0] ++ S ++ [Event.writePacket (encodedData env n) fc] ++
                mux := by
          intro S; simp
        rw [hsplit]
        simp only [writePacketCalls_append, writePacketCalls_stageAndSubmit, hmux]
        simp [writePacketCalls]
      | none =>
        simp only
        have hsplit : ∀ (S R : List Event),
            (Event.av_read_frame 0 :: S ++ Event.writePacket (encodedData env n) fc :: mux ++
                Event.av_packet_unref p :: R) =
              [Event.av_read_frame 0] ++ S ++ [Event.writePacket (encodedData env n) fc] ++
                mux ++ [Event.av_packet_unref p] ++ R := by
          intro S R; simp
        rw [hsplit]
        simp only [writePacketCalls_append, writePacketCalls_stageAndSubmit, hmux]
        simp [writePacketCalls]

theorem transcodeRun_writePacketCalls_write (N : Nat) (env : Env) (write : Nat → Int)
    (l : List AVPacket) :
    ∀ (n : Nat) (self : VideoTranscoder) (fc : Int),
      writePacketCalls
          (transcodeRun N { env with av_interleaved_write_frame := write } l n self fc).events =
        writePacketCalls (transcodeRun N env l n self fc).events := by
  induction l with
  | nil => intro n self fc; rfl
  | cons p rest ih =>
    intro n self fc
    by_cases hp : p.stream_index = self.demuxer.videoStreamIndex
    · rw [transcodeRun_writePacketCalls_video N env p rest n self fc hp,
        transcodeRun_writePacketCalls_video N { env with av_interleaved_write_frame := write }
          p rest n self fc hp]
      have hstate := writePacket_state env.avformat_write_header (write n)
        (env.av_interleaved_write_frame n) self.muxer (encodedData env n) fc
      show (encodedData env n, fc) ::
          (match (self.muxer.writePacket env.avformat_write_header (write n)
              (encodedData env n) fc).2 with
          | (_, some _) => []
          | (muxer, none) =>
            writePacketCalls
              (transcodeRun N { env with av_interleaved_write_frame := write } rest (n + 1)
                { self with
                  demuxer := { self.demuxer with pending := rest },
                  muxer := muxer,
                  currentFrame := (self.currentFrame + 1) % 2 ^ 32 % N }
                (toInt32 (fc + 1))).events) = _
      rw [hstate]
      cases (self.muxer.writePacket env.avformat_write_header
          (env.av_interleaved_write_frame n) (encodedData env n) fc).2 with
      | mk muxer thrown =>
        cases thrown with
        | some e => rfl
        | none => simp only [ih]
    · rw [(transcodeRun_cons_skip N env p rest n self fc hp).1,
        (transcodeRun_cons_skip N { env with av_interleaved_write_frame := write } p rest n self
          fc hp).1, writePacketCalls_append, writePacketCalls_append, ih]

/-- C25, refuted as stated: with two video packets, on a container library that
fails to write the packet of every frame, the loop does not end with an error:
after the failed write of frame 0 it goes on with frame 1 and returns normally,
having called `writePacket` for both frames, with timestamps 0 and 1. -/
theorem transcodeLoop_continues_after_write_failure :
    ((transcoderOn [⟨0, 100⟩, ⟨0, 200⟩]).transcodeLoop 1 writeFailingEnv).outcome = .returned ∧
    writeResults ((transcoderOn [⟨0, 100⟩, ⟨0, 200⟩]).transcodeLoop 1 writeFailingEnv).events =
      [-5, -5] ∧
    (writePacketCalls
      ((transcoderOn [⟨0, 100⟩, ⟨0, 200⟩]).transcodeLoop 1 writeFailingEnv).events).map
        Prod.snd = [0, 1] ∧
    fenceWaits ((transcoderOn [⟨0, 100⟩, ⟨0, 200⟩]).transcodeLoop 1 writeFailingEnv).events =
      [0, 0] := by
  refine ⟨by decide, by decide, by decide, by decide⟩

/-- C25, amended: during the transcode loop a failed write of a packet by the
muxer is not surfaced (`writePacket` prints a warning and returns) and the loop
continues with the next frame: how the loop ends and the calls of `writePacket`
it makes are the same whatever `av_interleaved_write_frame` returns for each
frame.  The loop ends with an error when `av_packet_alloc` fails and when
`avformat_write_header` fails at the first video frame. -/
theorem transcodeLoop_write_failure_not_surfaced (numFrameResources : Nat) (env : Env)
    (self : VideoTranscoder) :
    (∀ write : Nat → Int,
      (self.transcodeLoop numFrameResources
          { env with av_interleaved_write_frame := write }).outcome =
        (self.transcodeLoop numFrameResources env).outcome ∧
      writePacketCalls (self.transcodeLoop numFrameResources
          { env with av_interleaved_write_frame := write }).events =
        writePacketCalls (self.transcodeLoop numFrameResources env).events) ∧
    (env.av_packet_alloc = false →
      (self.transcodeLoop numFrameResources env).outcome =
        .threw (.runtime_error "Failed to allocate AVPacket")) ∧
    (env.av_packet_alloc = true → env.avformat_write_header < 0 →
      self.muxer.headerWritten = false →
      (∃ p ∈ self.demuxer.pending, p.stream_index = self.demuxer.videoStreamIndex) →
      (self.transcodeLoop numFrameResources env).outcome =
        .threw (.runtime_error "Muxer: Error occurred when writing header")) := by
  refine ⟨?_, ?_, ?_⟩
  · intro write
    constructor
    · rw [transcodeLoop_outcome_eq, transcodeLoop_outcome_eq]
    · by_cases halloc : env.av_packet_alloc = true
      · rw [transcodeLoop_eq_transcodeRun numFrameResources env self halloc,
          transcodeLoop_eq_transcodeRun numFrameResources
            { env with av_interleaved_write_frame := write } self halloc]
        exact transcodeRun_writePacketCalls_write numFrameResources env write _ _ _ _
      · simp [VideoTranscoder.transcodeLoop, halloc]
  · intro halloc
    simp [VideoTranscoder.transcodeLoop, halloc]
  · intro halloc hheader hfresh hvideo
    rw [transcodeLoop_outcome_eq, if_pos halloc, if_pos ⟨hheader, hfresh, hvideo⟩]

end VulkanTranscoder
